import Mathlib

/-!
# ESP32 wireless accessory bridge: negotiator, endpoint controller, transport bridge

A shallow embedding of the accessory-protocol negotiator (`aoa_protocol.cpp`), the USB
gadget layer (`usb_gadget.cpp`), the register-level endpoint controller
(`esp32_usb_otg.cpp`), the transport bridge (`proxy_handler.cpp`) and the orchestrator
(`main.cpp`).

Conventions of the embedding.

* The process-wide variables of each translation unit are the fields of one record per
  unit, and the records are gathered in `System`. A C function becomes a function from
  the record of its own unit, or from `System` when it reaches into another unit, to its
  result and the next state.
* `status_t` and `esp_err_t` are both `int` in the C code and are mixed freely there
  (`aoa_start_accessory_mode` returns what `usb_set_device_descriptor` returns), so both
  are embedded as `Int`.
* Machine integers are `Nat`; casts and wrap-around are written out (`% 256`,
  `% 65536`, `% 4294967296`).
* A pointer argument is an `Option`: `none` is the null pointer, `some buf` a buffer with
  the contents `buf`.
* Log statements and delays have no effect on the state and are left out.
-/

namespace Vibecoding

/-! ## Status codes (`common.h`, `esp_err.h`) -/

abbrev STATUS_OK : Int := 0
abbrev STATUS_ERROR_INIT : Int := -1
abbrev STATUS_ERROR_CONNECTION : Int := -2
abbrev STATUS_ERROR_PROTOCOL : Int := -3
abbrev STATUS_ERROR_MEMORY : Int := -4

abbrev ESP_OK : Int := 0
abbrev ESP_ERR_INVALID_ARG : Int := 0x102
abbrev ESP_ERR_INVALID_STATE : Int := 0x103
abbrev ESP_ERR_TIMEOUT : Int := 0x107

/-! ## Protocol constants (`common.h`, `usb_gadget.h`) -/

abbrev AOA_VID : Nat := 0x18D1
abbrev AOA_PID_ACCESSORY : Nat := 0x2D00
abbrev AOA_PID_ACCESSORY_ADB : Nat := 0x2D01

abbrev AOA_CMD_GET_PROTOCOL : Nat := 51
abbrev AOA_CMD_SEND_STRING : Nat := 52
abbrev AOA_CMD_START_ACCESSORY : Nat := 53
abbrev AOA_CMD_REGISTER_HID : Nat := 54
abbrev AOA_CMD_UNREGISTER_HID : Nat := 55
abbrev AOA_CMD_SET_HID_REPORT_DESC : Nat := 56
abbrev AOA_CMD_SEND_HID_EVENT : Nat := 57
abbrev AOA_CMD_AUDIO_SUPPORT : Nat := 58

abbrev USB_VID_GOOGLE : Nat := 0x18D1
abbrev USB_PID_ANDROID_ACCESSORY : Nat := 0x2D00
abbrev USB_PID_ANDROID_ACCESSORY_ADB : Nat := 0x2D01

abbrev USB_EP1_IN_ADDR : Nat := 0x81
abbrev USB_EP1_OUT_ADDR : Nat := 0x01

abbrev USB_REQ_TYPE_STANDARD : Nat := 0x00 <<< 5
abbrev USB_REQ_TYPE_CLASS : Nat := 0x01 <<< 5
abbrev USB_REQ_TYPE_VENDOR : Nat := 0x02 <<< 5
abbrev USB_REQ_TYPE_RECIPIENT_DEVICE : Nat := 0x00

/-! ## Negotiator data model (`aoa_protocol.cpp`, `common.h`) -/

/-- The negotiation state, `aoa_state_t` of `aoa_protocol.cpp`. -/
inductive aoa_state_t where
  | AOA_STATE_DISCONNECTED
  | AOA_STATE_CONNECTED
  | AOA_STATE_DETECTING
  | AOA_STATE_NEGOTIATING
  | AOA_STATE_SENDING_STRINGS
  | AOA_STATE_STARTING_ACCESSORY
  | AOA_STATE_ACCESSORY_MODE
  deriving DecidableEq, Repr

open aoa_state_t

/-- The device identity, `device_info_t` of `common.h`: six character arrays. -/
structure device_info_t where
  manufacturer : String
  model : String
  description : String
  version : String
  uri : String
  serial : String
  deriving DecidableEq, Repr

/-- The identity record of the gadget layer, `usb_device_info_t` of `usb_gadget.h`. -/
structure usb_device_info_t where
  vid : Nat
  pid : Nat
  is_accessory_mode : Bool
  is_connected : Bool
  device_address : Nat
  deriving DecidableEq, Repr

/-- The file-scope variables of `aoa_protocol.cpp`. -/
structure AoaGlobals where
  g_aoa_state : aoa_state_t
  g_is_accessory_mode : Bool
  g_current_device_info : device_info_t
  g_aoa_protocol_version : Nat
  deriving DecidableEq, Repr

/-- The file-scope variables of `usb_gadget.cpp`. -/
structure GadgetGlobals where
  g_usb_initialized : Bool
  g_device_configured : Bool
  g_endpoint_configured : Bool
  g_device_info : usb_device_info_t
  deriving DecidableEq, Repr

/-- The value `g_default_device_info` of `aoa_protocol.cpp`. -/
def g_default_device_info : device_info_t where
  manufacturer := "DIY Wireless Dongle"
  model := "ESP32-AA-Dongle"
  description := "ESP32 Wireless Android Auto Dongle"
  version := "1.0"
  uri := "https://github.com/user/esp32-wireless-dongle"
  serial := "ESP32AA001"

/-- The static initialiser of `g_device_info` in `usb_gadget.cpp`. -/
def g_device_info_initial : usb_device_info_t where
  vid := USB_VID_GOOGLE
  pid := USB_PID_ANDROID_ACCESSORY
  is_accessory_mode := false
  is_connected := false
  device_address := 0

/-! ## Endpoint-controller data model (`esp32_usb_otg.h`, `esp32_usb_otg.cpp`) -/

abbrev GUSBCFG_FHMOD : Nat := 1 <<< 29
abbrev GUSBCFG_FDMOD : Nat := 1 <<< 30
abbrev GAHBCFG_GINT : Nat := 1 <<< 0
abbrev GAHBCFG_TXFELVL : Nat := 1 <<< 7
abbrev GRSTCTL_CSFTRST : Nat := 1 <<< 0
abbrev GRSTCTL_RXFFLSH : Nat := 1 <<< 3
abbrev GRSTCTL_TXFFLSH : Nat := 1 <<< 4
abbrev GINTSTS_OEPINT : Nat := 1 <<< 19
abbrev GINTSTS_IEPINT : Nat := 1 <<< 18
abbrev GINTSTS_ENUMDNE : Nat := 1 <<< 13
abbrev GINTSTS_USBRST : Nat := 1 <<< 12
abbrev GINTSTS_USBSUSP : Nat := 1 <<< 11
abbrev GINTSTS_RXFLVL : Nat := 1 <<< 6
abbrev DCFG_DEVADDR_SHIFT : Nat := 4
abbrev DCFG_DEVADDR_MASK : Nat := 0x7F <<< DCFG_DEVADDR_SHIFT
abbrev DEPCTL_EPENA : Nat := 1 <<< 31

/-- The C complement `~x` of a 32-bit value. -/
def not32 (x : Nat) : Nat :=
  0xFFFFFFFF - x % 4294967296

/-- The file-scope variables of `esp32_usb_otg.cpp` and the peripheral registers they
point at. A register that the code both writes and reads back holds the last value
written; the values the hardware supplies are the receive status `grxstsr`, the words
waiting in each receive FIFO (`rx_fifo`), and the reads of the two polling loops, which
are arguments of the functions that poll. `tx_fifo n` lists the words written to the
transmit FIFO register of endpoint `n`, oldest first, and `grxstsr_writes` the values
written to the receive-status register. -/
structure OtgGlobals where
  /-- Whether `g_usb_regs` is non-null. -/
  regs_mapped : Bool
  gusbcfg : Nat
  gahbcfg : Nat
  grstctl : Nat
  gintmsk : Nat
  grxstsr : Nat
  dcfg : Nat
  diepmsk : Nat
  doepmsk : Nat
  diepempmsk : Nat
  in_ep_diepctl : Nat → Nat
  out_ep_doepctl : Nat → Nat
  /-- The registers `g_usb_regs->core.in_ep[n].diepctl`, which the code addresses apart from
  `g_usb_regs->in_ep[n].diepctl`. -/
  core_in_ep_diepctl : Nat → Nat
  /-- The registers `g_usb_regs->core.out_ep[n].doepctl`. -/
  core_out_ep_doepctl : Nat → Nat
  tx_fifo : Nat → List Nat
  rx_fifo : Nat → List Nat
  grxstsr_writes : List Nat
  g_usb_initialized : Bool
  g_device_configured : Bool
  g_device_address : Nat
  g_is_connected : Bool

/-! ## Transport-bridge data model (`proxy_handler.cpp`) -/

abbrev PROXY_BUFFER_SIZE : Nat := 4096

/-- The byte counters and running flag, `proxy_context_t`. -/
structure proxy_context_t where
  running : Bool
  usb_bytes_sent : Nat
  usb_bytes_received : Nat
  tcp_bytes_sent : Nat
  tcp_bytes_received : Nat
  deriving DecidableEq, Repr

/-- The file-scope variables of `proxy_handler.cpp`. A task, mutex or queue handle is
embedded as the boolean "is not NULL". -/
structure ProxyGlobals where
  g_proxy_active : Bool
  g_proxy_task_handle : Bool
  g_usb_task_handle : Bool
  g_tcp_task_handle : Bool
  g_proxy_mutex : Bool
  g_server_socket : Int
  g_client_socket : Int
  g_proxy_context : proxy_context_t
  deriving DecidableEq, Repr

/-- All process-wide state: the file-scope variables of the negotiator, the gadget layer,
the endpoint controller and the transport bridge. -/
structure System where
  aoa : AoaGlobals
  gadget : GadgetGlobals
  otg : OtgGlobals
  proxy : ProxyGlobals

/-! ## Gadget layer (`usb_gadget.cpp`) -/

/-- The function `usb_set_device_descriptor(vid, pid)` of `usb_gadget.cpp`. -/
def usb_set_device_descriptor (vid pid : Nat) (g : GadgetGlobals) : Int × GadgetGlobals :=
  (ESP_OK,
    { g with g_device_info :=
        { g.g_device_info with
            vid := vid
            pid := pid
            is_accessory_mode :=
              (pid == USB_PID_ANDROID_ACCESSORY || pid == USB_PID_ANDROID_ACCESSORY_ADB) } })

/-! ## Negotiator (`aoa_protocol.cpp`) -/

/-- The function `aoa_init` of `aoa_protocol.cpp`. -/
def aoa_init (s : System) : Int × System :=
  (STATUS_OK,
    { s with aoa :=
        { g_aoa_state := AOA_STATE_DISCONNECTED
          g_is_accessory_mode := false
          g_aoa_protocol_version := 0
          g_current_device_info := g_default_device_info } })

/-- The function `aoa_get_state`. -/
def aoa_get_state (s : System) : aoa_state_t :=
  s.aoa.g_aoa_state

/-- The function `aoa_is_accessory_mode`. -/
def aoa_is_accessory_mode (s : System) : Bool :=
  s.aoa.g_is_accessory_mode

/-- The function `aoa_handle_get_protocol(&protocol_version)`: the second component of the
result is the value stored through the pointer. -/
def aoa_handle_get_protocol (s : System) : Int × Nat × System :=
  let s1 : System :=
    if s.aoa.g_aoa_state = AOA_STATE_CONNECTED then
      { s with aoa := { s.aoa with g_aoa_state := AOA_STATE_NEGOTIATING } }
    else s
  (STATUS_OK, 2, { s1 with aoa := { s1.aoa with g_aoa_protocol_version := 2 } })

/-- The function `aoa_handle_send_string(string_index, string)`. The received string is
only logged, so the stored identity is not written. -/
def aoa_handle_send_string (_string_index : Nat) (_string : Option (List Nat)) (s : System) :
    Int × System :=
  let s1 : System :=
    if s.aoa.g_aoa_state ≠ AOA_STATE_NEGOTIATING ∧ s.aoa.g_aoa_state ≠ AOA_STATE_SENDING_STRINGS then
      if s.aoa.g_aoa_state = AOA_STATE_CONNECTED then
        { s with aoa := { s.aoa with g_aoa_state := AOA_STATE_NEGOTIATING } }
      else s
    else s
  let s2 : System :=
    if s1.aoa.g_aoa_state = AOA_STATE_NEGOTIATING then
      { s1 with aoa := { s1.aoa with g_aoa_state := AOA_STATE_SENDING_STRINGS } }
    else s1
  (STATUS_OK, s2)

/-- The function `aoa_start_accessory_mode`. -/
def aoa_start_accessory_mode (s : System) : Int × System :=
  let r := usb_set_device_descriptor AOA_VID AOA_PID_ACCESSORY s.gadget
  if r.1 ≠ STATUS_OK then
    (r.1, { s with gadget := r.2 })
  else
    (STATUS_OK, { s with gadget := r.2, aoa := { s.aoa with g_is_accessory_mode := true } })

/-- The function `aoa_handle_start_accessory`. -/
def aoa_handle_start_accessory (s : System) : Int × System :=
  if s.aoa.g_aoa_state = AOA_STATE_SENDING_STRINGS then
    let s1 : System := { s with aoa := { s.aoa with g_aoa_state := AOA_STATE_STARTING_ACCESSORY } }
    let r := aoa_start_accessory_mode s1
    if r.1 ≠ STATUS_OK then
      r
    else
      (STATUS_OK, { r.2 with aoa := { r.2.aoa with g_aoa_state := AOA_STATE_ACCESSORY_MODE } })
  else
    (STATUS_OK, s)

/-- The function `aoa_set_device_info(device_info)`; `none` is the null pointer. -/
def aoa_set_device_info (device_info : Option device_info_t) (s : System) : Int × System :=
  match device_info with
  | none => (STATUS_ERROR_PROTOCOL, s)
  | some d => (STATUS_OK, { s with aoa := { s.aoa with g_current_device_info := d } })

/-- The function `aoa_handle_control_request(bmRequestType, bRequest, wValue, wIndex, data,
length)`. The result is the status, the data buffer after the call and the next state.
`data[0]` and `data[1]` are written with `List.set`; the string index is `(uint8_t)wIndex`. -/
def aoa_handle_control_request (bmRequestType bRequest _wValue wIndex : Nat)
    (data : Option (List Nat)) (length : Nat) (s : System) :
    Int × Option (List Nat) × System :=
  if bmRequestType &&& 0x60 ≠ USB_REQ_TYPE_VENDOR then
    (STATUS_ERROR_PROTOCOL, data, s)
  else if bRequest = AOA_CMD_GET_PROTOCOL then
    match data with
    | some buf =>
      if length ≥ 2 then
        let r := aoa_handle_get_protocol s
        let protocol := r.2.1
        (r.1, some ((buf.set 0 (protocol &&& 0xFF)).set 1 ((protocol >>> 8) &&& 0xFF)), r.2.2)
      else (STATUS_ERROR_PROTOCOL, data, s)
    | none => (STATUS_ERROR_PROTOCOL, data, s)
  else if bRequest = AOA_CMD_SEND_STRING then
    let r := aoa_handle_send_string (wIndex % 256) data s
    (r.1, data, r.2)
  else if bRequest = AOA_CMD_START_ACCESSORY then
    let r := aoa_handle_start_accessory s
    (r.1, data, r.2)
  else
    (STATUS_ERROR_PROTOCOL, data, s)

/-- The state after handling a list of control requests in order, each given as
`(bmRequestType, bRequest, wValue, wIndex, data, length)`, together with the statuses
returned, oldest first. -/
def handle_requests :
    List (Nat × Nat × Nat × Nat × Option (List Nat) × Nat) → System → List Int × System
  | [], s => ([], s)
  | (bm, req, v, i, d, n) :: rest, s =>
    let r := aoa_handle_control_request bm req v i d n s
    let q := handle_requests rest r.2.2
    (r.1 :: q.1, q.2)

/-! ## Endpoint controller (`esp32_usb_otg.cpp`) -/

/-- The polling loops `while (busy && timeout--) delay;` of `esp32_usb_otg_soft_reset` and
`esp32_usb_otg_write_endpoint`. `busy k` is what the `k`-th read of the polled register
shows. The arguments are the current value of the `uint32_t timeout` and the number of
reads made so far; the result is the value of `timeout` when the loop is left and the
total number of reads. The loop condition reads the register first and evaluates
`timeout--` only when the register shows busy; `timeout--` yields the old value and
decrements, so evaluated at 0 it ends the loop and leaves `timeout` at 0xFFFFFFFF. -/
def spin_wait (busy : Nat → Bool) : Nat → Nat → Nat × Nat
  | 0, k => if busy k then (4294967295, k + 1) else (0, k + 1)
  | t + 1, k => if busy k then spin_wait busy t (k + 1) else (t + 1, k + 1)

/-- The function `esp32_usb_otg_soft_reset`; `grstctl_reads k` is the value of the `k`-th
read of `grstctl` made by the polling loop. -/
def esp32_usb_otg_soft_reset (grstctl_reads : Nat → Nat) (o : OtgGlobals) : Int × OtgGlobals :=
  if o.regs_mapped = false then
    (ESP_ERR_INVALID_STATE, o)
  else
    let o1 : OtgGlobals := { o with grstctl := o.grstctl ||| GRSTCTL_CSFTRST }
    let timeout := (spin_wait (fun k => grstctl_reads k &&& GRSTCTL_CSFTRST != 0) 1000 0).1
    if timeout = 0 then
      (ESP_ERR_TIMEOUT, o1)
    else
      let o2 : OtgGlobals := { o1 with grstctl := o1.grstctl ||| GRSTCTL_TXFFLSH }
      let o3 : OtgGlobals := { o2 with grstctl := o2.grstctl &&& not32 GRSTCTL_TXFFLSH }
      let o4 : OtgGlobals := { o3 with grstctl := o3.grstctl ||| GRSTCTL_RXFFLSH }
      let o5 : OtgGlobals := { o4 with grstctl := o4.grstctl &&& not32 GRSTCTL_RXFFLSH }
      (ESP_OK, o5)

/-- The function `esp32_usb_otg_init`. `g_usb_regs` is set to the constant non-zero address
`USB_OTG_BASE`, so the null check after it never fires. The constants `DCFG_DSPD_FS` and
`GAHBCFG_HBSTLEN_16` are used by the function but defined in no header of the repository;
they are arguments here. -/
def esp32_usb_otg_init (DCFG_DSPD_FS GAHBCFG_HBSTLEN_16 : Nat) (grstctl_reads : Nat → Nat)
    (o : OtgGlobals) : Int × OtgGlobals :=
  let o0 : OtgGlobals := { o with regs_mapped := true }
  let r := esp32_usb_otg_soft_reset grstctl_reads o0
  if r.1 ≠ ESP_OK then
    (r.1, r.2)
  else
    let o1 : OtgGlobals := { r.2 with gusbcfg := r.2.gusbcfg &&& not32 GUSBCFG_FHMOD }
    let o2 : OtgGlobals := { o1 with gusbcfg := o1.gusbcfg ||| GUSBCFG_FDMOD }
    let o3 : OtgGlobals :=
      { o2 with gahbcfg := GAHBCFG_GINT ||| GAHBCFG_TXFELVL ||| GAHBCFG_HBSTLEN_16 }
    let o4 : OtgGlobals := { o3 with dcfg := o3.dcfg ||| DCFG_DSPD_FS }
    let o5 : OtgGlobals :=
      { o4 with gintmsk := GINTSTS_USBRST ||| GINTSTS_ENUMDNE ||| GINTSTS_RXFLVL |||
          GINTSTS_IEPINT ||| GINTSTS_OEPINT ||| GINTSTS_USBSUSP ||| GINTSTS_USBRST |||
          GINTSTS_ENUMDNE }
    (ESP_OK,
      { o5 with
          g_usb_initialized := true
          g_device_configured := false
          g_device_address := 0
          g_is_connected := false })

/-- The function `esp32_usb_otg_set_address(addr)`. -/
def esp32_usb_otg_set_address (addr : Nat) (o : OtgGlobals) : Int × OtgGlobals :=
  if o.regs_mapped = false ∨ o.g_usb_initialized = false then
    (ESP_ERR_INVALID_STATE, o)
  else
    let dcfg := o.dcfg &&& not32 DCFG_DEVADDR_MASK
    let dcfg := dcfg ||| ((addr <<< DCFG_DEVADDR_SHIFT) &&& DCFG_DEVADDR_MASK)
    (ESP_OK, { o with dcfg := dcfg, g_device_address := addr })

/-- The function `esp32_usb_otg_disable_endpoint(ep_num, is_in)`. Like the enable function
it has no check of `ep_num`, and an index above 15 is kept as entry `ep_num` of the
register function, without the overlap of `in_ep[16]` with `out_ep[0]`. -/
def esp32_usb_otg_disable_endpoint (ep_num : Nat) (is_in : Bool) (o : OtgGlobals) :
    Int × OtgGlobals :=
  if o.regs_mapped = false ∨ o.g_usb_initialized = false then
    (ESP_ERR_INVALID_STATE, o)
  else if is_in then
    (ESP_OK,
      { o with
          in_ep_diepctl :=
            Function.update o.in_ep_diepctl ep_num (o.in_ep_diepctl ep_num &&& not32 DEPCTL_EPENA)
          diepempmsk := o.diepempmsk &&& not32 (1 <<< ep_num)
          diepmsk := o.diepmsk &&& not32 (1 <<< ep_num) })
  else
    (ESP_OK,
      { o with
          out_ep_doepctl :=
            Function.update o.out_ep_doepctl ep_num
              (o.out_ep_doepctl ep_num &&& not32 DEPCTL_EPENA)
          doepmsk := o.doepmsk &&& not32 (1 <<< ep_num) })

/-- The function `handle_reset_interrupt`, the handler of the USB reset event. It works on
the variables of `esp32_usb_otg.cpp` only. -/
def handle_reset_interrupt (s : System) : System :=
  let o1 := (esp32_usb_otg_set_address 0 s.otg).2
  let o2 := (List.range 16).foldl
    (fun o i => (esp32_usb_otg_disable_endpoint i false (esp32_usb_otg_disable_endpoint i true o).2).2)
    o1
  { s with otg := { o2 with g_device_configured := false, g_is_connected := false } }

/-- The state after a number of USB reset events, each handled by `handle_reset_interrupt`. -/
def handle_resets : Nat → System → System
  | 0, s => s
  | k + 1, s => handle_resets k (handle_reset_interrupt s)

/-- The inner loop of the write: the 32-bit word built from the bytes `src[i]`..`src[i+3]`
that lie below `chunk_size`, byte `j` shifted left by `8 * j` and or-ed in. -/
def pack_word (src : List Nat) (i chunk_size : Nat) : Nat :=
  (List.range 4).foldl
    (fun word j => if i + j < chunk_size then word ||| (src.getD (i + j) 0 <<< (j * 8)) else word)
    0

/-- The loop `for (i = 0; i < chunk_size; i += 4)` of the write: the words put in the
FIFO for one chunk, in order; iteration `k` has `i = 4 * k`. -/
def chunk_words (src : List Nat) (chunk_size : Nat) : List Nat :=
  (List.range ((chunk_size + 3) / 4)).map (fun k => pack_word src (4 * k) chunk_size)

/-- The loop `while (remaining > 0 && timeout--)` of the write, with `packet_size = 64`.
The arguments are the current `timeout`, the bytes from `src` on, and `remaining`. The
result is the value of `timeout` when the loop is left and, for every iteration in order,
its `chunk_size` and the words it wrote to the FIFO. -/
def write_loop : Nat → List Nat → Nat → Nat × List (Nat × List Nat)
  | 0, _, remaining => (if remaining > 0 then 4294967295 else 0, [])
  | t + 1, src, remaining =>
    if remaining > 0 then
      let chunk_size := if remaining > 64 then 64 else remaining
      let r := write_loop t (src.drop chunk_size) (remaining - chunk_size)
      (r.1, (chunk_size, chunk_words src chunk_size) :: r.2)
    else
      (t + 1, [])

/-- The sum of the chunk sizes of a list of chunks: what the loop adds to `*transferred`. -/
def chunks_total (chunks : List (Nat × List Nat)) : Nat :=
  (chunks.map (fun c => c.1)).sum

/-- The words of a list of chunks, in the order they were written. -/
def chunks_words (chunks : List (Nat × List Nat)) : List Nat :=
  (chunks.map (fun c => c.2)).flatten

/-- The function `esp32_usb_otg_write_endpoint(ep_num, data, length, transferred)`.
`dtxfsts_reads k` is the value of the `k`-th read of the endpoint's `dtxfsts`; `length` is
a `uint16_t`; `transferred` is `none` for a null pointer and otherwise the value stored
there on entry. The result is the status, the value of `*transferred` on return and the
next state, whose `tx_fifo ep_num` has the written words appended. -/
def esp32_usb_otg_write_endpoint (dtxfsts_reads : Nat → Nat) (ep_num : Nat)
    (data : Option (List Nat)) (length : Nat) (transferred : Option Nat) (o : OtgGlobals) :
    Int × Option Nat × OtgGlobals :=
  match data, transferred with
  | some src, some _ =>
    if o.regs_mapped = false ∨ o.g_usb_initialized = false then
      (ESP_ERR_INVALID_ARG, transferred, o)
    else if ep_num > 15 then
      (ESP_ERR_INVALID_ARG, transferred, o)
    else
      let timeout := (spin_wait (fun k => dtxfsts_reads k &&& (1 <<< 0) == 0) 1000 0).1
      if timeout = 0 then
        (ESP_ERR_TIMEOUT, some 0, o)
      else
        let w := write_loop timeout src length
        let o1 : OtgGlobals :=
          { o with tx_fifo := Function.update o.tx_fifo ep_num (o.tx_fifo ep_num ++ chunks_words w.2) }
        if w.1 = 0 then
          (ESP_ERR_TIMEOUT, some (chunks_total w.2), o1)
        else
          (ESP_OK, some (chunks_total w.2), o1)
  | _, _ => (ESP_ERR_INVALID_ARG, transferred, o)

/-- The inner loop of the read: the bytes a word yields for the positions `i`..`i+3` that
lie below `bytes_to_read`, byte `j` being `(word >> (j * 8)) & 0xFF`. -/
def unpack_word (word i bytes_to_read : Nat) : List Nat :=
  (List.range 4).filterMap
    (fun j => if i + j < bytes_to_read then some ((word >>> (j * 8)) &&& 0xFF) else none)

/-- The loop `for (i = 0; i < bytes_to_read; i += 4)` of the read: iteration `k` pops one
word from the FIFO and stores its bytes at `dest[4 * k]` onwards, so the bytes stored are
the following list, in order from `dest[0]`. A read of an empty FIFO is taken to give 0. -/
def read_words (fifo : List Nat) (bytes_to_read : Nat) : List Nat :=
  ((List.range ((bytes_to_read + 3) / 4)).map
    (fun k => unpack_word (fifo.getD k 0) (4 * k) bytes_to_read)).flatten

/-- The function `esp32_usb_otg_read_endpoint(ep_num, data, length, received)`; `length` is
a `uint16_t`. The result is the status, the buffer on return, the value of `*received` on
return, and the next state: the words read are removed from `rx_fifo ep_num` and the value
written back to `grxstsr` to pop the status entry is appended to `grxstsr_writes`. The
bytes read replace the first `bytes_to_read` bytes of the buffer, which the caller must
have made at least `length` bytes long. -/
def esp32_usb_otg_read_endpoint (ep_num : Nat) (data : Option (List Nat)) (length : Nat)
    (received : Option Nat) (o : OtgGlobals) :
    Int × Option (List Nat) × Option Nat × OtgGlobals :=
  match data, received with
  | some dest, some _ =>
    if o.regs_mapped = false ∨ o.g_usb_initialized = false then
      (ESP_ERR_INVALID_ARG, data, received, o)
    else if ep_num > 15 then
      (ESP_ERR_INVALID_ARG, data, received, o)
    else
      let grxstsr := o.grxstsr
      let available_ep := (grxstsr &&& 0x7F) % 256
      let available_bytes := ((grxstsr >>> 16) &&& 0x7FF) % 65536
      if available_ep ≠ ep_num ∨ available_bytes = 0 then
        (ESP_OK, data, some 0, o)
      else
        let bytes_to_read := if available_bytes < length then available_bytes else length
        let bytes_to_read := if bytes_to_read < length then bytes_to_read else length
        let bytes := read_words (o.rx_fifo ep_num) bytes_to_read
        (ESP_OK, some (bytes ++ dest.drop bytes_to_read), some bytes_to_read,
          { o with
              rx_fifo :=
                Function.update o.rx_fifo ep_num ((o.rx_fifo ep_num).drop ((bytes_to_read + 3) / 4))
              grxstsr_writes := o.grxstsr_writes ++ [grxstsr] })
  | _, _ => (ESP_ERR_INVALID_ARG, data, received, o)

/-! ## Bulk transfers of the gadget layer (`usb_gadget.cpp`) -/

/-- The function `usb_otg_ep_write(ep_num, data, length)`; `length` is a `size_t` and is
converted to the `uint16_t` parameter of the controller's write. -/
def usb_otg_ep_write (dtxfsts_reads : Nat → Nat) (ep_num : Nat) (data : Option (List Nat))
    (length : Nat) (o : OtgGlobals) : Int × OtgGlobals :=
  if data = none ∨ length = 0 then
    (ESP_ERR_INVALID_ARG, o)
  else
    let r := esp32_usb_otg_write_endpoint dtxfsts_reads ep_num data (length % 65536) (some 0) o
    if r.1 ≠ ESP_OK then
      (r.1, r.2.2)
    else
      (ESP_OK, r.2.2)

/-- The function `usb_otg_ep_read(ep_num, data, length, received)`. -/
def usb_otg_ep_read (ep_num : Nat) (data : Option (List Nat)) (length : Nat)
    (received : Option Nat) (o : OtgGlobals) :
    Int × Option (List Nat) × Option Nat × OtgGlobals :=
  match data, received with
  | some _, some _ =>
    let r := esp32_usb_otg_read_endpoint ep_num data (length % 65536) (some 0) o
    if r.1 ≠ ESP_OK then
      (r.1, r.2.1, received, r.2.2.2)
    else
      (ESP_OK, r.2.1, r.2.2.1, r.2.2.2)
  | _, _ => (ESP_ERR_INVALID_ARG, data, received, o)

/-- The function `usb_bulk_transfer(endpoint, data, length, transferred)`; `endpoint` is a
`uint8_t`. The IN branch does not write `*transferred`. -/
def usb_bulk_transfer (dtxfsts_reads : Nat → Nat) (endpoint : Nat) (data : Option (List Nat))
    (length : Nat) (transferred : Option Nat) (s : System) :
    Int × Option (List Nat) × Option Nat × System :=
  if data = none ∨ transferred = none then
    (ESP_ERR_INVALID_ARG, data, transferred, s)
  else if s.gadget.g_usb_initialized = false ∨ s.gadget.g_endpoint_configured = false then
    (ESP_ERR_INVALID_STATE, data, transferred, s)
  else
    let ep_num := endpoint &&& 0x7F
    if endpoint &&& 0x80 ≠ 0 then
      let r := usb_otg_ep_write dtxfsts_reads ep_num data length s.otg
      (r.1, data, transferred, { s with otg := r.2 })
    else
      let r := usb_otg_ep_read ep_num data length transferred s.otg
      (r.1, r.2.1, r.2.2.1, { s with otg := r.2.2.2 })

/-! ## Transport bridge start, and the orchestrator (`proxy_handler.cpp`, `main.cpp`) -/

/-- The function `proxy_start`. `mutex_take_ok` tells whether `xSemaphoreTake` obtains the
mutex within its timeout and `task_create_ok` whether `xTaskCreate` returns `pdPASS`; the
task handle is written only by a successful `xTaskCreate`. -/
def proxy_start (mutex_take_ok task_create_ok : Bool) (s : System) : Int × System :=
  if s.proxy.g_proxy_active then
    (STATUS_OK, s)
  else if mutex_take_ok = false then
    (STATUS_ERROR_CONNECTION, s)
  else if task_create_ok = false then
    (STATUS_ERROR_MEMORY, s)
  else
    (STATUS_OK,
      { s with proxy := { s.proxy with g_proxy_task_handle := true, g_proxy_active := true } })

/-- The value `g_device_info` of `main.cpp`. -/
def main_g_device_info : device_info_t where
  manufacturer := "ESP32 Wireless"
  model := "ESP32-Auto"
  description := "ESP32 Wireless Android Auto Adapter"
  version := "1.0"
  uri := "https://github.com/user/esp32-auto"
  serial := "ESP32-AUTO-001"

/-- The function `start_accessory_mode` of `main.cpp`, the orchestrator step that publishes
the identity, starts accessory mode and starts the bridge. `info` is the content of
`g_device_info` of `main.cpp`, whose address is what `aoa_set_device_info` receives. -/
def start_accessory_mode (info : device_info_t) (mutex_take_ok task_create_ok : Bool)
    (s : System) : Int × System :=
  let r1 := aoa_set_device_info (some info) s
  if r1.1 ≠ STATUS_OK then
    r1
  else
    let r2 := aoa_start_accessory_mode r1.2
    if r2.1 ≠ STATUS_OK then
      r2
    else
      let r3 := proxy_start mutex_take_ok task_create_ok r2.2
      if r3.1 ≠ STATUS_OK then
        r3
      else
        (STATUS_OK, r3.2)

/-! ## Forwarding from USB to TCP (`proxy_handler.cpp`) -/

/-- What one call of `proxy_forward_usb_to_tcp` did: its status, the bytes it read from the
bulk OUT endpoint (`[]` when the read gave nothing), the bytes it passed to `send` (`[]`
when `send` was not called), the bytes the socket accepted (the first `sent` bytes passed,
when `send` returned `sent > 0`), and the next state. -/
structure usb_to_tcp_result where
  status : Int
  block : List Nat
  handed : List Nat
  accepted : List Nat
  next : System

/-- The function `proxy_forward_usb_to_tcp`. `stack_buffer` and `stack_transferred` are the
indeterminate initial contents of the locals `buffer` and `transferred`; `send` gives the
return value of the socket's `send` for the bytes passed to it. The endpoint address is
the constant `USB_EP1_OUT_ADDR`, so the transfer takes the read branch and the transmit
status reads are not consulted. The counters are `uint32_t`. -/
def proxy_forward_usb_to_tcp (stack_buffer : List Nat) (stack_transferred : Nat)
    (send : List Nat → Int) (s : System) : usb_to_tcp_result :=
  let r := usb_bulk_transfer (fun _ => 0) USB_EP1_OUT_ADDR (some stack_buffer) PROXY_BUFFER_SIZE
    (some stack_transferred) s
  let buffer := r.2.1.getD stack_buffer
  let transferred := r.2.2.1.getD stack_transferred
  let s1 := r.2.2.2
  let count_usb : System :=
    { s1 with proxy := { s1.proxy with g_proxy_context := { s1.proxy.g_proxy_context with
        usb_bytes_received :=
          (s1.proxy.g_proxy_context.usb_bytes_received + transferred) % 4294967296 } } }
  if r.1 = ESP_OK ∧ transferred > 0 then
    if s1.proxy.g_client_socket ≥ 0 then
      let sent := send (buffer.take transferred)
      if sent > 0 then
        let s2 : System :=
          { s1 with proxy := { s1.proxy with g_proxy_context := { s1.proxy.g_proxy_context with
              tcp_bytes_sent :=
                (s1.proxy.g_proxy_context.tcp_bytes_sent + sent.toNat) % 4294967296 } } }
        { status := STATUS_OK
          block := buffer.take transferred
          handed := buffer.take transferred
          accepted := (buffer.take transferred).take sent.toNat
          next :=
            { s2 with proxy := { s2.proxy with g_proxy_context := { s2.proxy.g_proxy_context with
                usb_bytes_received :=
                  (s2.proxy.g_proxy_context.usb_bytes_received + transferred) % 4294967296 } } } }
      else if sent < 0 then
        { status := STATUS_ERROR_CONNECTION
          block := buffer.take transferred
          handed := buffer.take transferred
          accepted := []
          next := s1 }
      else
        { status := STATUS_OK
          block := buffer.take transferred
          handed := buffer.take transferred
          accepted := []
          next := count_usb }
    else
      { status := STATUS_OK, block := buffer.take transferred, handed := [], accepted := [],
        next := count_usb }
  else
    { status := STATUS_OK, block := [], handed := [], accepted := [], next := s1 }

/-- One iteration of the loop of `usb_forward_task` as seen from outside: what the hardware
holds for the bulk OUT endpoint when the call is made (the receive status word and the
words in the receive FIFO of endpoint 1), the indeterminate locals of the call, and the
behaviour of the socket's `send` during the call. -/
structure usb_tick where
  grxstsr : Nat
  fifo : List Nat
  stack_buffer : List Nat
  stack_transferred : Nat
  send : List Nat → Int

/-- The hardware presents the receive status and FIFO contents of a tick. -/
def hardware_delivers (t : usb_tick) (s : System) : System :=
  { s with otg :=
      { s.otg with grxstsr := t.grxstsr, rx_fifo := Function.update s.otg.rx_fifo 1 t.fifo } }

/-- The loop of `usb_forward_task` over a list of ticks: before each call the hardware
presents the tick's data, and the loop is left at the first call that does not return
`STATUS_OK`. The result lists the blocks read from USB, the bytes the socket accepted, both
in order, and the final state. -/
def usb_forward_run : List usb_tick → System → List (List Nat) × List Nat × System
  | [], s => ([], [], s)
  | t :: rest, s =>
    let r := proxy_forward_usb_to_tcp t.stack_buffer t.stack_transferred t.send
      (hardware_delivers t s)
    if r.status ≠ STATUS_OK then
      ([r.block], r.accepted, r.next)
    else
      let q := usb_forward_run rest r.next
      (r.block :: q.1, r.accepted ++ q.2.1, q.2.2)

/-- The receive status word for a packet of `bcnt` bytes on endpoint `ep`: the endpoint
number in bits 6:0 and the byte count in bits 26:16, the two fields the read decodes. -/
def rx_status (ep bcnt : Nat) : Nat :=
  ep ||| (bcnt <<< 16)

/-- A loop-back of the chunks of a write into the read: every chunk is presented to
`esp32_usb_otg_read_endpoint` as one received packet on the same endpoint (status word
`rx_status ep_num chunk_size`, FIFO holding the chunk's words) with a zeroed buffer of
`length` bytes. The result is the bytes the reads returned, in order. -/
def loopback_read (ep_num length : Nat) (o : OtgGlobals) : List (Nat × List Nat) → List Nat
  | [] => []
  | c :: rest =>
    let o1 : OtgGlobals :=
      { o with grxstsr := rx_status ep_num c.1, rx_fifo := Function.update o.rx_fifo ep_num c.2 }
    let r := esp32_usb_otg_read_endpoint ep_num (some (List.replicate length 0)) length (some 0) o1
    (r.2.1.getD []).take (r.2.2.1.getD 0) ++ loopback_read ep_num length r.2.2.2 rest

/-- The chunks a call of `esp32_usb_otg_write_endpoint` hands to the FIFO: those of its
`write_loop`, run with the `timeout` left by the polling loop, when the call gets that
far, and none otherwise. -/
def write_chunks (dtxfsts_reads : Nat → Nat) (ep_num : Nat) (data : Option (List Nat))
    (length : Nat) (transferred : Option Nat) (o : OtgGlobals) : List (Nat × List Nat) :=
  match data, transferred with
  | some src, some _ =>
    if o.regs_mapped = false ∨ o.g_usb_initialized = false ∨ ep_num > 15 then []
    else
      let timeout := (spin_wait (fun k => dtxfsts_reads k &&& (1 <<< 0) == 0) 1000 0).1
      if timeout = 0 then [] else (write_loop timeout src length).2
  | _, _ => []

/-- The static initialisers of the file-scope variables of `esp32_usb_otg.cpp`, with every
register zero and every FIFO empty. -/
def otg_static_init : OtgGlobals where
  regs_mapped := false
  gusbcfg := 0
  gahbcfg := 0
  grstctl := 0
  gintmsk := 0
  grxstsr := 0
  dcfg := 0
  diepmsk := 0
  doepmsk := 0
  diepempmsk := 0
  in_ep_diepctl := fun _ => 0
  out_ep_doepctl := fun _ => 0
  core_in_ep_diepctl := fun _ => 0
  core_out_ep_doepctl := fun _ => 0
  tx_fifo := fun _ => []
  rx_fifo := fun _ => []
  grxstsr_writes := []
  g_usb_initialized := false
  g_device_configured := false
  g_device_address := 0
  g_is_connected := false

/-- An initialised controller: `g_usb_regs` set and `g_usb_initialized` true, with every
register zero and every FIFO empty. -/
def otg_initialised : OtgGlobals :=
  { otg_static_init with regs_mapped := true, g_usb_initialized := true }

/-- A sequence of 64001 bytes, each 0xAB. -/
def bytes_64001 : List Nat :=
  List.replicate 64001 0xAB

/-- The static initialisers of every file-scope variable: the state at program start. -/
def system_static_init : System where
  aoa :=
    { g_aoa_state := AOA_STATE_DISCONNECTED
      g_is_accessory_mode := false
      g_current_device_info :=
        { manufacturer := "", model := "", description := "", version := "", uri := "",
          serial := "" }
      g_aoa_protocol_version := 0 }
  gadget :=
    { g_usb_initialized := false
      g_device_configured := false
      g_endpoint_configured := false
      g_device_info := g_device_info_initial }
  otg := otg_static_init
  proxy :=
    { g_proxy_active := false
      g_proxy_task_handle := false
      g_usb_task_handle := false
      g_tcp_task_handle := false
      g_proxy_mutex := false
      g_server_socket := -1
      g_client_socket := -1
      g_proxy_context :=
        { running := false, usb_bytes_sent := 0, usb_bytes_received := 0, tcp_bytes_sent := 0,
          tcp_bytes_received := 0 } }

/-- A state as `init_usb` and `proxy_init` of `main.cpp` leave the flags and variables: the
controller and the gadget layer are initialised, `aoa_init` and `aoa_set_device_info` have
run, the proxy mutex exists. Every controller register is taken as zero here, not as
`usb_otg_init_peripheral` computes it. -/
def system_after_init : System :=
  { system_static_init with
      aoa :=
        { g_aoa_state := AOA_STATE_DISCONNECTED
          g_is_accessory_mode := false
          g_current_device_info := main_g_device_info
          g_aoa_protocol_version := 0 }
      gadget := { system_static_init.gadget with g_usb_initialized := true }
      otg := otg_initialised
      proxy := { system_static_init.proxy with g_proxy_mutex := true } }

/-- A state in which the bridge forwards: as `system_after_init`, with the gadget layer's
flag `g_endpoint_configured` set, the bridge active and a peer connected on socket 5; the
counters are zero and the controller registers are still all zero. -/
def system_bridging : System :=
  { system_after_init with
      gadget := { system_after_init.gadget with g_endpoint_configured := true }
      proxy :=
        { system_after_init.proxy with
            g_proxy_active := true
            g_client_socket := 5
            g_proxy_context := { system_after_init.proxy.g_proxy_context with running := true } } }

/-- A tick at which the hardware holds one received packet for endpoint 1, the four bytes
1, 2, 3, 4 packed in one FIFO word, and the socket behaves as `send`; the locals of the
call start zeroed. -/
def tick_four_bytes (send : List Nat → Int) : usb_tick where
  grxstsr := rx_status 1 4
  fifo := [0x04030201]
  stack_buffer := List.replicate PROXY_BUFFER_SIZE 0
  stack_transferred := 0
  send := send

/-- A state with the given negotiation state and everything else as at program start. -/
def system_in_state (st : aoa_state_t) : System :=
  { system_static_init with aoa := { system_static_init.aoa with g_aoa_state := st } }

/-- The request list of the responder handshake: `GET_PROTOCOL` with the buffer `buf` of
declared length `n`, `SEND_STRING` with `wIndex` 0 to 5 carrying `texts 0` to `texts 5`,
then `START_ACCESSORY`; `bm k` is the `bmRequestType` and `wv k` the `wValue` of request
number `k`. -/
def handshake_requests (bm wv : Nat → Nat) (buf : List Nat) (n : Nat) (texts : Nat → List Nat) :
    List (Nat × Nat × Nat × Nat × Option (List Nat) × Nat) :=
  [ (bm 0, AOA_CMD_GET_PROTOCOL, wv 0, 0, some buf, n),
    (bm 1, AOA_CMD_SEND_STRING, wv 1, 0, some (texts 0), (texts 0).length),
    (bm 2, AOA_CMD_SEND_STRING, wv 2, 1, some (texts 1), (texts 1).length),
    (bm 3, AOA_CMD_SEND_STRING, wv 3, 2, some (texts 2), (texts 2).length),
    (bm 4, AOA_CMD_SEND_STRING, wv 4, 3, some (texts 3), (texts 3).length),
    (bm 5, AOA_CMD_SEND_STRING, wv 5, 4, some (texts 4), (texts 4).length),
    (bm 6, AOA_CMD_SEND_STRING, wv 6, 5, some (texts 5), (texts 5).length),
    (bm 7, AOA_CMD_START_ACCESSORY, wv 7, 0, none, 0) ]

/-! ## Endpoint configuration (`esp32_usb_otg.cpp`) -/

abbrev DEPCTL_USBACTEP : Nat := 1 <<< 15
abbrev DEPCTL_EPTYPE_SHIFT : Nat := 18
abbrev DEPCTL_EPTYPE_MASK : Nat := 0x3 <<< DEPCTL_EPTYPE_SHIFT
abbrev DEPCTL_EPTYPE_CTRL : Nat := 0 <<< DEPCTL_EPTYPE_SHIFT
abbrev DEPCTL_EPTYPE_BULK : Nat := 2 <<< DEPCTL_EPTYPE_SHIFT
abbrev DEPCTL_STALL : Nat := 1 <<< 21

/-- The value `depctl` that `esp32_usb_otg_configure_endpoint` builds for both directions;
`max_packet` is a `uint16_t`, `ep_type` a `uint8_t` and `depctl` a `uint32_t`. The code
calls `DEPCTL_MPS(max_packet & 0x7FF)`, a function-like macro that no header of the
repository defines (`esp32_usb_otg.h` has only the object-like `DEPCTL_MPS`), so the macro
is an argument here. -/
def configure_depctl (DEPCTL_MPS : Nat → Nat) (max_packet ep_type : Nat) : Nat :=
  let depctl := 0
  let depctl := (depctl ||| DEPCTL_MPS ((max_packet % 65536) &&& 0x7FF)) % 4294967296
  let depctl := depctl ||| ((((ep_type % 256) <<< DEPCTL_EPTYPE_SHIFT) % 4294967296)
    &&& DEPCTL_EPTYPE_MASK)
  let depctl := depctl ||| DEPCTL_USBACTEP
  depctl &&& not32 DEPCTL_STALL

/-- The function `esp32_usb_otg_configure_endpoint(ep_num, is_in, max_packet, ep_type)`. For
endpoint 0 the value is stored in `g_usb_regs->core.in_ep[0].diepctl` (or
`core.out_ep[0].doepctl`), for the others in `g_usb_regs->in_ep[ep_num].diepctl` (or
`out_ep[ep_num].doepctl`). -/
def esp32_usb_otg_configure_endpoint (DEPCTL_MPS : Nat → Nat) (ep_num : Nat) (is_in : Bool)
    (max_packet ep_type : Nat) (o : OtgGlobals) : Int × OtgGlobals :=
  if o.regs_mapped = false ∨ o.g_usb_initialized = false then
    (ESP_ERR_INVALID_STATE, o)
  else if ep_num > 15 then
    (ESP_ERR_INVALID_ARG, o)
  else if is_in then
    if ep_num ≠ 0 then
      (ESP_OK,
        { o with in_ep_diepctl :=
            Function.update o.in_ep_diepctl ep_num (configure_depctl DEPCTL_MPS max_packet ep_type) })
    else
      (ESP_OK,
        { o with core_in_ep_diepctl :=
            Function.update o.core_in_ep_diepctl 0 (configure_depctl DEPCTL_MPS max_packet ep_type) })
  else
    if ep_num ≠ 0 then
      (ESP_OK,
        { o with
            out_ep_doepctl :=
              Function.update o.out_ep_doepctl ep_num
                (configure_depctl DEPCTL_MPS max_packet ep_type) })
    else
      (ESP_OK,
        { o with
            core_out_ep_doepctl :=
              Function.update o.core_out_ep_doepctl 0
                (configure_depctl DEPCTL_MPS max_packet ep_type) })

/-- The function `esp32_usb_otg_enable_endpoint(ep_num, is_in)`. It has no check of
`ep_num`; an index above 15 addresses the word that lies that far beyond the 16-entry
array, which the embedding keeps as entry `ep_num` of the register function. In the
layout of `usb_otg_dev_regs_t` the words after `in_ep[15]` are those of `out_ep[]`
(`in_ep[16].diepctl` is `out_ep[0].doepctl`); the embedding does not follow that overlap,
so it is exact for the endpoints 0 to 15 and, above 15, for the status and the masks. -/
def esp32_usb_otg_enable_endpoint (ep_num : Nat) (is_in : Bool) (o : OtgGlobals) :
    Int × OtgGlobals :=
  if o.regs_mapped = false ∨ o.g_usb_initialized = false then
    (ESP_ERR_INVALID_STATE, o)
  else if is_in then
    (ESP_OK,
      { o with
          in_ep_diepctl :=
            Function.update o.in_ep_diepctl ep_num (o.in_ep_diepctl ep_num ||| DEPCTL_EPENA)
          diepempmsk := (o.diepempmsk ||| (1 <<< ep_num)) % 4294967296
          diepmsk := (o.diepmsk ||| (1 <<< ep_num)) % 4294967296 })
  else
    (ESP_OK,
      { o with
          out_ep_doepctl :=
            Function.update o.out_ep_doepctl ep_num (o.out_ep_doepctl ep_num ||| DEPCTL_EPENA)
          doepmsk := (o.doepmsk ||| (1 <<< ep_num)) % 4294967296 })

/-- The control register of an endpoint that `esp32_usb_otg_enable_endpoint` and
`esp32_usb_otg_disable_endpoint` work on: `in_ep[ep_num].diepctl` for the IN direction and
`out_ep[ep_num].doepctl` for the OUT direction. -/
def endpoint_control (o : OtgGlobals) (ep_num : Nat) (is_in : Bool) : Nat :=
  if is_in then o.in_ep_diepctl ep_num else o.out_ep_doepctl ep_num

/-- The control register under `core` that `esp32_usb_otg_configure_endpoint` writes for
endpoint 0: `core.in_ep[0].diepctl` or `core.out_ep[0].doepctl`. -/
def core_endpoint0_control (o : OtgGlobals) (is_in : Bool) : Nat :=
  if is_in then o.core_in_ep_diepctl 0 else o.core_out_ep_doepctl 0

/-- The endpoint interrupt mask of a direction: `diepmsk` or `doepmsk`. -/
def endpoint_mask (o : OtgGlobals) (is_in : Bool) : Nat :=
  if is_in then o.diepmsk else o.doepmsk

/-- The state after `esp32_usb_otg_configure_endpoint` followed by
`esp32_usb_otg_enable_endpoint` for the same endpoint and direction. -/
def configure_then_enable (DEPCTL_MPS : Nat → Nat) (ep_num : Nat) (is_in : Bool)
    (max_packet ep_type : Nat) (o : OtgGlobals) : OtgGlobals :=
  (esp32_usb_otg_enable_endpoint ep_num is_in
    (esp32_usb_otg_configure_endpoint DEPCTL_MPS ep_num is_in max_packet ep_type o).2).2

/-! ## Stopping the bridge, and forwarding from TCP to USB (`proxy_handler.cpp`) -/

/-- The function `proxy_cleanup_connection`. -/
def proxy_cleanup_connection (s : System) : System :=
  if s.proxy.g_client_socket ≥ 0 then
    { s with proxy := { s.proxy with g_client_socket := -1 } }
  else s

/-- The function `proxy_stop`; `mutex_take_ok` tells whether `xSemaphoreTake` obtains the
mutex within its timeout. Every task handle that is not NULL is set to NULL. -/
def proxy_stop (mutex_take_ok : Bool) (s : System) : Int × System :=
  if s.proxy.g_proxy_active = false then
    (STATUS_OK, s)
  else if mutex_take_ok = false then
    (STATUS_ERROR_CONNECTION, s)
  else
    let s1 : System :=
      { s with proxy :=
          { s.proxy with
              g_proxy_active := false
              g_proxy_context := { s.proxy.g_proxy_context with running := false }
              g_proxy_task_handle := false
              g_usb_task_handle := false
              g_tcp_task_handle := false } }
    let s2 := proxy_cleanup_connection s1
    let s3 : System :=
      if s2.proxy.g_server_socket ≥ 0 then
        { s2 with proxy := { s2.proxy with g_server_socket := -1 } }
      else s2
    (STATUS_OK, s3)

/-- The function `proxy_forward_tcp_to_usb`. `received` is the return value of `recv` and
`buffer` the content of the local buffer after `recv`; `stack_transferred` is the
indeterminate initial value of the local `transferred`, which the IN branch of
`usb_bulk_transfer` does not write; `dtxfsts_reads` are the transmit status reads of the
controller's write. The counters are `uint32_t`. -/
def proxy_forward_tcp_to_usb (received : Int) (buffer : List Nat) (stack_transferred : Nat)
    (dtxfsts_reads : Nat → Nat) (s : System) : Int × System :=
  if s.proxy.g_client_socket < 0 then
    (STATUS_OK, s)
  else if received > 0 then
    let r := usb_bulk_transfer dtxfsts_reads USB_EP1_IN_ADDR (some buffer) received.toNat
      (some stack_transferred) s
    let transferred := r.2.2.1.getD stack_transferred
    let s1 := r.2.2.2
    let s2 : System :=
      if r.1 = ESP_OK then
        { s1 with proxy := { s1.proxy with g_proxy_context := { s1.proxy.g_proxy_context with
            usb_bytes_sent :=
              (s1.proxy.g_proxy_context.usb_bytes_sent + transferred) % 4294967296 } } }
      else s1
    (STATUS_OK,
      { s2 with proxy := { s2.proxy with g_proxy_context := { s2.proxy.g_proxy_context with
          tcp_bytes_received :=
            (s2.proxy.g_proxy_context.tcp_bytes_received + received.toNat) % 4294967296 } } })
  else if received < 0 then
    (STATUS_ERROR_CONNECTION, s)
  else
    (STATUS_ERROR_CONNECTION, s)

/-! ## Control transfers of the gadget layer (`usb_gadget.cpp`) -/

abbrev USB_REQ_SET_ADDRESS : Nat := 0x05
abbrev USB_REQ_GET_DESCRIPTOR : Nat := 0x06
abbrev USB_REQ_SET_CONFIGURATION : Nat := 0x09

/-- The function `usb_otg_set_address(address)`. -/
def usb_otg_set_address (address : Nat) (s : System) : Int × System :=
  let r := esp32_usb_otg_set_address address s.otg
  if r.1 = ESP_OK then
    (r.1,
      { s with
          otg := r.2
          gadget := { s.gadget with g_device_info :=
            { s.gadget.g_device_info with device_address := address } } })
  else
    (r.1, { s with otg := r.2 })

/-- The function `usb_otg_configure_endpoints`; the macro `DEPCTL_MPS` is an argument, as in
`esp32_usb_otg_configure_endpoint`. -/
def usb_otg_configure_endpoints (DEPCTL_MPS : Nat → Nat) (s : System) : Int × System :=
  let r1 := esp32_usb_otg_configure_endpoint DEPCTL_MPS 1 true 64 DEPCTL_EPTYPE_BULK s.otg
  if r1.1 ≠ ESP_OK then
    (r1.1, { s with otg := r1.2 })
  else
    let r2 := esp32_usb_otg_configure_endpoint DEPCTL_MPS 1 false 64 DEPCTL_EPTYPE_BULK r1.2
    if r2.1 ≠ ESP_OK then
      (r2.1, { s with otg := r2.2 })
    else
      let r3 := esp32_usb_otg_enable_endpoint 1 true r2.2
      if r3.1 ≠ ESP_OK then
        (r3.1, { s with otg := r3.2 })
      else
        let r4 := esp32_usb_otg_enable_endpoint 1 false r3.2
        if r4.1 ≠ ESP_OK then
          (r4.1, { s with otg := r4.2 })
        else
          (ESP_OK,
            { s with otg := r4.2, gadget := { s.gadget with g_endpoint_configured := true } })

/-- The function `usb_control_transfer(bmRequestType, bRequest, wValue, wIndex, data, length,
transferred)`. The result is the status, the data buffer on return, the value of
`*transferred` on return (0 whenever the pointer is not null) and the next state. The
vendor branch only logs. -/
def usb_control_transfer (DEPCTL_MPS : Nat → Nat) (bmRequestType bRequest wValue _wIndex : Nat)
    (data : Option (List Nat)) (_length : Nat) (transferred : Option Nat) (s : System) :
    Int × Option (List Nat) × Option Nat × System :=
  let transferred := transferred.map (fun _ => 0)
  if bmRequestType &&& 0x60 = USB_REQ_TYPE_STANDARD then
    if bRequest = USB_REQ_GET_DESCRIPTOR then
      (ESP_OK, data, transferred, s)
    else if bRequest = USB_REQ_SET_ADDRESS then
      let r := usb_otg_set_address (wValue % 256) s
      (r.1, data, transferred, r.2)
    else if bRequest = USB_REQ_SET_CONFIGURATION then
      let s1 : System :=
        { s with gadget := { s.gadget with g_device_configured := decide (wValue > 0) } }
      if s1.gadget.g_device_configured then
        let r := usb_otg_configure_endpoints DEPCTL_MPS s1
        (r.1, data, transferred, r.2)
      else
        (ESP_OK, data, transferred, s1)
    else
      (ESP_OK, data, transferred, s)
  else
    (ESP_OK, data, transferred, s)

/-! ## Initiator path of the negotiator (`aoa_protocol.cpp`) -/

/-- The bytes of a C string held in a `String`: every character stands for one `char`. -/
def c_string_bytes (s : String) : List Nat :=
  s.data.map Char.toNat

/-- The C function `strlen` on a string held in a `String`. -/
def strlen (s : String) : Nat :=
  s.data.length

/-- One call of the control transport as the negotiator sees it: the arguments passed and
what came back (the status, the value of the local `transferred` after the call, and the
data buffer on return). -/
structure control_transfer_call where
  bmRequestType : Nat
  bRequest : Nat
  wValue : Nat
  wIndex : Nat
  data : Option (List Nat)
  length : Nat
  ret : Int
  transferred : Nat
  data_after : Option (List Nat)
  deriving DecidableEq, Repr

/-- The arguments of a call: `(bmRequestType, bRequest, wValue, wIndex, data, length)`. -/
def call_args (c : control_transfer_call) : Nat × Nat × Nat × Nat × Option (List Nat) × Nat :=
  (c.bmRequestType, c.bRequest, c.wValue, c.wIndex, c.data, c.length)

/-- The 16-bit value held little-endian in the first two bytes of a buffer. -/
def version_of_bytes (buf : List Nat) : Nat :=
  buf.getD 0 0 % 256 + 256 * (buf.getD 1 0 % 256)

/-- The state after a call of the transport made by the negotiator: what the transport
returned, with the negotiator's own variables as they were. These are `static` in
`aoa_protocol.cpp`, so the transport, which lives in another translation unit, reaches
them only through the data pointer it is given. -/
def after_transport (s next : System) : System :=
  { next with aoa := s.aoa }

/-- The function `aoa_send_string(string_index, string)` of the initiator. `transport` stands
for `usb_control_transfer`, with the same arguments and results as the embedding of that
function; `stack_transferred` is the indeterminate initial value of the local
`transferred`. The result is the status, the transport calls made, and the next state. -/
def aoa_send_string
    (transport : Nat → Nat → Nat → Nat → Option (List Nat) → Nat → Option Nat → System →
      Int × Option (List Nat) × Option Nat × System)
    (stack_transferred : Nat) (string_index : Nat) (string : Option String) (s : System) :
    Int × List control_transfer_call × System :=
  match string with
  | none => (STATUS_ERROR_PROTOCOL, [], s)
  | some str =>
    let string_len := if strlen str > 255 then 255 else strlen str
    let r := transport (USB_REQ_TYPE_VENDOR ||| USB_REQ_TYPE_RECIPIENT_DEVICE) AOA_CMD_SEND_STRING
      string_index 0 (some (c_string_bytes str)) string_len (some stack_transferred) s
    (if r.1 = ESP_OK then STATUS_OK else STATUS_ERROR_CONNECTION,
      [{ bmRequestType := USB_REQ_TYPE_VENDOR ||| USB_REQ_TYPE_RECIPIENT_DEVICE
         bRequest := AOA_CMD_SEND_STRING
         wValue := string_index
         wIndex := 0
         data := some (c_string_bytes str)
         length := string_len
         ret := r.1
         transferred := r.2.2.1.getD stack_transferred
         data_after := r.2.1 }],
      after_transport s r.2.2.2)

/-- The loop `for (i = 0; i < 6; i++)` of `aoa_negotiate_accessory_mode` over the strings
still to send, each with its index: it stops at the first `aoa_send_string` that does not
return `STATUS_OK` and gives that status back. -/
def send_strings
    (transport : Nat → Nat → Nat → Nat → Option (List Nat) → Nat → Option Nat → System →
      Int × Option (List Nat) × Option Nat × System)
    (stack_transferred : Nat) :
    List (Nat × String) → System → Int × List control_transfer_call × System
  | [], s => (STATUS_OK, [], s)
  | (i, str) :: rest, s =>
    let r := aoa_send_string transport stack_transferred i (some str) s
    if r.1 ≠ STATUS_OK then
      r
    else
      let q := send_strings transport stack_transferred rest r.2.2
      (q.1, r.2.1 ++ q.2.1, q.2.2)

/-- The array `strings[]` of `aoa_negotiate_accessory_mode`, each entry with its index. -/
def identity_strings (d : device_info_t) : List (Nat × String) :=
  [(0, d.manufacturer), (1, d.model), (2, d.description), (3, d.version), (4, d.uri),
    (5, d.serial)]

/-- The state with `g_aoa_state` assigned. -/
def set_aoa_state (st : aoa_state_t) (s : System) : System :=
  { s with aoa := { s.aoa with g_aoa_state := st } }

/-- The function `aoa_negotiate_accessory_mode`. `transport` stands for
`usb_control_transfer`; `stack_transferred` is the indeterminate initial value of the local
`transferred`. The data buffer of the first transfer is the variable
`g_aoa_protocol_version` itself, two bytes, little-endian. The result is the status, the
transport calls made, in order, and the next state. -/
def aoa_negotiate_accessory_mode
    (transport : Nat → Nat → Nat → Nat → Option (List Nat) → Nat → Option Nat → System →
      Int × Option (List Nat) × Option Nat × System)
    (stack_transferred : Nat) (s : System) : Int × List control_transfer_call × System :=
  if s.aoa.g_aoa_state ≠ AOA_STATE_CONNECTED then
    (STATUS_ERROR_CONNECTION, [], s)
  else
    let s1 := set_aoa_state AOA_STATE_DETECTING s
    let buf := [s1.aoa.g_aoa_protocol_version % 256, s1.aoa.g_aoa_protocol_version / 256 % 256]
    let r := transport (USB_REQ_TYPE_VENDOR ||| USB_REQ_TYPE_RECIPIENT_DEVICE ||| 0x80)
      AOA_CMD_GET_PROTOCOL 0 0 (some buf) 2 (some stack_transferred) s1
    let c0 : control_transfer_call :=
      { bmRequestType := USB_REQ_TYPE_VENDOR ||| USB_REQ_TYPE_RECIPIENT_DEVICE ||| 0x80
        bRequest := AOA_CMD_GET_PROTOCOL
        wValue := 0
        wIndex := 0
        data := some buf
        length := 2
        ret := r.1
        transferred := r.2.2.1.getD stack_transferred
        data_after := r.2.1 }
    let transferred := r.2.2.1.getD stack_transferred
    let version := version_of_bytes (r.2.1.getD buf)
    let s2 : System :=
      { r.2.2.2 with aoa := { s1.aoa with g_aoa_protocol_version := version } }
    if r.1 ≠ ESP_OK ∨ transferred ≠ 2 then
      (STATUS_ERROR_CONNECTION, [c0], set_aoa_state AOA_STATE_CONNECTED s2)
    else if version < 1 then
      (STATUS_ERROR_PROTOCOL, [c0], set_aoa_state AOA_STATE_CONNECTED s2)
    else
      let s3 := set_aoa_state AOA_STATE_SENDING_STRINGS s2
      let q := send_strings transport stack_transferred
        (identity_strings s3.aoa.g_current_device_info) s3
      if q.1 ≠ STATUS_OK then
        (q.1, c0 :: q.2.1, set_aoa_state AOA_STATE_CONNECTED q.2.2)
      else
        let s4 := set_aoa_state AOA_STATE_STARTING_ACCESSORY q.2.2
        let r2 := transport (USB_REQ_TYPE_VENDOR ||| USB_REQ_TYPE_RECIPIENT_DEVICE)
          AOA_CMD_START_ACCESSORY 0 0 none 0 (some transferred) s4
        let c7 : control_transfer_call :=
          { bmRequestType := USB_REQ_TYPE_VENDOR ||| USB_REQ_TYPE_RECIPIENT_DEVICE
            bRequest := AOA_CMD_START_ACCESSORY
            wValue := 0
            wIndex := 0
            data := none
            length := 0
            ret := r2.1
            transferred := r2.2.2.1.getD transferred
            data_after := r2.2.1 }
        let s5 := after_transport s4 r2.2.2.2
        if r2.1 ≠ ESP_OK then
          (STATUS_ERROR_CONNECTION, c0 :: q.2.1 ++ [c7], set_aoa_state AOA_STATE_CONNECTED s5)
        else
          (STATUS_OK, c0 :: q.2.1 ++ [c7],
            { s5 with aoa :=
                { s5.aoa with g_aoa_state := AOA_STATE_ACCESSORY_MODE, g_is_accessory_mode := true } })

/-- Whether a call made by `aoa_negotiate_accessory_mode` counts as failed there: the
transport did not return `ESP_OK`, or it is the `GET_PROTOCOL` call and `transferred` is
not 2 or the version left in the buffer is below 1. -/
def call_failed (c : control_transfer_call) : Prop :=
  c.ret ≠ ESP_OK ∨
  (c.bRequest = AOA_CMD_GET_PROTOCOL ∧
    (c.transferred ≠ 2 ∨ version_of_bytes (c.data_after.getD (c.data.getD [])) < 1))

/-- A transport that always succeeds and answers `GET_PROTOCOL` with two bytes holding
version 2. -/
def transport_version_2 (_bm bRequest _v _i : Nat) (data : Option (List Nat)) (_n : Nat)
    (_tr : Option Nat) (s : System) : Int × Option (List Nat) × Option Nat × System :=
  if bRequest = AOA_CMD_GET_PROTOCOL then (ESP_OK, some [2, 0], some 2, s)
  else (ESP_OK, data, some 0, s)

instance call_failed_decidable (c : control_transfer_call) : Decidable (call_failed c) :=
  inferInstanceAs (Decidable (c.ret ≠ ESP_OK ∨
    (c.bRequest = AOA_CMD_GET_PROTOCOL ∧
      (c.transferred ≠ 2 ∨ version_of_bytes (c.data_after.getD (c.data.getD [])) < 1))))

/-! ## Readiness flags of the orchestrator (`main.cpp`) -/

abbrev CONNECTED_EVENT : Nat := 1 <<< 0
abbrev AOA_READY_EVENT : Nat := 1 <<< 1
abbrev WIFI_READY_EVENT : Nat := 1 <<< 2
abbrev BT_READY_EVENT : Nat := 1 <<< 3

/-- The enumeration `connection_strategy_t` of `common.h`. -/
inductive connection_strategy_t where
  | CONNECTION_STRATEGY_DONGLE_MODE
  | CONNECTION_STRATEGY_PHONE_FIRST
  | CONNECTION_STRATEGY_USB_FIRST
  deriving DecidableEq, Repr

open connection_strategy_t

/-- The FreeRTOS call `xEventGroupSetBits(group, uxBitsToSet)` on the bits of the group. -/
def xEventGroupSetBits (bits uxBitsToSet : Nat) : Nat :=
  bits ||| uxBitsToSet

/-- The FreeRTOS call `xEventGroupWaitBits(group, uxBitsToWaitFor, xClearOnExit,
xWaitForAllBits, portMAX_DELAY)`, which belongs to the operating system and not to the
repository, as its reference documents it and as the calling task sees it while no other
task sets a bit: it returns when all (`xWaitForAllBits`) or any of the bits waited for are
set, and with `xClearOnExit` it clears the bits waited for before it returns; it does not
return (`none`) otherwise. The result is the value returned, which is the bits before any
clearing, and the bits of the group afterwards; `bits & ~w` is `bits ^^^ (bits &&& w)`. -/
def xEventGroupWaitBits (bits uxBitsToWaitFor : Nat) (xClearOnExit xWaitForAllBits : Bool) :
    Option (Nat × Nat) :=
  let met : Bool :=
    if xWaitForAllBits then bits &&& uxBitsToWaitFor == uxBitsToWaitFor
    else bits &&& uxBitsToWaitFor != 0
  if met then
    some (bits, if xClearOnExit then bits ^^^ (bits &&& uxBitsToWaitFor) else bits)
  else
    none

/-- The function `wait_for_connections` of `main.cpp` on the bits of `g_event_group`, for
the value of `g_connection_strategy`: the bits of the group when it returns, `none` when it
does not return. Every call passes `pdTRUE` for `xClearOnExit` and for `xWaitForAllBits`. -/
def wait_for_connections (strategy : connection_strategy_t) (bits : Nat) : Option Nat :=
  match strategy with
  | CONNECTION_STRATEGY_PHONE_FIRST =>
    (xEventGroupWaitBits bits (WIFI_READY_EVENT ||| BT_READY_EVENT) true true).map
      (fun r => r.2)
  | CONNECTION_STRATEGY_USB_FIRST =>
    (xEventGroupWaitBits bits AOA_READY_EVENT true true).map (fun r => r.2)
  | CONNECTION_STRATEGY_DONGLE_MODE =>
    (xEventGroupWaitBits bits (WIFI_READY_EVENT ||| BT_READY_EVENT ||| AOA_READY_EVENT)
      true true).map (fun r => r.2)

/-- The readiness flags that `wait_for_connections` waits on for a strategy. -/
def flags_waited_on (strategy : connection_strategy_t) : Nat :=
  match strategy with
  | CONNECTION_STRATEGY_PHONE_FIRST => WIFI_READY_EVENT ||| BT_READY_EVENT
  | CONNECTION_STRATEGY_USB_FIRST => AOA_READY_EVENT
  | CONNECTION_STRATEGY_DONGLE_MODE => WIFI_READY_EVENT ||| BT_READY_EVENT ||| AOA_READY_EVENT

/-- The bits of `g_event_group` when `app_main` enters its loop: created empty, then set by
`init_wifi`, `init_bluetooth` and `init_usb`, each of which has returned `STATUS_OK`. -/
def event_bits_after_init : Nat :=
  xEventGroupSetBits
    (xEventGroupSetBits (xEventGroupSetBits 0 WIFI_READY_EVENT) BT_READY_EVENT)
    AOA_READY_EVENT

/-! ## The command codes of `esp32_wireless_dongle.h` -/

namespace esp32_wireless_dongle

abbrev AOA_CMD_START_ACCESSORY : Nat := 51
abbrev AOA_CMD_SEND_STRING : Nat := 52
abbrev AOA_CMD_GET_PROTOCOL : Nat := 53
abbrev AOA_CMD_REGISTER_HID : Nat := 54
abbrev AOA_CMD_UNREGISTER_HID : Nat := 55
abbrev AOA_CMD_SET_HID_REPORT_DESC : Nat := 56
abbrev AOA_CMD_SEND_HID_EVENT : Nat := 57
abbrev AOA_CMD_AUDIO_SUPPORT : Nat := 58

end esp32_wireless_dongle

/-! ## The identity the gadget layer reports and advertises (`usb_gadget.cpp`) -/

abbrev USB_CONTROL_EP_SIZE : Nat := 64
abbrev USB_DESC_TYPE_DEVICE : Nat := 0x01

/-- The device descriptor, `usb_device_descriptor_t` of `usb_gadget.h` (packed, 18 bytes). -/
structure usb_device_descriptor_t where
  bLength : Nat
  bDescriptorType : Nat
  bcdUSB : Nat
  bDeviceClass : Nat
  bDeviceSubClass : Nat
  bDeviceProtocol : Nat
  bMaxPacketSize0 : Nat
  idVendor : Nat
  idProduct : Nat
  bcdDevice : Nat
  iManufacturer : Nat
  iProduct : Nat
  iSerialNumber : Nat
  bNumConfigurations : Nat
  deriving DecidableEq, Repr

/-- The constant `g_device_desc` of `usb_gadget.cpp`. No function writes it:
`usb_set_device_descriptor` leaves the hardware descriptors to a TODO. -/
def g_device_desc : usb_device_descriptor_t where
  bLength := 18
  bDescriptorType := USB_DESC_TYPE_DEVICE
  bcdUSB := 0x0200
  bDeviceClass := 0x00
  bDeviceSubClass := 0x00
  bDeviceProtocol := 0x00
  bMaxPacketSize0 := USB_CONTROL_EP_SIZE
  idVendor := USB_VID_GOOGLE
  idProduct := USB_PID_ANDROID_ACCESSORY
  bcdDevice := 0x0100
  iManufacturer := 1
  iProduct := 2
  iSerialNumber := 3
  bNumConfigurations := 1

/-- The function `usb_get_connected_device_info(info)`: the status and what `*info` holds on
return; `none` is the null pointer. -/
def usb_get_connected_device_info (info : Option usb_device_info_t) (g : GadgetGlobals) :
    Int × Option usb_device_info_t :=
  match info with
  | none => (ESP_ERR_INVALID_ARG, none)
  | some _ => (ESP_OK, some g.g_device_info)

/-! ## Endpoint set-up at initialisation and at enumeration -/

/-- The function `esp32_usb_otg_set_device_mode`. -/
def esp32_usb_otg_set_device_mode (o : OtgGlobals) : Int × OtgGlobals :=
  if o.regs_mapped = false ∨ o.g_usb_initialized = false then
    (ESP_ERR_INVALID_STATE, o)
  else
    let o1 : OtgGlobals := { o with gusbcfg := o.gusbcfg &&& not32 GUSBCFG_FHMOD }
    (ESP_OK, { o1 with gusbcfg := o1.gusbcfg ||| GUSBCFG_FDMOD })

/-- The function `usb_otg_init_peripheral` of `usb_gadget.cpp`, on the controller state; the
undeclared macro and constants and the reads of the reset poll are arguments, as in
`esp32_usb_otg_init` and `esp32_usb_otg_configure_endpoint`. -/
def usb_otg_init_peripheral (DEPCTL_MPS : Nat → Nat) (DCFG_DSPD_FS GAHBCFG_HBSTLEN_16 : Nat)
    (grstctl_reads : Nat → Nat) (o : OtgGlobals) : Int × OtgGlobals :=
  let r0 := esp32_usb_otg_init DCFG_DSPD_FS GAHBCFG_HBSTLEN_16 grstctl_reads o
  if r0.1 ≠ ESP_OK then r0
  else
    let r1 := esp32_usb_otg_set_device_mode r0.2
    if r1.1 ≠ ESP_OK then r1
    else
      let r2 := esp32_usb_otg_configure_endpoint DEPCTL_MPS 0 true 64 DEPCTL_EPTYPE_CTRL r1.2
      if r2.1 ≠ ESP_OK then r2
      else
        let r3 := esp32_usb_otg_configure_endpoint DEPCTL_MPS 0 false 64 DEPCTL_EPTYPE_CTRL r2.2
        if r3.1 ≠ ESP_OK then r3
        else
          let r4 := esp32_usb_otg_enable_endpoint 0 true r3.2
          if r4.1 ≠ ESP_OK then r4
          else
            let r5 := esp32_usb_otg_enable_endpoint 0 false r4.2
            if r5.1 ≠ ESP_OK then r5
            else (ESP_OK, r5.2)

/-- The function `handle_enum_done_interrupt` of `esp32_usb_otg.cpp`; the statuses of the
four calls are not looked at. -/
def handle_enum_done_interrupt (DEPCTL_MPS : Nat → Nat) (o : OtgGlobals) : OtgGlobals :=
  let o0 : OtgGlobals := { o with g_device_configured := true, g_is_connected := true }
  let o1 := (esp32_usb_otg_configure_endpoint DEPCTL_MPS 1 true 64 DEPCTL_EPTYPE_BULK o0).2
  let o2 := (esp32_usb_otg_configure_endpoint DEPCTL_MPS 1 false 64 DEPCTL_EPTYPE_BULK o1).2
  let o3 := (esp32_usb_otg_enable_endpoint 1 true o2).2
  (esp32_usb_otg_enable_endpoint 1 false o3).2

/-- The transfer-type field of an endpoint control word, bits 19:18: the field selected by
`DEPCTL_EPTYPE_MASK` and positioned by `DEPCTL_EPTYPE_SHIFT`. -/
def depctl_eptype (depctl : Nat) : Nat :=
  (depctl &&& DEPCTL_EPTYPE_MASK) >>> DEPCTL_EPTYPE_SHIFT

/-- The max-packet-size field of an endpoint control word, bits 10:0, the width the code
gives it with `max_packet & 0x7FF`. -/
def depctl_mps (depctl : Nat) : Nat :=
  depctl &&& 0x7FF

/-! ## Sequences of calls of the negotiator's operations -/

/-- One call of an operation of the negotiator, with its arguments:
`aoa_handle_control_request`, `aoa_negotiate_accessory_mode` (over a transport, with the
indeterminate initial value of its local `transferred`), `aoa_start_accessory_mode` or
`aoa_set_device_info`. -/
inductive aoa_operation where
  | control_request (bmRequestType bRequest wValue wIndex : Nat) (data : Option (List Nat))
      (length : Nat)
  | negotiate_accessory_mode
      (transport : Nat → Nat → Nat → Nat → Option (List Nat) → Nat → Option Nat → System →
        Int × Option (List Nat) × Option Nat × System)
      (stack_transferred : Nat)
  | start_accessory_mode
  | set_device_info (device_info : Option device_info_t)

/-- The state after one call. -/
def run_operation : aoa_operation → System → System
  | aoa_operation.control_request bm req v i d n, s =>
    (aoa_handle_control_request bm req v i d n s).2.2
  | aoa_operation.negotiate_accessory_mode transport st, s =>
    (aoa_negotiate_accessory_mode transport st s).2.2
  | aoa_operation.start_accessory_mode, s => (aoa_start_accessory_mode s).2
  | aoa_operation.set_device_info d, s => (aoa_set_device_info d s).2

/-- The state after a finite sequence of calls, made in order. -/
def run_operations : List aoa_operation → System → System
  | [], s => s
  | op :: rest, s => run_operations rest (run_operation op s)

/-- The string index the responder takes from a `SEND_STRING` setup packet: the expression
`(uint8_t)wIndex` that `aoa_handle_control_request` passes to `aoa_handle_send_string`. -/
def responder_string_index (_wValue wIndex : Nat) : Nat :=
  wIndex % 256

/-- A transport that always succeeds and answers `GET_PROTOCOL` with two bytes holding
version 0. -/
def transport_version_0 (_bm bRequest _v _i : Nat) (data : Option (List Nat)) (_n : Nat)
    (_tr : Option Nat) (s : System) : Int × Option (List Nat) × Option Nat × System :=
  if bRequest = AOA_CMD_GET_PROTOCOL then (ESP_OK, some [0, 0], some 2, s)
  else (ESP_OK, data, some 0, s)

/-- A state in which the negotiator is `Connected` while the accessory flag is set: as
after initialisation, then `aoa_start_accessory_mode` (which sets the flag and leaves the
negotiation state alone), with the negotiation state `Connected`. -/
def system_connected_flag_set : System :=
  set_aoa_state AOA_STATE_CONNECTED (aoa_start_accessory_mode system_after_init).2

/-! # Theorems -/

/-! ## Responder path of the negotiator -/

theorem vendor_type_eq : USB_REQ_TYPE_VENDOR = 0x40 := by decide

/-- A vendor `GET_PROTOCOL` with a non-null buffer of declared length at least 2. -/
theorem control_get_protocol (s : System) (bm v i n : Nat) (buf : List Nat)
    (hbm : bm &&& 0x60 = 0x40) (hn : 2 ≤ n) :
    aoa_handle_control_request bm AOA_CMD_GET_PROTOCOL v i (some buf) n s
      = (STATUS_OK, some ((buf.set 0 2).set 1 0), (aoa_handle_get_protocol s).2.2) := by
  have h2 : (2 : Nat) &&& 255 = 2 := by decide
  simp [aoa_handle_control_request, hbm, hn, aoa_handle_get_protocol, vendor_type_eq, h2]

/-- A vendor `SEND_STRING` goes to `aoa_handle_send_string` with the index `wIndex % 256`. -/
theorem control_send_string (s : System) (bm v i n : Nat) (d : Option (List Nat))
    (hbm : bm &&& 0x60 = 0x40) :
    aoa_handle_control_request bm AOA_CMD_SEND_STRING v i d n s
      = (STATUS_OK, d, (aoa_handle_send_string (i % 256) d s).2) := by
  simp [aoa_handle_control_request, hbm, aoa_handle_send_string, vendor_type_eq]

/-- A vendor `START_ACCESSORY` goes to `aoa_handle_start_accessory`. -/
theorem control_start_accessory (s : System) (bm v i n : Nat) (d : Option (List Nat))
    (hbm : bm &&& 0x60 = 0x40) :
    aoa_handle_control_request bm AOA_CMD_START_ACCESSORY v i d n s
      = ((aoa_handle_start_accessory s).1, d, (aoa_handle_start_accessory s).2) := by
  simp [aoa_handle_control_request, hbm, vendor_type_eq]

theorem get_protocol_state (s : System) :
    (aoa_handle_get_protocol s).2.2.aoa.g_aoa_state
      = if s.aoa.g_aoa_state = AOA_STATE_CONNECTED then AOA_STATE_NEGOTIATING
        else s.aoa.g_aoa_state := by
  unfold aoa_handle_get_protocol
  split <;> simp_all

theorem send_string_state (s : System) (i : Nat) (d : Option (List Nat)) :
    (aoa_handle_send_string i d s).2.aoa.g_aoa_state
      = if s.aoa.g_aoa_state = AOA_STATE_CONNECTED ∨ s.aoa.g_aoa_state = AOA_STATE_NEGOTIATING
        then AOA_STATE_SENDING_STRINGS else s.aoa.g_aoa_state := by
  unfold aoa_handle_send_string
  cases h : s.aoa.g_aoa_state <;> simp [h]

theorem start_accessory_from_sending (s : System)
    (h : s.aoa.g_aoa_state = AOA_STATE_SENDING_STRINGS) :
    (aoa_handle_start_accessory s).1 = STATUS_OK ∧
    (aoa_handle_start_accessory s).2.aoa.g_aoa_state = AOA_STATE_ACCESSORY_MODE ∧
    (aoa_handle_start_accessory s).2.aoa.g_is_accessory_mode = true ∧
    (aoa_handle_start_accessory s).2.gadget.g_device_info.vid = 0x18D1 ∧
    (aoa_handle_start_accessory s).2.gadget.g_device_info.pid = 0x2D00 ∧
    (aoa_handle_start_accessory s).2.gadget.g_device_info.is_accessory_mode = true := by
  simp [aoa_handle_start_accessory, h, aoa_start_accessory_mode, usb_set_device_descriptor]

theorem start_accessory_elsewhere (s : System)
    (h : s.aoa.g_aoa_state ≠ AOA_STATE_SENDING_STRINGS) :
    aoa_handle_start_accessory s = (STATUS_OK, s) := by
  simp [aoa_handle_start_accessory, h]

/-- C1: starting from `Connected`, whatever the stored device identity and the rest of the
state, the vendor requests `GET_PROTOCOL` (buffer of at least 2 bytes), `SEND_STRING` with
index 0, 1, 2, 3, 4, 5 (each with a non-null text) and `START_ACCESSORY`, handled in that
order by `aoa_handle_control_request`, all return success, and the final state is
`AccessoryMode` with `aoa_is_accessory_mode()` true. -/
theorem responder_handshake_reaches_accessory_mode (s : System) (bm wv : Nat → Nat)
    (buf : List Nat) (n : Nat) (texts : Nat → List Nat)
    (hstate : aoa_get_state s = AOA_STATE_CONNECTED)
    (hvendor : ∀ k, bm k &&& 0x60 = 0x40)
    (_hbuf : 2 ≤ buf.length) (hn : 2 ≤ n) :
    (handle_requests (handshake_requests bm wv buf n texts) s).1 = List.replicate 8 STATUS_OK ∧
    aoa_get_state (handle_requests (handshake_requests bm wv buf n texts) s).2
      = AOA_STATE_ACCESSORY_MODE ∧
    aoa_is_accessory_mode (handle_requests (handshake_requests bm wv buf n texts) s).2 = true := by
  simp only [aoa_get_state] at hstate
  simp only [handshake_requests, handle_requests, control_get_protocol _ _ _ _ _ _ (hvendor _) hn,
    control_send_string _ _ _ _ _ _ (hvendor _), control_start_accessory _ _ _ _ _ _ (hvendor _),
    aoa_get_state, aoa_is_accessory_mode]
  have h0 := get_protocol_state s
  rw [if_pos hstate] at h0
  generalize (aoa_handle_get_protocol s).2.2 = s0 at h0 ⊢
  have h1 := send_string_state s0 (0 % 256) (some (texts 0))
  rw [if_pos (Or.inr h0)] at h1
  generalize (aoa_handle_send_string (0 % 256) (some (texts 0)) s0).2 = s1 at h1 ⊢
  have h2 := send_string_state s1 (1 % 256) (some (texts 1))
  simp only [h1, reduceCtorEq, or_self, if_false] at h2
  generalize (aoa_handle_send_string (1 % 256) (some (texts 1)) s1).2 = s2 at h2 ⊢
  have h3 := send_string_state s2 (2 % 256) (some (texts 2))
  simp only [h2, reduceCtorEq, or_self, if_false] at h3
  generalize (aoa_handle_send_string (2 % 256) (some (texts 2)) s2).2 = s3 at h3 ⊢
  have h4 := send_string_state s3 (3 % 256) (some (texts 3))
  simp only [h3, reduceCtorEq, or_self, if_false] at h4
  generalize (aoa_handle_send_string (3 % 256) (some (texts 3)) s3).2 = s4 at h4 ⊢
  have h5 := send_string_state s4 (4 % 256) (some (texts 4))
  simp only [h4, reduceCtorEq, or_self, if_false] at h5
  generalize (aoa_handle_send_string (4 % 256) (some (texts 4)) s4).2 = s5 at h5 ⊢
  have h6 := send_string_state s5 (5 % 256) (some (texts 5))
  simp only [h5, reduceCtorEq, or_self, if_false] at h6
  generalize (aoa_handle_send_string (5 % 256) (some (texts 5)) s5).2 = s6 at h6 ⊢
  obtain ⟨k1, k2, k3, -⟩ := start_accessory_from_sending s6 h6
  rw [k1, k2, k3]
  exact ⟨rfl, rfl, rfl⟩

theorem responder_handshake_reaches_accessory_mode_witness :
    (handle_requests (handshake_requests (fun _ => 0x40) (fun _ => 0) [0, 0] 2 (fun _ => [65]))
        (system_in_state AOA_STATE_CONNECTED)).1 = List.replicate 8 STATUS_OK ∧
    aoa_get_state (handle_requests
        (handshake_requests (fun _ => 0x40) (fun _ => 0) [0, 0] 2 (fun _ => [65]))
        (system_in_state AOA_STATE_CONNECTED)).2 = AOA_STATE_ACCESSORY_MODE ∧
    aoa_is_accessory_mode (handle_requests
        (handshake_requests (fun _ => 0x40) (fun _ => 0) [0, 0] 2 (fun _ => [65]))
        (system_in_state AOA_STATE_CONNECTED)).2 = true :=
  responder_handshake_reaches_accessory_mode (system_in_state AOA_STATE_CONNECTED)
    (fun _ => 0x40) (fun _ => 0) [0, 0] 2 (fun _ => [65]) rfl (fun _ => (by decide : (0x40 : Nat) &&& 0x60 = 0x40)) (by decide)
    (by decide)

/-- C2: a vendor `START_ACCESSORY` request handled by the responder in state
`SendingStrings` returns success and ends in `AccessoryMode`, with the gadget identity
re-described as VID 0x18D1 / PID 0x2D00 and both accessory-mode flags set; in every other
state it returns success and changes nothing at all, so the state and the accessory-mode
flags are as before. -/
theorem start_accessory_request_transition (s : System) (bm v i n : Nat)
    (d : Option (List Nat)) (hbm : bm &&& 0x60 = 0x40) :
    (aoa_get_state s = AOA_STATE_SENDING_STRINGS →
      (aoa_handle_control_request bm AOA_CMD_START_ACCESSORY v i d n s).1 = STATUS_OK ∧
      aoa_get_state (aoa_handle_control_request bm AOA_CMD_START_ACCESSORY v i d n s).2.2
        = AOA_STATE_ACCESSORY_MODE ∧
      aoa_is_accessory_mode (aoa_handle_control_request bm AOA_CMD_START_ACCESSORY v i d n s).2.2
        = true ∧
      (aoa_handle_control_request bm AOA_CMD_START_ACCESSORY v i d n s).2.2.gadget.g_device_info.vid
        = 0x18D1 ∧
      (aoa_handle_control_request bm AOA_CMD_START_ACCESSORY v i d n s).2.2.gadget.g_device_info.pid
        = 0x2D00 ∧
      (aoa_handle_control_request bm AOA_CMD_START_ACCESSORY v i d n
        s).2.2.gadget.g_device_info.is_accessory_mode = true) ∧
    (aoa_get_state s ≠ AOA_STATE_SENDING_STRINGS →
      (aoa_handle_control_request bm AOA_CMD_START_ACCESSORY v i d n s).1 = STATUS_OK ∧
      (aoa_handle_control_request bm AOA_CMD_START_ACCESSORY v i d n s).2.2 = s ∧
      aoa_get_state (aoa_handle_control_request bm AOA_CMD_START_ACCESSORY v i d n s).2.2
        = aoa_get_state s ∧
      aoa_is_accessory_mode (aoa_handle_control_request bm AOA_CMD_START_ACCESSORY v i d n s).2.2
        = aoa_is_accessory_mode s) := by
  rw [control_start_accessory s bm v i n d hbm]
  simp only [aoa_get_state, aoa_is_accessory_mode]
  constructor
  · intro h
    exact start_accessory_from_sending s h
  · intro h
    rw [start_accessory_elsewhere s h]
    exact ⟨rfl, rfl, rfl, rfl⟩

theorem start_accessory_request_transition_witness :
    (aoa_get_state (system_in_state AOA_STATE_SENDING_STRINGS) = AOA_STATE_SENDING_STRINGS →
      (aoa_handle_control_request 0x40 AOA_CMD_START_ACCESSORY 0 0 none 0
        (system_in_state AOA_STATE_SENDING_STRINGS)).1 = STATUS_OK ∧
      aoa_get_state (aoa_handle_control_request 0x40 AOA_CMD_START_ACCESSORY 0 0 none 0
        (system_in_state AOA_STATE_SENDING_STRINGS)).2.2 = AOA_STATE_ACCESSORY_MODE ∧
      aoa_is_accessory_mode (aoa_handle_control_request 0x40 AOA_CMD_START_ACCESSORY 0 0 none 0
        (system_in_state AOA_STATE_SENDING_STRINGS)).2.2 = true ∧
      (aoa_handle_control_request 0x40 AOA_CMD_START_ACCESSORY 0 0 none 0
        (system_in_state AOA_STATE_SENDING_STRINGS)).2.2.gadget.g_device_info.vid = 0x18D1 ∧
      (aoa_handle_control_request 0x40 AOA_CMD_START_ACCESSORY 0 0 none 0
        (system_in_state AOA_STATE_SENDING_STRINGS)).2.2.gadget.g_device_info.pid = 0x2D00 ∧
      (aoa_handle_control_request 0x40 AOA_CMD_START_ACCESSORY 0 0 none 0
        (system_in_state AOA_STATE_SENDING_STRINGS)).2.2.gadget.g_device_info.is_accessory_mode
        = true) ∧
    (aoa_get_state (system_in_state AOA_STATE_SENDING_STRINGS) ≠ AOA_STATE_SENDING_STRINGS →
      (aoa_handle_control_request 0x40 AOA_CMD_START_ACCESSORY 0 0 none 0
        (system_in_state AOA_STATE_SENDING_STRINGS)).1 = STATUS_OK ∧
      (aoa_handle_control_request 0x40 AOA_CMD_START_ACCESSORY 0 0 none 0
        (system_in_state AOA_STATE_SENDING_STRINGS)).2.2
        = system_in_state AOA_STATE_SENDING_STRINGS ∧
      aoa_get_state (aoa_handle_control_request 0x40 AOA_CMD_START_ACCESSORY 0 0 none 0
        (system_in_state AOA_STATE_SENDING_STRINGS)).2.2
        = aoa_get_state (system_in_state AOA_STATE_SENDING_STRINGS) ∧
      aoa_is_accessory_mode (aoa_handle_control_request 0x40 AOA_CMD_START_ACCESSORY 0 0 none 0
        (system_in_state AOA_STATE_SENDING_STRINGS)).2.2
        = aoa_is_accessory_mode (system_in_state AOA_STATE_SENDING_STRINGS)) :=
  start_accessory_request_transition (system_in_state AOA_STATE_SENDING_STRINGS) 0x40 0 0 0 none
    (by decide)

/-- C3: in every negotiation state a vendor `GET_PROTOCOL` request with a buffer of at least
2 bytes returns success and writes the bytes 0x02, 0x00 (version 2, little-endian) at the
start of the buffer, leaving the rest of the buffer as it was; the next state is
`Negotiating` when the state was `Connected` and the same state otherwise. Replaying the
request on the state it produced changes nothing and writes the same two bytes. -/
theorem get_protocol_request (s : System) (bm v i n : Nat) (buf : List Nat)
    (hbm : bm &&& 0x60 = 0x40) (hbuf : 2 ≤ buf.length) (hn : 2 ≤ n) :
    (aoa_handle_control_request bm AOA_CMD_GET_PROTOCOL v i (some buf) n s).1 = STATUS_OK ∧
    (aoa_handle_control_request bm AOA_CMD_GET_PROTOCOL v i (some buf) n s).2.1
      = some (2 :: 0 :: buf.drop 2) ∧
    aoa_get_state (aoa_handle_control_request bm AOA_CMD_GET_PROTOCOL v i (some buf) n s).2.2
      = (if aoa_get_state s = AOA_STATE_CONNECTED then AOA_STATE_NEGOTIATING
         else aoa_get_state s) ∧
    aoa_handle_control_request bm AOA_CMD_GET_PROTOCOL v i (some buf) n
        (aoa_handle_control_request bm AOA_CMD_GET_PROTOCOL v i (some buf) n s).2.2
      = (STATUS_OK, some (2 :: 0 :: buf.drop 2),
          (aoa_handle_control_request bm AOA_CMD_GET_PROTOCOL v i (some buf) n s).2.2) := by
  have hset : (buf.set 0 2).set 1 0 = 2 :: 0 :: buf.drop 2 := by
    match buf, hbuf with
    | a :: b :: rest, _ => simp
  simp only [control_get_protocol _ _ _ _ _ _ hbm hn, hset, aoa_get_state, get_protocol_state,
    true_and]
  refine Prod.ext rfl (Prod.ext rfl ?_)
  simp only [aoa_handle_get_protocol]
  cases h : s.aoa.g_aoa_state <;> simp [h]

theorem get_protocol_request_witness :
    (aoa_handle_control_request 0xC0 AOA_CMD_GET_PROTOCOL 0 0 (some [7, 7, 7]) 2
      (system_in_state AOA_STATE_CONNECTED)).1 = STATUS_OK ∧
    (aoa_handle_control_request 0xC0 AOA_CMD_GET_PROTOCOL 0 0 (some [7, 7, 7]) 2
      (system_in_state AOA_STATE_CONNECTED)).2.1 = some (2 :: 0 :: [7, 7, 7].drop 2) ∧
    aoa_get_state (aoa_handle_control_request 0xC0 AOA_CMD_GET_PROTOCOL 0 0 (some [7, 7, 7]) 2
      (system_in_state AOA_STATE_CONNECTED)).2.2
      = (if aoa_get_state (system_in_state AOA_STATE_CONNECTED) = AOA_STATE_CONNECTED
         then AOA_STATE_NEGOTIATING else aoa_get_state (system_in_state AOA_STATE_CONNECTED)) ∧
    aoa_handle_control_request 0xC0 AOA_CMD_GET_PROTOCOL 0 0 (some [7, 7, 7]) 2
        (aoa_handle_control_request 0xC0 AOA_CMD_GET_PROTOCOL 0 0 (some [7, 7, 7]) 2
          (system_in_state AOA_STATE_CONNECTED)).2.2
      = (STATUS_OK, some (2 :: 0 :: [7, 7, 7].drop 2),
          (aoa_handle_control_request 0xC0 AOA_CMD_GET_PROTOCOL 0 0 (some [7, 7, 7]) 2
            (system_in_state AOA_STATE_CONNECTED)).2.2) :=
  get_protocol_request (system_in_state AOA_STATE_CONNECTED) 0xC0 0 0 2 [7, 7, 7] (by decide)
    (by decide) (by decide)

/-- C4, as stated, fails in state `Connected`: a vendor `SEND_STRING` with index 0 and the
text "A" received while `Connected` returns success and leaves the negotiator in
`SendingStrings`. -/
theorem send_string_while_connected_moves_state :
    aoa_get_state (system_in_state AOA_STATE_CONNECTED) = AOA_STATE_CONNECTED ∧
    (aoa_handle_control_request 0x40 AOA_CMD_SEND_STRING 0 0 (some [65]) 1
      (system_in_state AOA_STATE_CONNECTED)).1 = STATUS_OK ∧
    aoa_get_state (aoa_handle_control_request 0x40 AOA_CMD_SEND_STRING 0 0 (some [65]) 1
      (system_in_state AOA_STATE_CONNECTED)).2.2 = AOA_STATE_SENDING_STRINGS ∧
    aoa_get_state (aoa_handle_control_request 0x40 AOA_CMD_SEND_STRING 0 0 (some [65]) 1
      (system_in_state AOA_STATE_CONNECTED)).2.2
      ≠ aoa_get_state (system_in_state AOA_STATE_CONNECTED) := by
  decide

/-- C4, amended: in each of the states `Disconnected`, `Detecting`, `StartingAccessory` and
`AccessoryMode`, whatever the index and the text, a vendor `SEND_STRING` request returns
success and changes nothing, so the negotiation state is as before (in particular
`Disconnected` stays `Disconnected`); received while `Connected` it is accepted and the
state becomes `SendingStrings`. -/
theorem send_string_request_outside_negotiation (s : System) (bm v i n : Nat)
    (d : Option (List Nat)) (hbm : bm &&& 0x60 = 0x40) :
    ((aoa_get_state s = AOA_STATE_DISCONNECTED ∨ aoa_get_state s = AOA_STATE_DETECTING ∨
        aoa_get_state s = AOA_STATE_STARTING_ACCESSORY ∨
        aoa_get_state s = AOA_STATE_ACCESSORY_MODE) →
      aoa_handle_control_request bm AOA_CMD_SEND_STRING v i d n s = (STATUS_OK, d, s) ∧
      aoa_get_state (aoa_handle_control_request bm AOA_CMD_SEND_STRING v i d n s).2.2
        = aoa_get_state s) ∧
    (aoa_get_state s = AOA_STATE_CONNECTED →
      (aoa_handle_control_request bm AOA_CMD_SEND_STRING v i d n s).1 = STATUS_OK ∧
      aoa_get_state (aoa_handle_control_request bm AOA_CMD_SEND_STRING v i d n s).2.2
        = AOA_STATE_SENDING_STRINGS) := by
  rw [control_send_string s bm v i n d hbm]
  simp only [aoa_get_state]
  constructor
  · intro h
    have hs : (aoa_handle_send_string (i % 256) d s).2 = s := by
      unfold aoa_handle_send_string
      rcases h with h | h | h | h <;> simp [h]
    rw [hs]
    exact ⟨rfl, rfl⟩
  · intro h
    refine ⟨trivial, ?_⟩
    rw [send_string_state, if_pos (Or.inl h)]

theorem send_string_request_outside_negotiation_witness :
    ((aoa_get_state (system_in_state AOA_STATE_DISCONNECTED) = AOA_STATE_DISCONNECTED ∨
        aoa_get_state (system_in_state AOA_STATE_DISCONNECTED) = AOA_STATE_DETECTING ∨
        aoa_get_state (system_in_state AOA_STATE_DISCONNECTED) = AOA_STATE_STARTING_ACCESSORY ∨
        aoa_get_state (system_in_state AOA_STATE_DISCONNECTED) = AOA_STATE_ACCESSORY_MODE) →
      aoa_handle_control_request 0x40 AOA_CMD_SEND_STRING 0 3 (some [65]) 1
          (system_in_state AOA_STATE_DISCONNECTED)
        = (STATUS_OK, some [65], system_in_state AOA_STATE_DISCONNECTED) ∧
      aoa_get_state (aoa_handle_control_request 0x40 AOA_CMD_SEND_STRING 0 3 (some [65]) 1
          (system_in_state AOA_STATE_DISCONNECTED)).2.2
        = aoa_get_state (system_in_state AOA_STATE_DISCONNECTED)) ∧
    (aoa_get_state (system_in_state AOA_STATE_DISCONNECTED) = AOA_STATE_CONNECTED →
      (aoa_handle_control_request 0x40 AOA_CMD_SEND_STRING 0 3 (some [65]) 1
          (system_in_state AOA_STATE_DISCONNECTED)).1 = STATUS_OK ∧
      aoa_get_state (aoa_handle_control_request 0x40 AOA_CMD_SEND_STRING 0 3 (some [65]) 1
          (system_in_state AOA_STATE_DISCONNECTED)).2.2 = AOA_STATE_SENDING_STRINGS) :=
  send_string_request_outside_negotiation (system_in_state AOA_STATE_DISCONNECTED) 0x40 0 3 1
    (some [65]) (by decide)

/-! ## Reset events and the negotiator -/

theorem handle_reset_interrupt_aoa (s : System) : (handle_reset_interrupt s).aoa = s.aoa :=
  rfl

theorem handle_resets_aoa (k : Nat) (s : System) : (handle_resets k s).aoa = s.aoa := by
  induction k generalizing s with
  | zero => rfl
  | succ k ih => rw [handle_resets, ih, handle_reset_interrupt_aoa]

/-- C5, as stated, fails: with the controller initialised and the negotiator in
`AccessoryMode`, after `handle_reset_interrupt` the state reported by `aoa_get_state` is
still `AccessoryMode`, not `Disconnected`. -/
theorem reset_keeps_accessory_mode :
    aoa_get_state
        (handle_reset_interrupt
          { system_after_init with
              aoa := { system_after_init.aoa with g_aoa_state := AOA_STATE_ACCESSORY_MODE } })
      = AOA_STATE_ACCESSORY_MODE ∧
    aoa_get_state
        (handle_reset_interrupt
          { system_after_init with
              aoa := { system_after_init.aoa with g_aoa_state := AOA_STATE_ACCESSORY_MODE } })
      ≠ AOA_STATE_DISCONNECTED := by
  decide

/-- C5, amended: `handle_reset_interrupt` does not touch the negotiator. After every
sequence of reset events `aoa_get_state` and `aoa_is_accessory_mode` report what they
reported before, so the state is `Disconnected` after a reset exactly when it was
`Disconnected` before it. What every reset does clear is the controller's own
"configured" and "connected" flags. -/
theorem reset_leaves_negotiation_state (k : Nat) (s : System) :
    aoa_get_state (handle_resets k s) = aoa_get_state s ∧
    aoa_is_accessory_mode (handle_resets k s) = aoa_is_accessory_mode s ∧
    (aoa_get_state (handle_resets k s) = AOA_STATE_DISCONNECTED
      ↔ aoa_get_state s = AOA_STATE_DISCONNECTED) ∧
    (handle_reset_interrupt s).otg.g_device_configured = false ∧
    (handle_reset_interrupt s).otg.g_is_connected = false := by
  refine ⟨?_, ?_, ?_, rfl, rfl⟩ <;>
    simp only [aoa_get_state, aoa_is_accessory_mode, handle_resets_aoa]

/-! ## Orchestrator: starting the bridge -/

/-- C6, as stated, fails: on the state left by the initialisation in `app_main`, the
orchestrator's `start_accessory_mode` returns success and the bridge is started, while
`aoa_get_state` reports `Disconnected`. -/
theorem bridge_started_while_disconnected :
    (start_accessory_mode main_g_device_info true true system_after_init).1 = STATUS_OK ∧
    (start_accessory_mode main_g_device_info true true system_after_init).2.proxy.g_proxy_active
      = true ∧
    aoa_get_state (start_accessory_mode main_g_device_info true true system_after_init).2
      = AOA_STATE_DISCONNECTED ∧
    aoa_get_state (start_accessory_mode main_g_device_info true true system_after_init).2
      ≠ AOA_STATE_ACCESSORY_MODE := by
  decide

/-- C6, amended: whenever the orchestrator's `start_accessory_mode` returns success, the
bridge is active, `aoa_is_accessory_mode()` is true and the gadget identity is the
accessory one (VID 0x18D1, PID 0x2D00, accessory flag set); the state reported by
`aoa_get_state` is the one from before the call, on success and on failure alike. -/
theorem bridge_start_sets_accessory_flag (info : device_info_t)
    (mutex_take_ok task_create_ok : Bool) (s : System)
    (h : (start_accessory_mode info mutex_take_ok task_create_ok s).1 = STATUS_OK) :
    (start_accessory_mode info mutex_take_ok task_create_ok s).2.proxy.g_proxy_active = true ∧
    aoa_is_accessory_mode (start_accessory_mode info mutex_take_ok task_create_ok s).2 = true ∧
    (start_accessory_mode info mutex_take_ok task_create_ok s).2.gadget.g_device_info.vid
      = 0x18D1 ∧
    (start_accessory_mode info mutex_take_ok task_create_ok s).2.gadget.g_device_info.pid
      = 0x2D00 ∧
    (start_accessory_mode info mutex_take_ok task_create_ok s).2.gadget.g_device_info.is_accessory_mode
      = true ∧
    aoa_get_state (start_accessory_mode info mutex_take_ok task_create_ok s).2
      = aoa_get_state s := by
  revert h
  simp only [start_accessory_mode, aoa_set_device_info, aoa_start_accessory_mode,
    usb_set_device_descriptor, proxy_start, aoa_get_state, aoa_is_accessory_mode]
  cases hp : s.proxy.g_proxy_active <;> cases mutex_take_ok <;> cases task_create_ok <;>
    simp [hp]

theorem bridge_start_sets_accessory_flag_witness :
    (start_accessory_mode main_g_device_info true true system_after_init).2.proxy.g_proxy_active
      = true ∧
    aoa_is_accessory_mode (start_accessory_mode main_g_device_info true true system_after_init).2
      = true ∧
    (start_accessory_mode main_g_device_info true true system_after_init).2.gadget.g_device_info.vid
      = 0x18D1 ∧
    (start_accessory_mode main_g_device_info true true system_after_init).2.gadget.g_device_info.pid
      = 0x2D00 ∧
    (start_accessory_mode main_g_device_info true true
      system_after_init).2.gadget.g_device_info.is_accessory_mode = true ∧
    aoa_get_state (start_accessory_mode main_g_device_info true true system_after_init).2
      = aoa_get_state system_after_init :=
  bridge_start_sets_accessory_flag main_g_device_info true true system_after_init (by decide)

/-! ## FIFO words: packing and unpacking -/

theorem word_of_bytes (b0 b1 b2 b3 : Nat) (h0 : b0 < 256) (h1 : b1 < 256) (h2 : b2 < 256) :
    (((0 ||| b0 <<< (0 * 8)) ||| b1 <<< (1 * 8)) ||| b2 <<< (2 * 8)) ||| b3 <<< (3 * 8)
      = b0 + 256 * b1 + 65536 * b2 + 16777216 * b3 := by
  have e1 : b0 ||| b1 * 256 = 256 * b1 + b0 := by
    rw [Nat.or_comm, Nat.mul_comm]
    exact (Nat.mul_add_lt_is_or (show b0 < 2 ^ 8 from h0) b1).symm
  have e2 : (256 * b1 + b0) ||| b2 * 65536 = 65536 * b2 + (256 * b1 + b0) := by
    rw [Nat.or_comm, Nat.mul_comm]
    exact (Nat.mul_add_lt_is_or (show 256 * b1 + b0 < 2 ^ 16 by omega) b2).symm
  have e3 : (65536 * b2 + (256 * b1 + b0)) ||| b3 * 16777216
      = 16777216 * b3 + (65536 * b2 + (256 * b1 + b0)) := by
    rw [Nat.or_comm, Nat.mul_comm]
    exact (Nat.mul_add_lt_is_or (show 65536 * b2 + (256 * b1 + b0) < 2 ^ 24 by omega) b3).symm
  simp only [Nat.shiftLeft_eq, Nat.zero_or, Nat.zero_mul, Nat.pow_zero, Nat.mul_one]
  norm_num
  rw [e1, e2, e3]
  omega

theorem byte_of_word (w j : Nat) : (w >>> (j * 8)) &&& 0xFF = (w / 2 ^ (j * 8)) % 256 := by
  rw [Nat.shiftRight_eq_div_pow]
  exact Nat.and_pow_two_sub_one_eq_mod _ 8

theorem pack_word_eq (src : List Nat) (i c : Nat) (hb : ∀ b ∈ src, b < 256) :
    pack_word src i c
      = (if i + 0 < c then src.getD (i + 0) 0 else 0)
        + 256 * (if i + 1 < c then src.getD (i + 1) 0 else 0)
        + 65536 * (if i + 2 < c then src.getD (i + 2) 0 else 0)
        + 16777216 * (if i + 3 < c then src.getD (i + 3) 0 else 0) := by
  have hget : ∀ k, src.getD k 0 < 256 := by
    intro k
    rw [List.getD_eq_getElem?_getD]
    cases h : src[k]? with
    | none => simp
    | some b => simpa using hb b (List.getElem?_mem h)
  have hif : ∀ (p : Prop) [Decidable p] (w b s : Nat),
      (if p then w ||| (b <<< s) else w) = w ||| ((if p then b else 0) <<< s) := by
    intro p _ w b s
    split <;> simp
  rw [← word_of_bytes]
  · simp only [pack_word, show List.range 4 = [0, 1, 2, 3] from rfl, List.foldl, hif]
  · split
    · exact hget _
    · omega
  · split
    · exact hget _
    · omega
  · split
    · exact hget _
    · omega

theorem getD_lt_256 (src : List Nat) (hb : ∀ b ∈ src, b < 256) (k : Nat) : src.getD k 0 < 256 := by
  rw [List.getD_eq_getElem?_getD]
  cases h : src[k]? with
  | none => simp
  | some b => simpa using hb b (List.getElem?_mem h)

theorem bytes_of_word (b0 b1 b2 b3 : Nat) (h0 : b0 < 256) (h1 : b1 < 256) (h2 : b2 < 256)
    (h3 : b3 < 256) :
    (b0 + 256 * b1 + 65536 * b2 + 16777216 * b3) / 2 ^ (0 * 8) % 256 = b0 ∧
    (b0 + 256 * b1 + 65536 * b2 + 16777216 * b3) / 2 ^ (1 * 8) % 256 = b1 ∧
    (b0 + 256 * b1 + 65536 * b2 + 16777216 * b3) / 2 ^ (2 * 8) % 256 = b2 ∧
    (b0 + 256 * b1 + 65536 * b2 + 16777216 * b3) / 2 ^ (3 * 8) % 256 = b3 := by
  norm_num
  omega

/-- Unpacking the word packed from position `i` gives back the bytes it was packed from. -/
theorem unpack_pack_word (src : List Nat) (i c : Nat) (hb : ∀ b ∈ src, b < 256) :
    unpack_word (pack_word src i c) i c
      = [0, 1, 2, 3].filterMap (fun j => if i + j < c then some (src.getD (i + j) 0) else none) := by
  have g0 := getD_lt_256 src hb (i + 0)
  have g1 := getD_lt_256 src hb (i + 1)
  have g2 := getD_lt_256 src hb (i + 2)
  have g3 := getD_lt_256 src hb (i + 3)
  rw [pack_word_eq src i c hb]
  have hz : (0 : Nat) < 256 := by omega
  simp only [unpack_word, show List.range 4 = [0, 1, 2, 3] from rfl, byte_of_word]
  by_cases c0 : i + 0 < c <;> by_cases c1 : i + 1 < c <;> by_cases c2 : i + 2 < c <;>
    by_cases c3 : i + 3 < c <;>
    simp only [c0, c1, c2, c3, if_true, if_false, List.filterMap_cons, List.filterMap_nil]
  all_goals first
    | omega
    | (obtain ⟨e0, e1, e2, e3⟩ := bytes_of_word _ _ _ _ g0 g1 g2 g3
       rw [e0, e1, e2, e3])
    | (obtain ⟨e0, e1, e2, -⟩ := bytes_of_word _ _ _ 0 g0 g1 g2 hz
       rw [e0, e1, e2])
    | (obtain ⟨e0, e1, -, -⟩ := bytes_of_word _ _ 0 0 g0 g1 hz hz
       rw [e0, e1])
    | (obtain ⟨e0, -, -, -⟩ := bytes_of_word _ 0 0 0 g0 hz hz hz
       rw [e0])

/-- The bytes of `src` from position `i`, up to four of them and below position `c`. -/
theorem slice_eq_filterMap (src : List Nat) (i c : Nat) (hc : c ≤ src.length) :
    [0, 1, 2, 3].filterMap (fun j => if i + j < c then some (src.getD (i + j) 0) else none)
      = (src.drop i).take (min 4 (c - i)) := by
  by_cases c0 : i + 0 < c <;> by_cases c1 : i + 1 < c <;> by_cases c2 : i + 2 < c <;>
    by_cases c3 : i + 3 < c <;>
    simp only [c0, c1, c2, c3, if_true, if_false, List.filterMap_cons, List.filterMap_nil]
  all_goals first
    | omega
    | (have hm : min 4 (c - i) = 4 := by omega
       rw [hm, List.drop_eq_getElem_cons (show i < src.length by omega),
         List.drop_eq_getElem_cons (show i + 1 < src.length by omega),
         List.drop_eq_getElem_cons (show i + 1 + 1 < src.length by omega),
         List.drop_eq_getElem_cons (show i + 1 + 1 + 1 < src.length by omega),
         List.getD_eq_getElem _ _ (show i + 0 < src.length by omega),
         List.getD_eq_getElem _ _ (show i + 1 < src.length by omega),
         List.getD_eq_getElem _ _ (show i + 2 < src.length by omega),
         List.getD_eq_getElem _ _ (show i + 3 < src.length by omega)]
       rfl)
    | (have hm : min 4 (c - i) = 3 := by omega
       rw [hm, List.drop_eq_getElem_cons (show i < src.length by omega),
         List.drop_eq_getElem_cons (show i + 1 < src.length by omega),
         List.drop_eq_getElem_cons (show i + 1 + 1 < src.length by omega),
         List.getD_eq_getElem _ _ (show i + 0 < src.length by omega),
         List.getD_eq_getElem _ _ (show i + 1 < src.length by omega),
         List.getD_eq_getElem _ _ (show i + 2 < src.length by omega)]
       rfl)
    | (have hm : min 4 (c - i) = 2 := by omega
       rw [hm, List.drop_eq_getElem_cons (show i < src.length by omega),
         List.drop_eq_getElem_cons (show i + 1 < src.length by omega),
         List.getD_eq_getElem _ _ (show i + 0 < src.length by omega),
         List.getD_eq_getElem _ _ (show i + 1 < src.length by omega)]
       rfl)
    | (have hm : min 4 (c - i) = 1 := by omega
       rw [hm, List.drop_eq_getElem_cons (show i < src.length by omega),
         List.getD_eq_getElem _ _ (show i + 0 < src.length by omega)]
       rfl)
    | (have hm : min 4 (c - i) = 0 := by omega
       rw [hm]
       rfl)

/-- Consecutive slices of up to four bytes, below position `c`, make up `src.take c`. -/
theorem slices_flatten (src : List Nat) (c m : Nat) :
    ((List.range m).map (fun k => (src.drop (4 * k)).take (min 4 (c - 4 * k)))).flatten
      = src.take (min c (4 * m)) := by
  induction m with
  | zero => simp
  | succ m ih =>
    rw [List.range_succ, List.map_append, List.flatten_append, ih]
    simp only [List.map_cons, List.map_nil, List.flatten_cons, List.flatten_nil, List.append_nil]
    by_cases h : c ≤ 4 * m
    · have h1 : min 4 (c - 4 * m) = 0 := by omega
      have h2 : min c (4 * (m + 1)) = min c (4 * m) := by omega
      rw [h1, h2]
      simp
    · have h1 : min c (4 * m) = 4 * m := by omega
      have h2 : min c (4 * (m + 1)) = 4 * m + min 4 (c - 4 * m) := by omega
      rw [h1, h2, List.take_add]

/-- Round trip of one chunk: the words written for the first `c` bytes of `src`, read back
for `c` bytes, are those bytes. -/
theorem read_chunk_words (src : List Nat) (c : Nat) (hb : ∀ b ∈ src, b < 256)
    (hc : c ≤ src.length) :
    read_words (chunk_words src c) c = src.take c := by
  have hk : ∀ k ∈ List.range ((c + 3) / 4),
      unpack_word ((chunk_words src c).getD k 0) (4 * k) c
        = (src.drop (4 * k)).take (min 4 (c - 4 * k)) := by
    intro k hk
    have hk' : k < (c + 3) / 4 := List.mem_range.mp hk
    have hw : (chunk_words src c).getD k 0 = pack_word src (4 * k) c := by
      rw [List.getD_eq_getElem _ _ (by simpa [chunk_words] using hk')]
      simp [chunk_words]
    rw [hw, unpack_pack_word src (4 * k) c hb, slice_eq_filterMap src (4 * k) c hc]
  rw [read_words, List.map_congr_left hk, slices_flatten]
  congr 1
  omega

/-! ## The polling loop -/

/-- A register that shows ready at the first read leaves `timeout` as it was. -/
theorem spin_wait_ready_first (busy : Nat → Bool) (t k : Nat) (h : busy k = false) :
    spin_wait busy t k = (t, k + 1) := by
  cases t <;> simp [spin_wait, h]

/-- A register that shows busy at every read ends the loop after `t + 1` reads with
`timeout` wrapped around to 0xFFFFFFFF. -/
theorem spin_wait_never_ready (busy : Nat → Bool) (h : ∀ k, busy k = true) (t k : Nat) :
    spin_wait busy t k = (4294967295, k + t + 1) := by
  induction t generalizing k with
  | zero => simp [spin_wait, h]
  | succ t ih =>
    rw [spin_wait, if_pos (h k), ih]
    congr 1
    omega

/-! ## The write loop -/

theorem write_loop_total (t : Nat) (src : List Nat) (remaining : Nat) :
    chunks_total (write_loop t src remaining).2 = min remaining (64 * t) := by
  induction t generalizing src remaining with
  | zero => simp [write_loop, chunks_total]
  | succ t ih =>
    rw [write_loop]
    split
    · have := ih (src.drop (if remaining > 64 then 64 else remaining))
        (remaining - (if remaining > 64 then 64 else remaining))
      simp only [chunks_total, List.map_cons, List.sum_cons] at this ⊢
      rw [this]
      split <;> omega
    · simp only [chunks_total, List.map_nil, List.sum_nil]
      omega

theorem write_loop_timeout_short (t : Nat) (src : List Nat) (remaining : Nat)
    (h : 64 * t < remaining) : (write_loop t src remaining).1 = 4294967295 := by
  induction t generalizing src remaining with
  | zero =>
    simp only [write_loop]
    rw [if_pos (by omega)]
  | succ t ih =>
    rw [write_loop, if_pos (by omega)]
    simp only
    apply ih
    split <;> omega

theorem write_loop_chunk_bound (t : Nat) (src : List Nat) (remaining : Nat) :
    ∀ c ∈ (write_loop t src remaining).2,
      1 ≤ c.1 ∧ c.1 ≤ 64 ∧ c.2.length = (c.1 + 3) / 4 ∧ c.2.length ≤ 16 := by
  induction t generalizing src remaining with
  | zero => simp [write_loop]
  | succ t ih =>
    rw [write_loop]
    split
    · intro c hc
      simp only [List.mem_cons] at hc
      rcases hc with rfl | hc
      · simp only [chunk_words, List.length_map, List.length_range]
        refine ⟨?_, ?_, trivial, ?_⟩ <;> split_ifs <;> omega
      · exact ih _ _ c hc
    · simp

/-! ## Reading back what was written -/

theorem rx_status_fields :
    ∀ ep < 16, ∀ c < 65,
      (rx_status ep c &&& 0x7F) % 256 = ep ∧ ((rx_status ep c >>> 16) &&& 0x7FF) % 65536 = c := by
  decide

/-- One loop-back read of a chunk written from `src`, into a buffer with room for the
chunk: it returns the chunk's bytes and leaves the controller initialised. -/
theorem read_endpoint_of_chunk (o : OtgGlobals) (ep_num length c : Nat) (src : List Nat)
    (hm : o.regs_mapped = true) (hi : o.g_usb_initialized = true) (hep : ep_num ≤ 15)
    (hc1 : 1 ≤ c) (hc2 : c ≤ 64) (hlen : c ≤ length) (hb : ∀ b ∈ src, b < 256)
    (hsrc : c ≤ src.length) :
    let r := esp32_usb_otg_read_endpoint ep_num (some (List.replicate length 0)) length (some 0)
      { o with grxstsr := rx_status ep_num c
               rx_fifo := Function.update o.rx_fifo ep_num (chunk_words src c) }
    (r.2.1.getD []).take (r.2.2.1.getD 0) = src.take c ∧
    r.2.2.2.regs_mapped = true ∧ r.2.2.2.g_usb_initialized = true := by
  obtain ⟨f1, f2⟩ := rx_status_fields ep_num (by omega) c (by omega)
  have hlt : (if c < length then c else length) = c := by split <;> omega
  have hne : ¬ (ep_num ≠ ep_num ∨ c = 0) := by omega
  have hnot : ¬ ep_num > 15 := by omega
  simp only [esp32_usb_otg_read_endpoint, hm, hi, f1, f2, hlt, hne, hnot, if_true, if_false,
    Function.update_same, Bool.true_eq_false, or_self, Option.getD_some,
    read_chunk_words src c hb hsrc]
  refine ⟨?_, trivial, trivial⟩
  rw [List.take_append_of_le_length (by simp; omega), List.take_take]
  simp

/-- The loop-back of the chunks of a write loop returns the bytes the loop transferred,
when every read has room for its chunk: a buffer of 64 bytes, or of as many bytes as the
loop was asked to write. -/
theorem loopback_write_loop (t : Nat) (src : List Nat) (remaining : Nat) (o : OtgGlobals)
    (ep_num length : Nat) (hm : o.regs_mapped = true) (hi : o.g_usb_initialized = true)
    (hep : ep_num ≤ 15) (hlen : 64 ≤ length ∨ remaining ≤ length) (hb : ∀ b ∈ src, b < 256)
    (hsrc : remaining ≤ src.length) :
    loopback_read ep_num length o (write_loop t src remaining).2
      = src.take (chunks_total (write_loop t src remaining).2) := by
  induction t generalizing src remaining o with
  | zero => simp [write_loop, loopback_read, chunks_total]
  | succ t ih =>
    rw [write_loop]
    split
    · rename_i hpos
      have hc1 : 1 ≤ (if remaining > 64 then 64 else remaining) := by split <;> omega
      have hc2 : (if remaining > 64 then 64 else remaining) ≤ 64 := by split <;> omega
      have hc3 : (if remaining > 64 then 64 else remaining) ≤ src.length := by split <;> omega
      have hc4 : (if remaining > 64 then 64 else remaining) ≤ length := by split <;> omega
      generalize (if remaining > 64 then 64 else remaining) = c at hc1 hc2 hc3 hc4
      obtain ⟨r1, r2, r3⟩ := read_endpoint_of_chunk o ep_num length c src hm hi hep hc1 hc2 hc4
        hb hc3
      simp only [loopback_read, chunks_total, List.map_cons, List.sum_cons] at r1 r2 r3 ⊢
      rw [r1, ih (src.drop c) (remaining - c) _ r2 r3 (by omega)
        (fun b hb' => hb b (List.mem_of_mem_drop hb')) (by simp; omega)]
      simp only [chunks_total]
      rw [List.take_add]
    · simp [loopback_read, chunks_total]

theorem write_loop_timeout_enough (t : Nat) (src : List Nat) (remaining : Nat)
    (h : remaining ≤ 64 * t) : (write_loop t src remaining).1 = t - (remaining + 63) / 64 := by
  induction t generalizing src remaining with
  | zero =>
    simp only [write_loop]
    rw [if_neg (by omega)]
    omega
  | succ t ih =>
    rw [write_loop]
    split
    · simp only
      rw [ih _ _ (by split <;> omega)]
      split <;> omega
    · omega

/-- The write, once its argument checks pass: the polling loop, then the write loop run
with the `timeout` the polling loop left. -/
theorem write_endpoint_checked (dtxfsts_reads : Nat → Nat) (ep_num length tr : Nat)
    (src : List Nat) (o : OtgGlobals) (hm : o.regs_mapped = true)
    (hi : o.g_usb_initialized = true) (hep : ep_num ≤ 15) :
    esp32_usb_otg_write_endpoint dtxfsts_reads ep_num (some src) length (some tr) o
      = if (spin_wait (fun k => dtxfsts_reads k &&& (1 <<< 0) == 0) 1000 0).1 = 0 then
          (ESP_ERR_TIMEOUT, some 0, o)
        else
          (if (write_loop (spin_wait (fun k => dtxfsts_reads k &&& (1 <<< 0) == 0) 1000 0).1
                src length).1 = 0 then ESP_ERR_TIMEOUT else ESP_OK,
            some (chunks_total (write_loop
              (spin_wait (fun k => dtxfsts_reads k &&& (1 <<< 0) == 0) 1000 0).1 src length).2),
            { o with tx_fifo := Function.update o.tx_fifo ep_num (o.tx_fifo ep_num ++
                chunks_words (write_loop
                  (spin_wait (fun k => dtxfsts_reads k &&& (1 <<< 0) == 0) 1000 0).1
                  src length).2) }) := by
  have hnot : ¬ ep_num > 15 := by omega
  simp only [esp32_usb_otg_write_endpoint, hm, hi, hnot, Bool.true_eq_false, or_self, if_false]
  split
  · rfl
  · split <;> rfl

theorem write_chunks_checked (dtxfsts_reads : Nat → Nat) (ep_num length tr : Nat)
    (src : List Nat) (o : OtgGlobals) (hm : o.regs_mapped = true)
    (hi : o.g_usb_initialized = true) (hep : ep_num ≤ 15) :
    write_chunks dtxfsts_reads ep_num (some src) length (some tr) o
      = if (spin_wait (fun k => dtxfsts_reads k &&& (1 <<< 0) == 0) 1000 0).1 = 0 then []
        else (write_loop (spin_wait (fun k => dtxfsts_reads k &&& (1 <<< 0) == 0) 1000 0).1
          src length).2 := by
  have hnot : ¬ ep_num > 15 := by omega
  simp only [write_chunks, hm, hi, hnot, Bool.true_eq_false, or_self, if_false]

/-! ## Round trip through the FIFO -/

/-- C8, as stated, fails for a write that is cut short: with the FIFO ready at the first
poll, a write of 64001 bytes returns `ESP_OK` after transferring 64000 of them, and the
words it produced, read back by `esp32_usb_otg_read_endpoint`, give 64000 bytes, which is
not the original sequence. -/
theorem round_trip_loses_tail_of_cut_write :
    (esp32_usb_otg_write_endpoint (fun _ => 1) 1 (some bytes_64001) 64001 (some 0)
      otg_initialised).1 = ESP_OK ∧
    (esp32_usb_otg_write_endpoint (fun _ => 1) 1 (some bytes_64001) 64001 (some 0)
      otg_initialised).2.1 = some 64000 ∧
    (loopback_read 1 64 otg_initialised
      (write_chunks (fun _ => 1) 1 (some bytes_64001) 64001 (some 0) otg_initialised)).length
      = 64000 ∧
    loopback_read 1 64 otg_initialised
      (write_chunks (fun _ => 1) 1 (some bytes_64001) 64001 (some 0) otg_initialised)
      ≠ bytes_64001 := by
  have hs : spin_wait (fun k => (fun _ => 1) k &&& (1 <<< 0) == 0) 1000 0 = (1000, 0 + 1) :=
    spin_wait_ready_first _ 1000 0 (by decide)
  have hb : ∀ b ∈ bytes_64001, b < 256 := by
    intro b hb
    rw [bytes_64001, List.mem_replicate] at hb
    omega
  have hlen : bytes_64001.length = 64001 := by rw [bytes_64001, List.length_replicate]
  have htot := write_loop_total 1000 bytes_64001 64001
  have hto := write_loop_timeout_short 1000 bytes_64001 64001 (by omega)
  have hloop := loopback_write_loop 1000 bytes_64001 64001 otg_initialised 1 64 rfl rfl
    (by omega) (by omega) hb (by omega)
  rw [htot] at hloop
  have hmin : min 64001 (64 * 1000) = 64000 := by omega
  rw [hmin] at hloop htot
  rw [write_endpoint_checked _ _ _ _ _ _ rfl rfl (by omega),
    write_chunks_checked _ _ _ _ _ _ rfl rfl (by omega), hs]
  simp only [hto, htot, hloop]
  refine ⟨by decide, by decide, ?_, ?_⟩
  · rw [if_neg (by decide), hloop, List.length_take, hlen]
    omega
  · rw [if_neg (by decide), hloop]
    intro h
    have := congrArg List.length h
    rw [List.length_take, hlen] at this
    omega

/-- C8, amended: for every byte sequence of at most 65535 bytes written to an endpoint 0 to
15 of an initialised controller, whatever the transmit status shows, the write puts in the
FIFO exactly the words of its chunks, in order, every chunk holds between 1 and 64 bytes
in at most 16 words, and `*transferred` is the total of the chunk sizes, at most the
length. Read back in the same order by `esp32_usb_otg_read_endpoint`, one chunk per call
for at least the chunk's number of bytes (a buffer of 64 bytes, or of as many bytes as the
sequence has, is enough for every chunk), the words give exactly the first `*transferred`
bytes of the sequence, unmodified and in order; this is the whole sequence whenever the
write transferred all of it, which it does when the FIFO is ready at the first poll and
the sequence has at most 64000 bytes. -/
theorem write_read_round_trip (o : OtgGlobals) (dtxfsts_reads : Nat → Nat) (ep_num length : Nat)
    (data : List Nat) (hm : o.regs_mapped = true) (hi : o.g_usb_initialized = true)
    (hep : ep_num ≤ 15) (hb : ∀ b ∈ data, b < 256) (_hdata : data.length ≤ 65535)
    (hlen : 64 ≤ length ∨ data.length ≤ length) :
    (esp32_usb_otg_write_endpoint dtxfsts_reads ep_num (some data) data.length (some 0)
        o).2.2.tx_fifo ep_num
      = o.tx_fifo ep_num ++ chunks_words
          (write_chunks dtxfsts_reads ep_num (some data) data.length (some 0) o) ∧
    (esp32_usb_otg_write_endpoint dtxfsts_reads ep_num (some data) data.length (some 0) o).2.1
      = some (chunks_total
          (write_chunks dtxfsts_reads ep_num (some data) data.length (some 0) o)) ∧
    chunks_total (write_chunks dtxfsts_reads ep_num (some data) data.length (some 0) o)
      ≤ data.length ∧
    (∀ c ∈ write_chunks dtxfsts_reads ep_num (some data) data.length (some 0) o,
      1 ≤ c.1 ∧ c.1 ≤ 64 ∧ c.2.length ≤ 16) ∧
    loopback_read ep_num length o
        (write_chunks dtxfsts_reads ep_num (some data) data.length (some 0) o)
      = data.take (chunks_total
          (write_chunks dtxfsts_reads ep_num (some data) data.length (some 0) o)) ∧
    (chunks_total (write_chunks dtxfsts_reads ep_num (some data) data.length (some 0) o)
        = data.length →
      loopback_read ep_num length o
          (write_chunks dtxfsts_reads ep_num (some data) data.length (some 0) o)
        = data) ∧
    (dtxfsts_reads 0 &&& 1 ≠ 0 → data.length ≤ 64000 →
      (esp32_usb_otg_write_endpoint dtxfsts_reads ep_num (some data) data.length (some 0) o).2.1
        = some data.length ∧
      loopback_read ep_num length o
          (write_chunks dtxfsts_reads ep_num (some data) data.length (some 0) o)
        = data) := by
  rw [write_endpoint_checked _ _ _ _ _ _ hm hi hep, write_chunks_checked _ _ _ _ _ _ hm hi hep]
  have key : ∀ t : Nat,
      loopback_read ep_num length o (write_loop t data data.length).2
        = data.take (chunks_total (write_loop t data data.length).2) :=
    fun t => loopback_write_loop t data data.length o ep_num length hm hi hep hlen hb
      (Nat.le_refl _)
  have hfirst : dtxfsts_reads 0 &&& 1 ≠ 0 →
      spin_wait (fun k => dtxfsts_reads k &&& (1 <<< 0) == 0) 1000 0 = (1000, 0 + 1) := by
    intro h
    exact spin_wait_ready_first _ 1000 0 (by simpa using h)
  by_cases h0 : (spin_wait (fun k => dtxfsts_reads k &&& (1 <<< 0) == 0) 1000 0).1 = 0
  · simp only [h0, if_true]
    refine ⟨by simp [chunks_words], by simp [chunks_total], by simp [chunks_total],
      by simp, by simp [loopback_read, chunks_total], ?_, ?_⟩
    · intro h
      simp only [chunks_total, List.map_nil, List.sum_nil] at h
      have : data = [] := List.length_eq_zero.mp h.symm
      simp [loopback_read, this]
    · intro hr _
      rw [hfirst hr] at h0
      omega
  · simp only [h0, if_false]
    refine ⟨by simp, trivial, ?_, ?_, key _, ?_, ?_⟩
    · rw [write_loop_total]
      omega
    · intro c hc
      obtain ⟨b1, b2, -, b4⟩ := write_loop_chunk_bound _ data data.length c hc
      exact ⟨b1, b2, b4⟩
    · intro h
      rw [key _, h, List.take_length]
    · intro hr hle
      rw [hfirst hr]
      simp only
      rw [key 1000, write_loop_total, Nat.min_eq_left (by omega), List.take_length]
      exact ⟨rfl, rfl⟩

theorem write_read_round_trip_witness :
    ((esp32_usb_otg_write_endpoint (fun _ => 1) 1 (some [1, 2, 3, 4, 5]) [1, 2, 3, 4, 5].length
        (some 0) otg_initialised).2.1 = some [1, 2, 3, 4, 5].length ∧
      loopback_read 1 64 otg_initialised
          (write_chunks (fun _ => 1) 1 (some [1, 2, 3, 4, 5]) [1, 2, 3, 4, 5].length (some 0)
            otg_initialised)
        = [1, 2, 3, 4, 5]) ∧
    loopback_read 1 5 otg_initialised
        (write_chunks (fun _ => 1) 1 (some [1, 2, 3, 4, 5]) [1, 2, 3, 4, 5].length (some 0)
          otg_initialised)
      = [1, 2, 3, 4, 5] :=
  ⟨(write_read_round_trip otg_initialised (fun _ => 1) 1 64 [1, 2, 3, 4, 5] rfl rfl (by decide)
      (by decide) (by decide) (Or.inl (by decide))).2.2.2.2.2.2 (by decide) (by decide),
    ((write_read_round_trip otg_initialised (fun _ => 1) 1 5 [1, 2, 3, 4, 5] rfl rfl (by decide)
      (by decide) (by decide) (Or.inr (by decide))).2.2.2.2.2.2 (by decide) (by decide)).2⟩

/-! ## Polling loops that never see "ready" -/

/-- C9, the code at a failing input class: when the transmit-FIFO-ready bit reads clear at
every poll, the polling loop of `esp32_usb_otg_write_endpoint` does stop, after 1001 reads,
but with `timeout` wrapped to 0xFFFFFFFF instead of 0, so the check `timeout == 0` does not
fire: the call goes on to write every byte to the FIFO and returns `ESP_OK` with
`*transferred` equal to the length, not `ESP_ERR_TIMEOUT` with 0. -/
theorem write_endpoint_never_ready (o : OtgGlobals) (dtxfsts_reads : Nat → Nat) (ep_num : Nat)
    (data : List Nat) (hm : o.regs_mapped = true) (hi : o.g_usb_initialized = true)
    (hep : ep_num ≤ 15) (hdata : data.length ≤ 65535)
    (hbusy : ∀ k, dtxfsts_reads k &&& 1 = 0) :
    spin_wait (fun k => dtxfsts_reads k &&& (1 <<< 0) == 0) 1000 0 = (4294967295, 1001) ∧
    (esp32_usb_otg_write_endpoint dtxfsts_reads ep_num (some data) data.length (some 0) o).1
      = ESP_OK ∧
    (esp32_usb_otg_write_endpoint dtxfsts_reads ep_num (some data) data.length (some 0) o).2.1
      = some data.length ∧
    (esp32_usb_otg_write_endpoint dtxfsts_reads ep_num (some data) data.length (some 0)
        o).2.2.tx_fifo ep_num
      = o.tx_fifo ep_num ++ chunks_words (write_loop 4294967295 data data.length).2 := by
  have hs : spin_wait (fun k => dtxfsts_reads k &&& (1 <<< 0) == 0) 1000 0
      = (4294967295, 0 + 1000 + 1) :=
    spin_wait_never_ready _ (fun k => by simpa using hbusy k) 1000 0
  have hto := write_loop_timeout_enough 4294967295 data data.length (by omega)
  have hne : (write_loop 4294967295 data data.length).1 ≠ 0 := by
    rw [hto]
    omega
  have hw := write_endpoint_checked dtxfsts_reads ep_num data.length 0 data o hm hi hep
  rw [hs] at hw
  simp only [if_neg hne, write_loop_total] at hw
  rw [if_neg (by decide), Nat.min_eq_left (by omega)] at hw
  rw [hw]
  refine ⟨hs, rfl, rfl, ?_⟩
  simp

theorem write_endpoint_never_ready_witness :
    spin_wait (fun k => (fun _ => 0) k &&& (1 <<< 0) == 0) 1000 0 = (4294967295, 1001) ∧
    (esp32_usb_otg_write_endpoint (fun _ => 0) 1 (some [0xAA]) [0xAA].length (some 0)
      otg_initialised).1 = ESP_OK ∧
    (esp32_usb_otg_write_endpoint (fun _ => 0) 1 (some [0xAA]) [0xAA].length (some 0)
      otg_initialised).2.1 = some [0xAA].length ∧
    (esp32_usb_otg_write_endpoint (fun _ => 0) 1 (some [0xAA]) [0xAA].length (some 0)
        otg_initialised).2.2.tx_fifo 1
      = otg_initialised.tx_fifo 1 ++ chunks_words (write_loop 4294967295 [0xAA] [0xAA].length).2 :=
  write_endpoint_never_ready otg_initialised (fun _ => 0) 1 [0xAA] rfl rfl (by decide)
    (by decide) (fun _ => (by decide : (0 : Nat) &&& 1 = 0))

/-- The soft reset when the core soft-reset bit reads set at every poll. -/
theorem soft_reset_never_clears (o : OtgGlobals) (grstctl_reads : Nat → Nat)
    (hm : o.regs_mapped = true) (hbusy : ∀ k, grstctl_reads k &&& 1 ≠ 0) :
    spin_wait (fun k => grstctl_reads k &&& GRSTCTL_CSFTRST != 0) 1000 0 = (4294967295, 1001) ∧
    (esp32_usb_otg_soft_reset grstctl_reads o).1 = ESP_OK ∧
    (esp32_usb_otg_soft_reset grstctl_reads o).2.regs_mapped = true := by
  have hs : spin_wait (fun k => grstctl_reads k &&& GRSTCTL_CSFTRST != 0) 1000 0
      = (4294967295, 0 + 1000 + 1) :=
    spin_wait_never_ready _ (fun k => by simpa using hbusy k) 1000 0
  have hr : esp32_usb_otg_soft_reset grstctl_reads o
      = (ESP_OK, { o with grstctl :=
          ((((o.grstctl ||| GRSTCTL_CSFTRST) ||| GRSTCTL_TXFFLSH) &&& not32 GRSTCTL_TXFFLSH)
            ||| GRSTCTL_RXFFLSH) &&& not32 GRSTCTL_RXFFLSH }) := by
    simp only [esp32_usb_otg_soft_reset, hm, hs, Bool.true_eq_false, if_false]
    rw [if_neg (by decide)]
  rw [hr]
  exact ⟨hs, rfl, hm⟩

/-- C10, the code at a failing input class: when the core soft-reset bit reads set at every
poll, the polling loop of `esp32_usb_otg_soft_reset` stops after 1001 reads with `timeout`
wrapped to 0xFFFFFFFF, the check `timeout == 0` does not fire and the soft reset returns
`ESP_OK`; `esp32_usb_otg_init` then returns `ESP_OK` too and sets `g_usb_initialized`,
instead of failing with `ESP_ERR_TIMEOUT` and leaving the controller uninitialised. -/
theorem init_succeeds_when_reset_never_clears (o : OtgGlobals) (grstctl_reads : Nat → Nat)
    (DCFG_DSPD_FS GAHBCFG_HBSTLEN_16 : Nat) (hbusy : ∀ k, grstctl_reads k &&& 1 ≠ 0) :
    spin_wait (fun k => grstctl_reads k &&& GRSTCTL_CSFTRST != 0) 1000 0 = (4294967295, 1001) ∧
    (esp32_usb_otg_soft_reset grstctl_reads { o with regs_mapped := true }).1 = ESP_OK ∧
    (esp32_usb_otg_init DCFG_DSPD_FS GAHBCFG_HBSTLEN_16 grstctl_reads o).1 = ESP_OK ∧
    (esp32_usb_otg_init DCFG_DSPD_FS GAHBCFG_HBSTLEN_16 grstctl_reads o).2.g_usb_initialized
      = true := by
  obtain ⟨h1, h2, -⟩ := soft_reset_never_clears { o with regs_mapped := true } grstctl_reads rfl
    hbusy
  refine ⟨h1, h2, ?_, ?_⟩ <;>
    simp [esp32_usb_otg_init, h2]

theorem init_succeeds_when_reset_never_clears_witness :
    spin_wait (fun k => (fun _ => 1) k &&& GRSTCTL_CSFTRST != 0) 1000 0 = (4294967295, 1001) ∧
    (esp32_usb_otg_soft_reset (fun _ => 1) { otg_static_init with regs_mapped := true }).1
      = ESP_OK ∧
    (esp32_usb_otg_init 1 6 (fun _ => 1) otg_static_init).1 = ESP_OK ∧
    (esp32_usb_otg_init 1 6 (fun _ => 1) otg_static_init).2.g_usb_initialized = true :=
  init_succeeds_when_reset_never_clears otg_static_init (fun _ => 1) 1 6
    (fun _ => (by decide : (1 : Nat) &&& 1 ≠ 0))

/-! ## Forwarding from USB to TCP -/

theorem unpack_word_length (w i n : Nat) : (unpack_word w i n).length = min 4 (n - i) := by
  simp only [unpack_word, show List.range 4 = [0, 1, 2, 3] from rfl]
  by_cases c0 : i + 0 < n <;> by_cases c1 : i + 1 < n <;> by_cases c2 : i + 2 < n <;>
    by_cases c3 : i + 3 < n <;>
    simp only [c0, c1, c2, c3, if_true, if_false, List.filterMap_cons, List.filterMap_nil,
      List.length_cons, List.length_nil] <;>
    omega

/-- The read loop stores exactly `bytes_to_read` bytes, whatever the FIFO holds. -/
theorem read_words_length (fifo : List Nat) (n : Nat) : (read_words fifo n).length = n := by
  have h : ∀ m, (((List.range m).map
      (fun k => unpack_word (fifo.getD k 0) (4 * k) n)).flatten).length = min n (4 * m) := by
    intro m
    induction m with
    | zero => simp
    | succ m ih =>
      rw [List.range_succ, List.map_append, List.flatten_append, List.length_append, ih]
      simp only [List.map_cons, List.map_nil, List.flatten_cons, List.flatten_nil,
        List.append_nil, unpack_word_length]
      omega
  rw [read_words, h]
  omega

/-- The bulk OUT transfer of the forwarder does not touch the bridge's variables, and when
it succeeds, `*transferred` is the number of bytes it stored at the start of the buffer. -/
theorem bulk_out_transfer (reads : Nat → Nat) (buf : List Nat) (tr : Nat) (s : System) :
    (usb_bulk_transfer reads USB_EP1_OUT_ADDR (some buf) PROXY_BUFFER_SIZE (some tr) s).2.2.2.proxy
      = s.proxy ∧
    ((usb_bulk_transfer reads USB_EP1_OUT_ADDR (some buf) PROXY_BUFFER_SIZE (some tr) s).1
        = ESP_OK →
      ∃ block n,
        (usb_bulk_transfer reads USB_EP1_OUT_ADDR (some buf) PROXY_BUFFER_SIZE (some tr) s).2.1
          = some block ∧
        (usb_bulk_transfer reads USB_EP1_OUT_ADDR (some buf) PROXY_BUFFER_SIZE (some tr) s).2.2.1
          = some n ∧
        (block.take n).length = n) := by
  have e1 : (USB_EP1_OUT_ADDR &&& 0x80 ≠ 0) = False := by decide
  have e2 : USB_EP1_OUT_ADDR &&& 0x7F = 1 := by decide
  have e3 : PROXY_BUFFER_SIZE % 65536 = 4096 := by decide
  simp only [usb_bulk_transfer, reduceCtorEq, or_self, if_false, e1, e2, usb_otg_ep_read, e3,
    esp32_usb_otg_read_endpoint]
  by_cases g : s.gadget.g_usb_initialized = false ∨ s.gadget.g_endpoint_configured = false
  · simp [g]
  · rw [if_neg g]
    by_cases c : s.otg.regs_mapped = false ∨ s.otg.g_usb_initialized = false
    · simp [c]
    · rw [if_neg c, if_neg (show ¬ (1 > 15) by omega)]
      by_cases d : (s.otg.grxstsr &&& 0x7F) % 256 ≠ 1 ∨ ((s.otg.grxstsr >>> 16) &&& 0x7FF) % 65536 = 0
      · rw [if_pos d]
        simp
      · rw [if_neg d]
        refine ⟨rfl, fun _ => ?_⟩
        simp only [ne_eq, not_true_eq_false, if_false]
        refine ⟨_, _, rfl, rfl, ?_⟩
        rw [List.take_append_of_le_length (by rw [read_words_length]), List.take_of_length_le
          (by rw [read_words_length]), read_words_length]

/-- One call of the forwarder with a connected peer whose `send` accepts all it is given:
the call succeeds, the socket accepts exactly the block read, and both counters grow by
the length of the block, modulo 2^32. -/
theorem forward_step (t : usb_tick) (s : System) (hsock : s.proxy.g_client_socket ≥ 0)
    (hsend : ∀ bs : List Nat, t.send bs = (bs.length : Int))
    (hu : s.proxy.g_proxy_context.usb_bytes_received < 4294967296)
    (ht : s.proxy.g_proxy_context.tcp_bytes_sent < 4294967296) :
    (proxy_forward_usb_to_tcp t.stack_buffer t.stack_transferred t.send
      (hardware_delivers t s)).status = STATUS_OK ∧
    (proxy_forward_usb_to_tcp t.stack_buffer t.stack_transferred t.send
      (hardware_delivers t s)).accepted
      = (proxy_forward_usb_to_tcp t.stack_buffer t.stack_transferred t.send
          (hardware_delivers t s)).block ∧
    (proxy_forward_usb_to_tcp t.stack_buffer t.stack_transferred t.send
      (hardware_delivers t s)).next.proxy.g_client_socket = s.proxy.g_client_socket ∧
    (proxy_forward_usb_to_tcp t.stack_buffer t.stack_transferred t.send
      (hardware_delivers t s)).next.proxy.g_proxy_context.usb_bytes_received
      = (s.proxy.g_proxy_context.usb_bytes_received
          + (proxy_forward_usb_to_tcp t.stack_buffer t.stack_transferred t.send
              (hardware_delivers t s)).block.length) % 4294967296 ∧
    (proxy_forward_usb_to_tcp t.stack_buffer t.stack_transferred t.send
      (hardware_delivers t s)).next.proxy.g_proxy_context.tcp_bytes_sent
      = (s.proxy.g_proxy_context.tcp_bytes_sent
          + (proxy_forward_usb_to_tcp t.stack_buffer t.stack_transferred t.send
              (hardware_delivers t s)).block.length) % 4294967296 := by
  obtain ⟨hp, hok⟩ := bulk_out_transfer (fun _ => 0) t.stack_buffer t.stack_transferred
    (hardware_delivers t s)
  have hp' : (hardware_delivers t s).proxy = s.proxy := rfl
  rw [hp'] at hp
  unfold proxy_forward_usb_to_tcp
  generalize usb_bulk_transfer (fun _ => 0) USB_EP1_OUT_ADDR (some t.stack_buffer)
    PROXY_BUFFER_SIZE (some t.stack_transferred) (hardware_delivers t s) = r0 at hp hok
  obtain ⟨st, ob, otr, s1⟩ := r0
  simp only at hp hok ⊢
  by_cases hst : st = ESP_OK
  · obtain ⟨block, n, rfl, rfl, hlen⟩ := hok hst
    simp only [Option.getD_some, hst, true_and]
    by_cases hn : n > 0
    · have hs1 : s1.proxy.g_client_socket ≥ 0 := by rw [hp]; exact hsock
      have hpos : (0 : Int) < ((List.take n block).length : Int) := by rw [hlen]; omega
      have hnI : (n : Int) > 0 := by omega
      simp only [hn, hs1, hsend, hpos, if_true, hp, Int.toNat_ofNat, hlen, List.take_take,
        Nat.min_self, and_self, hsock, hnI]
    · have h0 : n = 0 := by omega
      subst h0
      simp only [Nat.lt_irrefl, if_false, hp, List.length_nil, Nat.add_zero,
        Nat.mod_eq_of_lt hu, Nat.mod_eq_of_lt ht, and_self, gt_iff_lt]
  · simp only [hst, false_and, if_false, hp, List.length_nil, Nat.add_zero,
      Nat.mod_eq_of_lt hu, Nat.mod_eq_of_lt ht, and_self]

/-- The forwarding loop with a connected peer whose `send` accepts all it is given. -/
theorem forward_run_counts (ticks : List usb_tick) (s : System)
    (hsock : s.proxy.g_client_socket ≥ 0)
    (hsend : ∀ t ∈ ticks, ∀ bs : List Nat, t.send bs = (bs.length : Int))
    (hu : s.proxy.g_proxy_context.usb_bytes_received < 4294967296)
    (ht : s.proxy.g_proxy_context.tcp_bytes_sent < 4294967296) :
    (usb_forward_run ticks s).2.1 = (usb_forward_run ticks s).1.flatten ∧
    (usb_forward_run ticks s).1.length = ticks.length ∧
    (usb_forward_run ticks s).2.2.proxy.g_proxy_context.usb_bytes_received
      = (s.proxy.g_proxy_context.usb_bytes_received
          + (usb_forward_run ticks s).1.flatten.length) % 4294967296 ∧
    (usb_forward_run ticks s).2.2.proxy.g_proxy_context.tcp_bytes_sent
      = (s.proxy.g_proxy_context.tcp_bytes_sent
          + (usb_forward_run ticks s).1.flatten.length) % 4294967296 := by
  induction ticks generalizing s with
  | nil =>
    simp only [usb_forward_run, List.flatten_nil, List.length_nil, Nat.add_zero,
      Nat.mod_eq_of_lt hu, Nat.mod_eq_of_lt ht, and_self]
  | cons t rest ih =>
    obtain ⟨a1, a2, a3, a4, a5⟩ := forward_step t s hsock (hsend t (List.mem_cons_self _ _)) hu ht
    have ih' := ih
      (proxy_forward_usb_to_tcp t.stack_buffer t.stack_transferred t.send
        (hardware_delivers t s)).next
      (by rw [a3]; exact hsock)
      (fun t' ht' => hsend t' (List.mem_cons_of_mem _ ht'))
      (by rw [a4]; exact Nat.mod_lt _ (by omega))
      (by rw [a5]; exact Nat.mod_lt _ (by omega))
    obtain ⟨b1, b2, b3, b4⟩ := ih'
    rw [usb_forward_run]
    simp only [a1, ne_eq, not_true_eq_false, if_false, List.flatten_cons, List.length_append,
      List.length_cons]
    refine ⟨?_, ?_, ?_, ?_⟩
    · rw [a2, b1]
    · rw [b2]
    · rw [b3, a4]
      omega
    · rw [b4, a5]
      omega

/-- C7, as stated, fails when the socket accepts only part of a block: with a peer
connected, a 4-byte block 1, 2, 3, 4 is read from the bulk OUT endpoint, `send` accepts 2
bytes, the call returns success, the other two bytes are never offered again, and the
counters end at `usb_bytes_received = 4` and `tcp_bytes_sent = 2`. -/
theorem forwarding_drops_unaccepted_bytes :
    (usb_forward_run [tick_four_bytes (fun _ => 2)] system_bridging).1 = [[1, 2, 3, 4]] ∧
    (usb_forward_run [tick_four_bytes (fun _ => 2)] system_bridging).2.1 = [1, 2] ∧
    (usb_forward_run [tick_four_bytes (fun _ => 2)]
      system_bridging).2.2.proxy.g_proxy_context.usb_bytes_received = 4 ∧
    (usb_forward_run [tick_four_bytes (fun _ => 2)]
      system_bridging).2.2.proxy.g_proxy_context.tcp_bytes_sent = 2 ∧
    (usb_forward_run [tick_four_bytes (fun _ => 2)] system_bridging).2.1
      ≠ (usb_forward_run [tick_four_bytes (fun _ => 2)] system_bridging).1.flatten := by
  decide

/-- C7, amended: for every sequence of calls of `proxy_forward_usb_to_tcp` made while a
peer socket is connected and in which `send` accepts every block handed to it in full, all
calls succeed, the bytes accepted by the socket are exactly the concatenation of the
blocks read from the bulk OUT endpoint, in order, and, starting from zeroed counters,
`usb_bytes_received` and `tcp_bytes_sent` both equal the total number of bytes read modulo
2^32 (the counters are 32-bit), hence the total itself while it is below 2^32. -/
theorem usb_to_tcp_forwarding_lossless (ticks : List usb_tick) (s : System)
    (hsock : s.proxy.g_client_socket ≥ 0)
    (hsend : ∀ t ∈ ticks, ∀ bs : List Nat, t.send bs = (bs.length : Int))
    (hu : s.proxy.g_proxy_context.usb_bytes_received = 0)
    (ht : s.proxy.g_proxy_context.tcp_bytes_sent = 0) :
    (usb_forward_run ticks s).1.length = ticks.length ∧
    (usb_forward_run ticks s).2.1 = (usb_forward_run ticks s).1.flatten ∧
    (usb_forward_run ticks s).2.2.proxy.g_proxy_context.usb_bytes_received
      = (usb_forward_run ticks s).1.flatten.length % 4294967296 ∧
    (usb_forward_run ticks s).2.2.proxy.g_proxy_context.tcp_bytes_sent
      = (usb_forward_run ticks s).1.flatten.length % 4294967296 ∧
    ((usb_forward_run ticks s).1.flatten.length < 4294967296 →
      (usb_forward_run ticks s).2.2.proxy.g_proxy_context.usb_bytes_received
        = (usb_forward_run ticks s).1.flatten.length ∧
      (usb_forward_run ticks s).2.2.proxy.g_proxy_context.tcp_bytes_sent
        = (usb_forward_run ticks s).1.flatten.length) := by
  obtain ⟨b1, b2, b3, b4⟩ := forward_run_counts ticks s hsock hsend (by omega) (by omega)
  rw [hu, Nat.zero_add] at b3
  rw [ht, Nat.zero_add] at b4
  refine ⟨b2, b1, b3, b4, fun h => ?_⟩
  rw [b3, b4, Nat.mod_eq_of_lt h]
  exact ⟨rfl, rfl⟩

theorem usb_to_tcp_forwarding_lossless_witness :
    (usb_forward_run
        [tick_four_bytes (fun bs => (bs.length : Int)), tick_four_bytes (fun bs => (bs.length : Int))]
        system_bridging).1 = [[1, 2, 3, 4], [1, 2, 3, 4]] ∧
    (usb_forward_run
        [tick_four_bytes (fun bs => (bs.length : Int)), tick_four_bytes (fun bs => (bs.length : Int))]
        system_bridging).2.1
      = (usb_forward_run
          [tick_four_bytes (fun bs => (bs.length : Int)),
            tick_four_bytes (fun bs => (bs.length : Int))]
          system_bridging).1.flatten ∧
    (usb_forward_run
        [tick_four_bytes (fun bs => (bs.length : Int)), tick_four_bytes (fun bs => (bs.length : Int))]
        system_bridging).2.2.proxy.g_proxy_context.tcp_bytes_sent
      = (usb_forward_run
          [tick_four_bytes (fun bs => (bs.length : Int)),
            tick_four_bytes (fun bs => (bs.length : Int))]
          system_bridging).1.flatten.length % 4294967296 :=
  ⟨by decide,
    (usb_to_tcp_forwarding_lossless
      [tick_four_bytes (fun bs => (bs.length : Int)), tick_four_bytes (fun bs => (bs.length : Int))]
      system_bridging (by decide)
      (by
        intro t ht bs
        simp only [List.mem_cons, List.mem_singleton, List.not_mem_nil, or_false, or_self] at ht
        subst ht
        rfl)
      rfl rfl).2.1,
    (usb_to_tcp_forwarding_lossless
      [tick_four_bytes (fun bs => (bs.length : Int)), tick_four_bytes (fun bs => (bs.length : Int))]
      system_bridging (by decide)
      (by
        intro t ht bs
        simp only [List.mem_cons, List.mem_singleton, List.not_mem_nil, or_false, or_self] at ht
        subst ht
        rfl)
      rfl rfl).2.2.2.1⟩

/-! ## Argument checks of the endpoint controller -/

/-- C13: with the controller initialised, `esp32_usb_otg_configure_endpoint` returns
`ESP_ERR_INVALID_ARG` for every endpoint number above 15 and leaves every register and
state variable as it was, and returns `ESP_OK` for every endpoint number from 0 to 15,
whatever the direction, the packet size and the type. -/
theorem configure_endpoint_range (DEPCTL_MPS : Nat → Nat) (ep_num : Nat) (is_in : Bool)
    (max_packet ep_type : Nat) (o : OtgGlobals) (hm : o.regs_mapped = true)
    (hi : o.g_usb_initialized = true) :
    (ep_num > 15 →
      esp32_usb_otg_configure_endpoint DEPCTL_MPS ep_num is_in max_packet ep_type o
        = (ESP_ERR_INVALID_ARG, o)) ∧
    (ep_num ≤ 15 →
      (esp32_usb_otg_configure_endpoint DEPCTL_MPS ep_num is_in max_packet ep_type o).1
        = ESP_OK) := by
  constructor
  · intro h
    simp [esp32_usb_otg_configure_endpoint, hm, hi, h]
  · intro h
    have hn : ¬ ep_num > 15 := by omega
    simp only [esp32_usb_otg_configure_endpoint, hm, hi, hn, Bool.true_eq_false, or_self,
      if_false]
    cases is_in <;> by_cases h0 : ep_num = 0 <;> simp [h0]

theorem configure_endpoint_range_witness :
    esp32_usb_otg_configure_endpoint (fun x => x) 16 true 64 2 otg_initialised
      = (ESP_ERR_INVALID_ARG, otg_initialised) ∧
    (esp32_usb_otg_configure_endpoint (fun x => x) 1 true 64 2 otg_initialised).1 = ESP_OK :=
  ⟨(configure_endpoint_range (fun x => x) 16 true 64 2 otg_initialised rfl rfl).1 (by decide),
    (configure_endpoint_range (fun x => x) 1 true 64 2 otg_initialised rfl rfl).2 (by decide)⟩

/-- The bulk write and the bulk read reject an endpoint number above 15 and a null buffer
with `ESP_ERR_INVALID_ARG` and change nothing. -/
theorem write_read_reject (o : OtgGlobals) (reads : Nat → Nat) (ep_num length : Nat)
    (data : Option (List Nat)) (tr : Option Nat) (h : ep_num > 15 ∨ data = none) :
    esp32_usb_otg_write_endpoint reads ep_num data length tr o = (ESP_ERR_INVALID_ARG, tr, o) ∧
    esp32_usb_otg_read_endpoint ep_num data length tr o = (ESP_ERR_INVALID_ARG, data, tr, o) := by
  rcases h with h | h
  · cases data <;> cases tr <;>
      simp [esp32_usb_otg_write_endpoint, esp32_usb_otg_read_endpoint, h]
  · subst h
    exact ⟨rfl, rfl⟩

/-- C14, the code at a failing input: on an initialised controller with every register
zero, `esp32_usb_otg_enable_endpoint(16, true)` is not rejected. It returns `ESP_OK`,
sets bit 16 of both IN interrupt masks and the enable bit of the word one entry past the
end of the 16-entry `in_ep` array; `esp32_usb_otg_disable_endpoint(16, true)` on the
result returns `ESP_OK` too and clears them again. The write and the read with the same
endpoint number are rejected with `ESP_ERR_INVALID_ARG` and change nothing. -/
theorem enable_disable_accept_endpoint_16 :
    (esp32_usb_otg_enable_endpoint 16 true otg_initialised).1 = ESP_OK ∧
    (esp32_usb_otg_enable_endpoint 16 true otg_initialised).2.diepmsk = 65536 ∧
    (esp32_usb_otg_enable_endpoint 16 true otg_initialised).2.diepempmsk = 65536 ∧
    (esp32_usb_otg_enable_endpoint 16 true otg_initialised).2.in_ep_diepctl 16 = DEPCTL_EPENA ∧
    (esp32_usb_otg_disable_endpoint 16 true
      (esp32_usb_otg_enable_endpoint 16 true otg_initialised).2).1 = ESP_OK ∧
    (esp32_usb_otg_disable_endpoint 16 true
      (esp32_usb_otg_enable_endpoint 16 true otg_initialised).2).2.diepmsk = 0 ∧
    (esp32_usb_otg_disable_endpoint 16 true
      (esp32_usb_otg_enable_endpoint 16 true otg_initialised).2).2.in_ep_diepctl 16 = 0 ∧
    (esp32_usb_otg_write_endpoint (fun _ => 1) 16 (some [1]) 1 (some 0) otg_initialised).1
      = ESP_ERR_INVALID_ARG ∧
    (esp32_usb_otg_read_endpoint 16 (some [0]) 1 (some 0) otg_initialised).1
      = ESP_ERR_INVALID_ARG := by
  decide

/-! ## The bulk read -/

/-- C16: `esp32_usb_otg_read_endpoint` polls nothing (it is a total function of the
receive status and FIFO contents it finds). On an initialised controller, for an endpoint
0 to 15 and non-null arguments: if the receive status names another endpoint or a byte
count of 0, it returns `ESP_OK` with 0 bytes received and leaves the buffer and the whole
controller state, the status entry included, as they were; otherwise it returns `ESP_OK`
with exactly `min(byte count, length)` bytes received, stored at the start of the buffer,
and pops the status entry. -/
theorem read_endpoint_non_blocking (o : OtgGlobals) (ep_num length r0 : Nat) (dest : List Nat)
    (hm : o.regs_mapped = true) (hi : o.g_usb_initialized = true) (hep : ep_num ≤ 15) :
    (((o.grxstsr &&& 0x7F) % 256 ≠ ep_num ∨ ((o.grxstsr >>> 16) &&& 0x7FF) % 65536 = 0) →
      esp32_usb_otg_read_endpoint ep_num (some dest) length (some r0) o
        = (ESP_OK, some dest, some 0, o)) ∧
    (((o.grxstsr &&& 0x7F) % 256 = ep_num ∧ ((o.grxstsr >>> 16) &&& 0x7FF) % 65536 ≠ 0) →
      (esp32_usb_otg_read_endpoint ep_num (some dest) length (some r0) o).1 = ESP_OK ∧
      (esp32_usb_otg_read_endpoint ep_num (some dest) length (some r0) o).2.2.1
        = some (min (((o.grxstsr >>> 16) &&& 0x7FF) % 65536) length) ∧
      (esp32_usb_otg_read_endpoint ep_num (some dest) length (some r0) o).2.1
        = some (read_words (o.rx_fifo ep_num) (min (((o.grxstsr >>> 16) &&& 0x7FF) % 65536) length)
            ++ dest.drop (min (((o.grxstsr >>> 16) &&& 0x7FF) % 65536) length)) ∧
      (read_words (o.rx_fifo ep_num)
        (min (((o.grxstsr >>> 16) &&& 0x7FF) % 65536) length)).length
        = min (((o.grxstsr >>> 16) &&& 0x7FF) % 65536) length ∧
      (esp32_usb_otg_read_endpoint ep_num (some dest) length (some r0) o).2.2.2.grxstsr_writes
        = o.grxstsr_writes ++ [o.grxstsr]) := by
  have hn : ¬ ep_num > 15 := by omega
  constructor
  · intro h
    simp only [esp32_usb_otg_read_endpoint, hm, hi, hn, Bool.true_eq_false, or_self, if_false]
    rw [if_pos h]
  · intro h
    have hneg : ¬ ((o.grxstsr &&& 0x7F) % 256 ≠ ep_num ∨ ((o.grxstsr >>> 16) &&& 0x7FF) % 65536 = 0) := by
      intro h'
      rcases h' with h' | h'
      · exact h' h.1
      · exact h.2 h'
    have hmin : ∀ a l : Nat, (if (if a < l then a else l) < l then (if a < l then a else l) else l)
        = min a l := by
      intro a l
      split_ifs <;> omega
    simp only [esp32_usb_otg_read_endpoint, hm, hi, hn, Bool.true_eq_false, or_self, if_false]
    rw [if_neg hneg]
    simp only [hmin, read_words_length, and_self]

/-! ## Endpoint activation -/

theorem configure_depctl_bits (DEPCTL_MPS : Nat → Nat) (max_packet ep_type : Nat) :
    (configure_depctl DEPCTL_MPS max_packet ep_type).testBit 15 = true ∧
    (configure_depctl DEPCTL_MPS max_packet ep_type).testBit 21 = false := by
  have h1 : (not32 DEPCTL_STALL).testBit 15 = true := by decide
  have h2 : (not32 DEPCTL_STALL).testBit 21 = false := by decide
  have h3 : DEPCTL_USBACTEP.testBit 15 = true := by decide
  simp only [configure_depctl, Nat.testBit_and, Nat.testBit_or, h1, h2, h3, Bool.or_true,
    Bool.and_true, Bool.and_false, and_self]

theorem or_epena_bits (x : Nat) :
    (x ||| DEPCTL_EPENA).testBit 31 = true ∧
    (x ||| DEPCTL_EPENA).testBit 15 = x.testBit 15 ∧
    (x ||| DEPCTL_EPENA).testBit 21 = x.testBit 21 := by
  have h1 : DEPCTL_EPENA.testBit 31 = true := by decide
  have h2 : DEPCTL_EPENA.testBit 15 = false := by decide
  have h3 : DEPCTL_EPENA.testBit 21 = false := by decide
  simp only [Nat.testBit_or, h1, h2, h3, Bool.or_true, Bool.or_false, and_self]

theorem and_not_epena_bit (x : Nat) : (x &&& not32 DEPCTL_EPENA).testBit 31 = false := by
  have h1 : (not32 DEPCTL_EPENA).testBit 31 = false := by decide
  simp only [Nat.testBit_and, h1, Bool.and_false]

theorem mask_bit_set (m ep : Nat) (h : ep ≤ 15) :
    ((m ||| (1 <<< ep)) % 4294967296).testBit ep = true := by
  have h1 : ∀ e < 16, (1 <<< e).testBit e = true := by decide
  have h2 : (4294967296 : Nat) = 2 ^ 32 := by norm_num
  rw [h2, Nat.testBit_mod_two_pow, Nat.testBit_or, h1 ep (by omega)]
  simp
  omega

theorem mask_bit_clear (m ep : Nat) (h : ep ≤ 15) :
    (m &&& not32 (1 <<< ep)).testBit ep = false := by
  have h1 : ∀ e < 16, (not32 (1 <<< e)).testBit e = false := by decide
  rw [Nat.testBit_and, h1 ep (by omega), Bool.and_false]

/-- C15: what configure, enable and disable do to an endpoint 0 to 15 of an initialised
controller. For the endpoints 1 to 15, in each direction, configure followed by enable
leaves the endpoint's control register with the USB-active bit (15) and the enable bit
(31) set and the stall bit (21) clear, and the endpoint's bit set in the interrupt mask.
For endpoint 0 it does not: configure stores its value, USB-active bit included, in the
register under `core`, and enable sets the enable bit in the other register, whose
USB-active and stall bits stay as they were before, while the register under `core` keeps
the value configure gave it. Disable, from any prior register contents, leaves the enable
bit of the endpoint's control register and the endpoint's interrupt-mask bit clear. -/
theorem configure_enable_disable_bits (DEPCTL_MPS : Nat → Nat) (ep_num : Nat) (is_in : Bool)
    (max_packet ep_type : Nat) (o : OtgGlobals) (hm : o.regs_mapped = true)
    (hi : o.g_usb_initialized = true) (hep : ep_num ≤ 15) :
    (ep_num ≠ 0 →
      (endpoint_control (configure_then_enable DEPCTL_MPS ep_num is_in max_packet ep_type o)
        ep_num is_in).testBit 15 = true ∧
      (endpoint_control (configure_then_enable DEPCTL_MPS ep_num is_in max_packet ep_type o)
        ep_num is_in).testBit 31 = true ∧
      (endpoint_control (configure_then_enable DEPCTL_MPS ep_num is_in max_packet ep_type o)
        ep_num is_in).testBit 21 = false) ∧
    (endpoint_mask (configure_then_enable DEPCTL_MPS ep_num is_in max_packet ep_type o)
      is_in).testBit ep_num = true ∧
    (ep_num = 0 →
      endpoint_control (configure_then_enable DEPCTL_MPS ep_num is_in max_packet ep_type o) 0 is_in
        = endpoint_control o 0 is_in ||| DEPCTL_EPENA ∧
      (endpoint_control (configure_then_enable DEPCTL_MPS ep_num is_in max_packet ep_type o)
        0 is_in).testBit 15 = (endpoint_control o 0 is_in).testBit 15 ∧
      core_endpoint0_control (configure_then_enable DEPCTL_MPS ep_num is_in max_packet ep_type o)
        is_in = configure_depctl DEPCTL_MPS max_packet ep_type) ∧
    (esp32_usb_otg_disable_endpoint ep_num is_in o).1 = ESP_OK ∧
    (endpoint_control (esp32_usb_otg_disable_endpoint ep_num is_in o).2 ep_num is_in).testBit 31
      = false ∧
    (endpoint_mask (esp32_usb_otg_disable_endpoint ep_num is_in o).2 is_in).testBit ep_num
      = false := by
  have hn : ¬ ep_num > 15 := by omega
  obtain ⟨c1, c2⟩ := configure_depctl_bits DEPCTL_MPS max_packet ep_type
  refine ⟨?_, ?_, ?_, ?_, ?_, ?_⟩
  · intro h0
    cases is_in <;>
      simp [configure_then_enable, endpoint_control, esp32_usb_otg_configure_endpoint,
        esp32_usb_otg_enable_endpoint, hm, hi, hn, h0, or_epena_bits, c1, c2]
  · by_cases h0 : ep_num = 0 <;> cases is_in <;>
      simp only [configure_then_enable, endpoint_mask, esp32_usb_otg_configure_endpoint,
        esp32_usb_otg_enable_endpoint, hm, hi, hn, h0, Bool.true_eq_false, or_self, if_false,
        if_true, ne_eq, not_true_eq_false, not_false_eq_true, Bool.false_eq_true] <;>
      exact mask_bit_set _ _ (by omega)
  · intro h0
    subst h0
    cases is_in <;>
      simp [configure_then_enable, endpoint_control, core_endpoint0_control,
        esp32_usb_otg_configure_endpoint, esp32_usb_otg_enable_endpoint, hm, hi,
        or_epena_bits]
  · cases is_in <;> simp [esp32_usb_otg_disable_endpoint, hm, hi]
  · cases is_in <;>
      simp only [endpoint_control, esp32_usb_otg_disable_endpoint, hm, hi, Bool.true_eq_false,
        or_self, if_false, if_true, Bool.false_eq_true, Function.update_same] <;>
      exact and_not_epena_bit _
  · cases is_in <;>
      simp only [endpoint_mask, esp32_usb_otg_disable_endpoint, hm, hi, Bool.true_eq_false,
        or_self, if_false, if_true, Bool.false_eq_true] <;>
      exact mask_bit_clear _ _ hep

/-- The failing input of C15: on an initialised controller with every register zero,
after configure and enable of endpoint 0 IN (control type, 64-byte packets) the register
that enable wrote holds the enable bit alone, with the USB-active bit clear, and the
register that configure wrote has the USB-active bit set and the enable bit clear. -/
theorem configure_enable_disable_bits_witness :
    (endpoint_control (configure_then_enable (fun x => x) 0 true 64 DEPCTL_EPTYPE_CTRL
        otg_initialised) 0 true
      = endpoint_control otg_initialised 0 true ||| DEPCTL_EPENA ∧
    (endpoint_control (configure_then_enable (fun x => x) 0 true 64 DEPCTL_EPTYPE_CTRL
        otg_initialised) 0 true).testBit 15 = (endpoint_control otg_initialised 0 true).testBit 15 ∧
    core_endpoint0_control (configure_then_enable (fun x => x) 0 true 64 DEPCTL_EPTYPE_CTRL
        otg_initialised) true = configure_depctl (fun x => x) 64 DEPCTL_EPTYPE_CTRL) ∧
    (endpoint_control otg_initialised 0 true).testBit 15 = false ∧
    (configure_depctl (fun x => x) 64 DEPCTL_EPTYPE_CTRL).testBit 31 = false :=
  ⟨(configure_enable_disable_bits (fun x => x) 0 true 64 DEPCTL_EPTYPE_CTRL otg_initialised rfl rfl
      (by decide)).2.2.1 rfl,
    by decide, by decide⟩

theorem read_endpoint_non_blocking_witness :
    (esp32_usb_otg_read_endpoint 1 (some [9, 9, 9, 9, 9, 9]) 6 (some 7)
      { otg_initialised with grxstsr := rx_status 1 4, rx_fifo := fun _ => [0x04030201] }).1
      = ESP_OK ∧
    (esp32_usb_otg_read_endpoint 1 (some [9, 9, 9, 9, 9, 9]) 6 (some 7)
      { otg_initialised with grxstsr := rx_status 1 4, rx_fifo := fun _ => [0x04030201] }).2.2.1
      = some 4 ∧
    esp32_usb_otg_read_endpoint 2 (some [9, 9, 9, 9, 9, 9]) 6 (some 7)
        { otg_initialised with grxstsr := rx_status 1 4, rx_fifo := fun _ => [0x04030201] }
      = (ESP_OK, some [9, 9, 9, 9, 9, 9], some 0,
          { otg_initialised with grxstsr := rx_status 1 4, rx_fifo := fun _ => [0x04030201] }) :=
  ⟨((read_endpoint_non_blocking
      { otg_initialised with grxstsr := rx_status 1 4, rx_fifo := fun _ => [0x04030201] }
      1 6 7 [9, 9, 9, 9, 9, 9] rfl rfl (by decide)).2 (by decide)).1,
    ((read_endpoint_non_blocking
      { otg_initialised with grxstsr := rx_status 1 4, rx_fifo := fun _ => [0x04030201] }
      1 6 7 [9, 9, 9, 9, 9, 9] rfl rfl (by decide)).2 (by decide)).2.1,
    (read_endpoint_non_blocking
      { otg_initialised with grxstsr := rx_status 1 4, rx_fifo := fun _ => [0x04030201] }
      2 6 7 [9, 9, 9, 9, 9, 9] rfl rfl (by decide)).1 (by decide)⟩

/-! ## Forwarding from TCP to USB -/

/-- A bulk transfer changes none of the bridge's variables. -/
theorem bulk_transfer_proxy (reads : Nat → Nat) (endpoint length : Nat)
    (data : Option (List Nat)) (tr : Option Nat) (s : System) :
    (usb_bulk_transfer reads endpoint data length tr s).2.2.2.proxy = s.proxy := by
  unfold usb_bulk_transfer
  split
  · rfl
  · split
    · rfl
    · split <;> rfl

/-- C17: with a peer socket connected, `proxy_forward_tcp_to_usb` returns an error status
exactly when `recv` returns zero or a negative value, the error is
`STATUS_ERROR_CONNECTION` and nothing is changed, no byte counter in particular; when
`recv` returns `n > 0` it returns `STATUS_OK`, whatever the USB write does, and adds `n` to
the 32-bit counter `tcp_bytes_received`. -/
theorem tcp_to_usb_termination (received : Int) (buffer : List Nat) (stack_transferred : Nat)
    (dtxfsts_reads : Nat → Nat) (s : System) (hsock : s.proxy.g_client_socket ≥ 0) :
    ((proxy_forward_tcp_to_usb received buffer stack_transferred dtxfsts_reads s).1 ≠ STATUS_OK
      ↔ received ≤ 0) ∧
    (received ≤ 0 →
      proxy_forward_tcp_to_usb received buffer stack_transferred dtxfsts_reads s
        = (STATUS_ERROR_CONNECTION, s)) ∧
    (received > 0 →
      (proxy_forward_tcp_to_usb received buffer stack_transferred dtxfsts_reads s).1 = STATUS_OK ∧
      (proxy_forward_tcp_to_usb received buffer stack_transferred dtxfsts_reads
          s).2.proxy.g_proxy_context.tcp_bytes_received
        = (s.proxy.g_proxy_context.tcp_bytes_received + received.toNat) % 4294967296 ∧
      (s.proxy.g_proxy_context.tcp_bytes_received + received.toNat < 4294967296 →
        (proxy_forward_tcp_to_usb received buffer stack_transferred dtxfsts_reads
            s).2.proxy.g_proxy_context.tcp_bytes_received
          = s.proxy.g_proxy_context.tcp_bytes_received + received.toNat)) := by
  have hs : ¬ s.proxy.g_client_socket < 0 := by omega
  have hpos : received > 0 →
      (proxy_forward_tcp_to_usb received buffer stack_transferred dtxfsts_reads s).1 = STATUS_OK ∧
      (proxy_forward_tcp_to_usb received buffer stack_transferred dtxfsts_reads
          s).2.proxy.g_proxy_context.tcp_bytes_received
        = (s.proxy.g_proxy_context.tcp_bytes_received + received.toNat) % 4294967296 := by
    intro h
    have hp := bulk_transfer_proxy dtxfsts_reads USB_EP1_IN_ADDR received.toNat (some buffer)
      (some stack_transferred) s
    simp only [proxy_forward_tcp_to_usb, hs, h, if_true, if_false]
    refine ⟨trivial, ?_⟩
    split <;> simp only [hp]
  have hneg : received ≤ 0 →
      proxy_forward_tcp_to_usb received buffer stack_transferred dtxfsts_reads s
        = (STATUS_ERROR_CONNECTION, s) := by
    intro h
    have h1 : ¬ received > 0 := by omega
    simp only [proxy_forward_tcp_to_usb, hs, h1, if_false]
    split <;> rfl
  refine ⟨⟨fun h => ?_, fun h => ?_⟩, hneg, fun h => ⟨(hpos h).1, (hpos h).2, fun hlt => ?_⟩⟩
  · by_contra hc
    exact h (hpos (by omega)).1
  · rw [hneg h]
    show (-2 : Int) ≠ 0
    decide
  · rw [(hpos h).2, Nat.mod_eq_of_lt hlt]

theorem tcp_to_usb_termination_witness :
    proxy_forward_tcp_to_usb 0 [] 0 (fun _ => 1) system_bridging
      = (STATUS_ERROR_CONNECTION, system_bridging) ∧
    (proxy_forward_tcp_to_usb 3 [1, 2, 3] 0 (fun _ => 1) system_bridging).1 = STATUS_OK ∧
    (proxy_forward_tcp_to_usb 3 [1, 2, 3] 0 (fun _ => 1)
        system_bridging).2.proxy.g_proxy_context.tcp_bytes_received
      = (system_bridging.proxy.g_proxy_context.tcp_bytes_received + (3 : Int).toNat) % 4294967296 :=
  ⟨(tcp_to_usb_termination 0 [] 0 (fun _ => 1) system_bridging (by decide)).2.1 (by decide),
    ((tcp_to_usb_termination 3 [1, 2, 3] 0 (fun _ => 1) system_bridging (by decide)).2.2
      (by decide)).1,
    ((tcp_to_usb_termination 3 [1, 2, 3] 0 (fun _ => 1) system_bridging (by decide)).2.2
      (by decide)).2.1⟩

/-! ## Starting and stopping the bridge twice -/

/-- C18: `proxy_stop` called while the bridge is inactive returns `STATUS_OK` and changes
nothing, so a second call finds the same state and is a no-op as well; `proxy_start`
called while the bridge is active returns `STATUS_OK` and changes nothing, so no second
session is created. Neither outcome depends on the mutex or on task creation. -/
theorem stop_start_idempotent (s : System) (m1 m2 t : Bool) :
    (s.proxy.g_proxy_active = false →
      proxy_stop m1 s = (STATUS_OK, s) ∧
      proxy_stop m2 (proxy_stop m1 s).2 = (STATUS_OK, s)) ∧
    (s.proxy.g_proxy_active = true →
      proxy_start m1 t s = (STATUS_OK, s)) := by
  constructor
  · intro h
    have h1 : proxy_stop m1 s = (STATUS_OK, s) := by simp [proxy_stop, h]
    refine ⟨h1, ?_⟩
    rw [h1]
    simp [proxy_stop, h]
  · intro h
    simp [proxy_start, h]

theorem stop_start_idempotent_witness :
    (proxy_stop true system_after_init = (STATUS_OK, system_after_init) ∧
      proxy_stop false (proxy_stop true system_after_init).2 = (STATUS_OK, system_after_init)) ∧
    proxy_start true true system_bridging = (STATUS_OK, system_bridging) :=
  ⟨(stop_start_idempotent system_after_init true false true).1 rfl,
    (stop_start_idempotent system_bridging true false true).2 rfl⟩

/-! ## Control transfers that are not recognised -/

theorem standard_type_eq : USB_REQ_TYPE_STANDARD = 0 := by decide

/-- C19, as stated, fails: the standard request `GET_STATUS` (`bRequest` 0), which
`usb_control_transfer` does not recognise, and a class request are both answered with
plain success `ESP_OK`, not with a stall or any other non-success result. -/
theorem unrecognised_request_returns_success :
    (usb_control_transfer (fun x => x) 0x80 0x00 0 0 (some [0, 0]) 2 (some 7)
      system_after_init).1 = ESP_OK ∧
    (usb_control_transfer (fun x => x) 0x21 0x0A 0 0 none 0 (some 7) system_after_init).1
      = ESP_OK := by
  decide

/-- C19, amended: for every setup packet whose request is not recognised (a standard
request other than `SET_ADDRESS`, `SET_CONFIGURATION` and `GET_DESCRIPTOR`, or a class
request), `usb_control_transfer` returns plain success `ESP_OK`, stores 0 in
`*transferred` when the pointer is not null, and leaves the data buffer and the whole
state unchanged; no stall is signalled. -/
theorem unrecognised_request_ignored (DEPCTL_MPS : Nat → Nat) (bm req v i n : Nat)
    (d : Option (List Nat)) (tr : Option Nat) (s : System)
    (h : (bm &&& 0x60 = 0x00 ∧ req ≠ USB_REQ_SET_ADDRESS ∧ req ≠ USB_REQ_SET_CONFIGURATION ∧
          req ≠ USB_REQ_GET_DESCRIPTOR) ∨ bm &&& 0x60 = 0x20) :
    usb_control_transfer DEPCTL_MPS bm req v i d n tr s
      = (ESP_OK, d, tr.map (fun _ => 0), s) := by
  rcases h with ⟨h0, h1, h2, h3⟩ | h
  · simp [usb_control_transfer, h0, h1, h2, h3, standard_type_eq]
  · simp [usb_control_transfer, h, standard_type_eq]

theorem unrecognised_request_ignored_witness :
    usb_control_transfer (fun x => x) 0x80 0x00 0 0 (some [0, 0]) 2 (some 7) system_after_init
      = (ESP_OK, some [0, 0], (some 7).map (fun _ => 0), system_after_init) :=
  unrecognised_request_ignored (fun x => x) 0x80 0x00 0 0 2 (some [0, 0]) (some 7)
    system_after_init (Or.inl (by decide))

/-! ## Bulk transfers after a reset -/

/-- The fields of the controller that `esp32_usb_otg_disable_endpoint` leaves alone. -/
theorem disable_endpoint_frame (ep_num : Nat) (is_in : Bool) (o : OtgGlobals) :
    (esp32_usb_otg_disable_endpoint ep_num is_in o).2.regs_mapped = o.regs_mapped ∧
    (esp32_usb_otg_disable_endpoint ep_num is_in o).2.g_usb_initialized = o.g_usb_initialized ∧
    (esp32_usb_otg_disable_endpoint ep_num is_in o).2.tx_fifo = o.tx_fifo ∧
    (esp32_usb_otg_disable_endpoint ep_num is_in o).2.rx_fifo = o.rx_fifo ∧
    (esp32_usb_otg_disable_endpoint ep_num is_in o).2.grxstsr = o.grxstsr := by
  unfold esp32_usb_otg_disable_endpoint
  split
  · exact ⟨rfl, rfl, rfl, rfl, rfl⟩
  · split <;> exact ⟨rfl, rfl, rfl, rfl, rfl⟩

theorem disable_all_frame (l : List Nat) (o : OtgGlobals) :
    (l.foldl (fun o i =>
        (esp32_usb_otg_disable_endpoint i false (esp32_usb_otg_disable_endpoint i true o).2).2)
      o).regs_mapped = o.regs_mapped ∧
    (l.foldl (fun o i =>
        (esp32_usb_otg_disable_endpoint i false (esp32_usb_otg_disable_endpoint i true o).2).2)
      o).g_usb_initialized = o.g_usb_initialized ∧
    (l.foldl (fun o i =>
        (esp32_usb_otg_disable_endpoint i false (esp32_usb_otg_disable_endpoint i true o).2).2)
      o).tx_fifo = o.tx_fifo ∧
    (l.foldl (fun o i =>
        (esp32_usb_otg_disable_endpoint i false (esp32_usb_otg_disable_endpoint i true o).2).2)
      o).rx_fifo = o.rx_fifo ∧
    (l.foldl (fun o i =>
        (esp32_usb_otg_disable_endpoint i false (esp32_usb_otg_disable_endpoint i true o).2).2)
      o).grxstsr = o.grxstsr := by
  induction l generalizing o with
  | nil => exact ⟨rfl, rfl, rfl, rfl, rfl⟩
  | cons i rest ih =>
    obtain ⟨a1, a2, a3, a4, a5⟩ := disable_endpoint_frame i true o
    obtain ⟨b1, b2, b3, b4, b5⟩ :=
      disable_endpoint_frame i false (esp32_usb_otg_disable_endpoint i true o).2
    obtain ⟨c1, c2, c3, c4, c5⟩ := ih
      (esp32_usb_otg_disable_endpoint i false (esp32_usb_otg_disable_endpoint i true o).2).2
    simp only [List.foldl_cons]
    exact ⟨by rw [c1, b1, a1], by rw [c2, b2, a2], by rw [c3, b3, a3], by rw [c4, b4, a4],
      by rw [c5, b5, a5]⟩

/-- What a reset leaves alone: the gadget layer's variables, and the controller's mapping,
initialised flag, FIFOs and receive status. -/
theorem reset_frame (s : System) :
    (handle_reset_interrupt s).gadget = s.gadget ∧
    (handle_reset_interrupt s).otg.regs_mapped = s.otg.regs_mapped ∧
    (handle_reset_interrupt s).otg.g_usb_initialized = s.otg.g_usb_initialized ∧
    (handle_reset_interrupt s).otg.tx_fifo = s.otg.tx_fifo ∧
    (handle_reset_interrupt s).otg.rx_fifo = s.otg.rx_fifo ∧
    (handle_reset_interrupt s).otg.grxstsr = s.otg.grxstsr := by
  have ha : (esp32_usb_otg_set_address 0 s.otg).2.regs_mapped = s.otg.regs_mapped ∧
      (esp32_usb_otg_set_address 0 s.otg).2.g_usb_initialized = s.otg.g_usb_initialized ∧
      (esp32_usb_otg_set_address 0 s.otg).2.tx_fifo = s.otg.tx_fifo ∧
      (esp32_usb_otg_set_address 0 s.otg).2.rx_fifo = s.otg.rx_fifo ∧
      (esp32_usb_otg_set_address 0 s.otg).2.grxstsr = s.otg.grxstsr := by
    unfold esp32_usb_otg_set_address
    split <;> exact ⟨rfl, rfl, rfl, rfl, rfl⟩
  obtain ⟨a1, a2, a3, a4, a5⟩ := ha
  obtain ⟨c1, c2, c3, c4, c5⟩ := disable_all_frame (List.range 16)
    (esp32_usb_otg_set_address 0 s.otg).2
  refine ⟨rfl, ?_, ?_, ?_, ?_, ?_⟩ <;> simp only [handle_reset_interrupt]
  · rw [c1, a1]
  · rw [c2, a2]
  · rw [c3, a3]
  · rw [c4, a4]
  · rw [c5, a5]

/-- The bulk read of an initialised controller returns `ESP_OK` for an endpoint 0 to 15 and
non-null arguments. -/
theorem read_endpoint_status (o : OtgGlobals) (ep_num length r0 : Nat) (dest : List Nat)
    (hm : o.regs_mapped = true) (hi : o.g_usb_initialized = true) (hep : ep_num ≤ 15) :
    (esp32_usb_otg_read_endpoint ep_num (some dest) length (some r0) o).1 = ESP_OK := by
  have hn : ¬ ep_num > 15 := by omega
  simp only [esp32_usb_otg_read_endpoint, hm, hi, hn, Bool.true_eq_false, or_self, if_false]
  split <;> rfl

set_option maxRecDepth 20000 in
/-- C20, as stated, fails: on a bridging system (gadget layer initialised, bulk endpoints
configured, controller initialised), right after `handle_reset_interrupt` and before any
new endpoint configuration, `usb_bulk_transfer` on endpoint 1 is accepted in both
directions. A one-byte IN write with the FIFO ready returns `ESP_OK` and puts its word in
the transmit FIFO; an OUT read returns `ESP_OK` and delivers the four bytes of a packet
that was in the receive FIFO when the reset came. -/
theorem bulk_transfer_accepted_after_reset :
    (usb_bulk_transfer (fun _ => 1) USB_EP1_IN_ADDR (some [5]) 1 (some 0)
      (handle_reset_interrupt system_bridging)).1 = ESP_OK ∧
    (usb_bulk_transfer (fun _ => 1) USB_EP1_IN_ADDR (some [5]) 1 (some 0)
      (handle_reset_interrupt system_bridging)).2.2.2.otg.tx_fifo 1 = [5] ∧
    (usb_bulk_transfer (fun _ => 1) USB_EP1_OUT_ADDR (some [0, 0, 0, 0, 0, 0, 0, 0]) 8 (some 0)
      (handle_reset_interrupt
        (hardware_delivers (tick_four_bytes (fun _ => 0)) system_bridging))).1 = ESP_OK ∧
    (usb_bulk_transfer (fun _ => 1) USB_EP1_OUT_ADDR (some [0, 0, 0, 0, 0, 0, 0, 0]) 8 (some 0)
      (handle_reset_interrupt
        (hardware_delivers (tick_four_bytes (fun _ => 0)) system_bridging))).2.1
      = some [1, 2, 3, 4, 0, 0, 0, 0] ∧
    (usb_bulk_transfer (fun _ => 1) USB_EP1_OUT_ADDR (some [0, 0, 0, 0, 0, 0, 0, 0]) 8 (some 0)
      (handle_reset_interrupt
        (hardware_delivers (tick_four_bytes (fun _ => 0)) system_bridging))).2.2.1
      = some 4 := by
  decide

/-- C20, amended: `handle_reset_interrupt` leaves the gadget layer's variables as they
were, and these alone decide whether `usb_bulk_transfer` rejects a transfer. After a reset
event, `usb_bulk_transfer` (non-null arguments) is rejected with `ESP_ERR_INVALID_STATE`,
changing nothing, when the gadget layer was not initialised or its endpoints not
configured before the reset. When both flags were set and the controller is initialised,
a transfer on endpoint 1 made between the reset and the next endpoint configuration is
accepted: the OUT read returns `ESP_OK`, and an IN write of 1 to 4096 bytes with the FIFO
ready at the first poll returns `ESP_OK` after putting all its bytes in the transmit
FIFO. -/
theorem bulk_transfer_gate_after_reset (s : System) (reads : Nat → Nat) (endpoint length tr : Nat)
    (buf : List Nat) :
    (handle_reset_interrupt s).gadget = s.gadget ∧
    ((s.gadget.g_usb_initialized = false ∨ s.gadget.g_endpoint_configured = false) →
      usb_bulk_transfer reads endpoint (some buf) length (some tr) (handle_reset_interrupt s)
        = (ESP_ERR_INVALID_STATE, some buf, some tr, handle_reset_interrupt s)) ∧
    (s.gadget.g_usb_initialized = true → s.gadget.g_endpoint_configured = true →
      s.otg.regs_mapped = true → s.otg.g_usb_initialized = true →
      (usb_bulk_transfer reads USB_EP1_OUT_ADDR (some buf) length (some tr)
        (handle_reset_interrupt s)).1 = ESP_OK ∧
      (reads 0 &&& 1 ≠ 0 → 1 ≤ buf.length → buf.length ≤ 4096 →
        (usb_bulk_transfer reads USB_EP1_IN_ADDR (some buf) buf.length (some tr)
          (handle_reset_interrupt s)).1 = ESP_OK ∧
        (usb_bulk_transfer reads USB_EP1_IN_ADDR (some buf) buf.length (some tr)
          (handle_reset_interrupt s)).2.2.2.otg.tx_fifo 1
          = s.otg.tx_fifo 1 ++ chunks_words (write_loop 1000 buf buf.length).2 ∧
        chunks_total (write_loop 1000 buf buf.length).2 = buf.length)) := by
  obtain ⟨f0, f1, f2, f3, -, -⟩ := reset_frame s
  generalize handle_reset_interrupt s = s' at f0 f1 f2 f3 ⊢
  refine ⟨f0, ?_, ?_⟩
  · intro h
    simp only [usb_bulk_transfer, reduceCtorEq, or_self, if_false, f0]
    rw [if_pos h]
  · intro g1 g2 hm hi
    have hm' : s'.otg.regs_mapped = true := by rw [f1, hm]
    have hi' : s'.otg.g_usb_initialized = true := by rw [f2, hi]
    have e1 : (USB_EP1_OUT_ADDR &&& 0x80 ≠ 0) = False := by decide
    have e2 : USB_EP1_OUT_ADDR &&& 0x7F = 1 := by decide
    have e3 : (USB_EP1_IN_ADDR &&& 0x80 ≠ 0) = True := by decide
    have e4 : USB_EP1_IN_ADDR &&& 0x7F = 1 := by decide
    constructor
    · simp only [usb_bulk_transfer, reduceCtorEq, or_self, if_false, f0, g1, g2,
        Bool.true_eq_false, e1, e2, usb_otg_ep_read,
        read_endpoint_status _ 1 _ _ _ hm' hi' (by omega), ne_eq, not_true_eq_false]
    · intro hr h1 h2
      have hs : spin_wait (fun k => reads k &&& (1 <<< 0) == 0) 1000 0 = (1000, 0 + 1) :=
        spin_wait_ready_first _ 1000 0 (by simpa using hr)
      have hto := write_loop_timeout_enough 1000 buf buf.length (by omega)
      have hne : (write_loop 1000 buf buf.length).1 ≠ 0 := by
        rw [hto]
        omega
      have hw := write_endpoint_checked reads 1 buf.length 0 buf s'.otg hm' hi' (by omega)
      rw [hs] at hw
      simp only [if_neg hne] at hw
      rw [if_neg (by decide)] at hw
      have hlen : buf.length % 65536 = buf.length := Nat.mod_eq_of_lt (by omega)
      have hnz : ¬ buf.length = 0 := by omega
      simp only [usb_bulk_transfer, reduceCtorEq, or_self, if_false, f0, g1, g2,
        Bool.true_eq_false, e3, e4, if_true, usb_otg_ep_write, hnz, hlen, hw, ne_eq,
        not_true_eq_false, Function.update_same, f3, write_loop_total, true_and]
      omega

theorem bulk_transfer_gate_after_reset_witness :
    (usb_bulk_transfer (fun _ => 1) USB_EP1_OUT_ADDR (some [0, 0, 0, 0]) 4 (some 0)
      (handle_reset_interrupt system_bridging)).1 = ESP_OK ∧
    usb_bulk_transfer (fun _ => 1) USB_EP1_OUT_ADDR (some [0, 0, 0, 0]) 4 (some 0)
        (handle_reset_interrupt system_after_init)
      = (ESP_ERR_INVALID_STATE, some [0, 0, 0, 0], some 0,
          handle_reset_interrupt system_after_init) :=
  ⟨((bulk_transfer_gate_after_reset system_bridging (fun _ => 1) 1 4 0 [0, 0, 0, 0]).2.2
      rfl rfl rfl rfl).1,
    (bulk_transfer_gate_after_reset system_after_init (fun _ => 1) USB_EP1_OUT_ADDR 4 0
      [0, 0, 0, 0]).2.1 (Or.inr rfl)⟩

/-! ## Negotiation as initiator -/

/-- The arguments of the `SEND_STRING` transfer for string `str` with index `i`. -/
theorem send_string_result
    (transport : Nat → Nat → Nat → Nat → Option (List Nat) → Nat → Option Nat → System →
      Int × Option (List Nat) × Option Nat × System)
    (st i : Nat) (str : String) (s : System) :
    (aoa_send_string transport st i (some str) s).2.2.aoa = s.aoa ∧
    ∃ c, (aoa_send_string transport st i (some str) s).2.1 = [c] ∧
      call_args c = (0x40, AOA_CMD_SEND_STRING, i, 0, some (c_string_bytes str),
        min (strlen str) 255) ∧
      c.bRequest = AOA_CMD_SEND_STRING ∧
      ((aoa_send_string transport st i (some str) s).1 = STATUS_OK ↔ c.ret = ESP_OK) ∧
      ((aoa_send_string transport st i (some str) s).1 ≠ STATUS_OK →
        (aoa_send_string transport st i (some str) s).1 = STATUS_ERROR_CONNECTION) := by
  have hmin : (if strlen str > 255 then 255 else strlen str) = min (strlen str) 255 := by
    split <;> omega
  refine ⟨rfl, _, rfl, ?_, rfl, ?_, ?_⟩
  · simp only [call_args, hmin]
    rfl
  · simp only [aoa_send_string]
    split
    · simp
    · simp [*]
  · simp only [aoa_send_string]
    split
    · simp
    · simp

/-- A `SEND_STRING` call that returned `ESP_OK` has not failed. -/
theorem send_string_call_ok (c : control_transfer_call) (h1 : c.bRequest = AOA_CMD_SEND_STRING)
    (h2 : c.ret = ESP_OK) : ¬ call_failed c := by
  simp [call_failed, h1, h2]

/-- The loop over the strings: it keeps the negotiator's variables; when it returns
`STATUS_OK` it has made one transfer per string, in order, none failed; otherwise it
returns `STATUS_ERROR_CONNECTION` and the last transfer it made is the one that failed. -/
theorem send_strings_trace
    (transport : Nat → Nat → Nat → Nat → Option (List Nat) → Nat → Option Nat → System →
      Int × Option (List Nat) × Option Nat × System)
    (st : Nat) (l : List (Nat × String)) (s : System) :
    (send_strings transport st l s).2.2.aoa = s.aoa ∧
    ((send_strings transport st l s).1 = STATUS_OK →
      (send_strings transport st l s).2.1.map call_args
        = l.map (fun p => (0x40, AOA_CMD_SEND_STRING, p.1, 0, some (c_string_bytes p.2),
            min (strlen p.2) 255)) ∧
      ∀ c ∈ (send_strings transport st l s).2.1, ¬ call_failed c) ∧
    ((send_strings transport st l s).1 ≠ STATUS_OK →
      (send_strings transport st l s).1 = STATUS_ERROR_CONNECTION ∧
      (send_strings transport st l s).2.1.length ≤ l.length ∧
      (∀ c ∈ (send_strings transport st l s).2.1.dropLast, ¬ call_failed c) ∧
      ∃ c, (send_strings transport st l s).2.1.getLast? = some c ∧ c.ret ≠ ESP_OK) := by
  induction l generalizing s with
  | nil =>
    refine ⟨rfl, fun _ => ⟨rfl, ?_⟩, fun h => ?_⟩
    · intro c hc
      simp [send_strings] at hc
    · exact absurd rfl h
  | cons p rest ih =>
    obtain ⟨i, str⟩ := p
    obtain ⟨ha, c, hc, hargs, hreq, hiff, herr⟩ := send_string_result transport st i str s
    by_cases hok : (aoa_send_string transport st i (some str) s).1 = STATUS_OK
    · obtain ⟨ia, iok, ierr⟩ := ih (aoa_send_string transport st i (some str) s).2.2
      have hnf : ¬ call_failed c := send_string_call_ok c hreq (hiff.1 hok)
      simp only [send_strings, hok, ne_eq, not_true_eq_false, if_false, hc]
      refine ⟨by rw [ia, ha], fun h => ?_, fun h => ?_⟩
      · obtain ⟨h1, h2⟩ := iok h
        refine ⟨by simp [h1, hargs], ?_⟩
        intro d hd
        simp only [List.singleton_append, List.mem_cons] at hd
        rcases hd with rfl | hd
        · exact hnf
        · exact h2 d hd
      · obtain ⟨h1, h2, h3, d, h4, h5⟩ := ierr h
        refine ⟨h1, by simp only [List.singleton_append, List.length_cons]; omega, ?_, d, ?_, h5⟩
        · intro e he
          cases hq : (send_strings transport st rest
              (aoa_send_string transport st i (some str) s).2.2).2.1 with
          | nil => simp [hq] at h4
          | cons x xs =>
            rw [hq] at he h3
            simp only [List.singleton_append, List.dropLast_cons₂, List.mem_cons] at he
            rcases he with rfl | he
            · exact hnf
            · exact h3 e he
        · cases hq : (send_strings transport st rest
              (aoa_send_string transport st i (some str) s).2.2).2.1 with
          | nil => simp [hq] at h4
          | cons x xs =>
            rw [hq] at h4
            simpa using h4
    · simp only [send_strings, hok, ne_eq, not_false_eq_true, if_true]
      refine ⟨ha, fun h => h.elim, fun _ => ⟨herr hok, ?_, ?_, c, ?_, ?_⟩⟩
      · rw [hc]
        simp
      · rw [hc]
        simp
      · rw [hc]
        rfl
      · exact fun h => hok (hiff.2 h)

/-- A `GET_PROTOCOL` call that returned `ESP_OK` with two bytes and a version of at least 1
has not failed. -/
theorem get_protocol_call_ok (c : control_transfer_call) (h1 : c.ret = ESP_OK)
    (h2 : c.transferred = 2)
    (h3 : ¬ version_of_bytes (c.data_after.getD (c.data.getD [])) < 1) : ¬ call_failed c := by
  simp only [call_failed, h1, h2, ne_eq, not_true_eq_false, false_or, not_and, not_or]
  exact fun _ => h3

/-- A `START_ACCESSORY` call that returned `ESP_OK` has not failed. -/
theorem start_accessory_call_ok (c : control_transfer_call)
    (h1 : c.bRequest = AOA_CMD_START_ACCESSORY) (h2 : c.ret = ESP_OK) : ¬ call_failed c := by
  simp [call_failed, h1, h2]

/-- The outcomes of `aoa_negotiate_accessory_mode` called in state `Connected`. With
`STATUS_OK` it has made the eight transfers, none failed, and the state is
`AccessoryMode` with the flag set. Otherwise the state is `Connected` again, the flag is as
it was, and the last transfer made is the first one that failed. -/
theorem negotiation_outcome
    (transport : Nat → Nat → Nat → Nat → Option (List Nat) → Nat → Option Nat → System →
      Int × Option (List Nat) × Option Nat × System)
    (st : Nat) (s : System) (hs : s.aoa.g_aoa_state = AOA_STATE_CONNECTED) :
    ((aoa_negotiate_accessory_mode transport st s).1 = STATUS_OK →
      (aoa_negotiate_accessory_mode transport st s).2.1.map call_args
        = (0xC0, AOA_CMD_GET_PROTOCOL, 0, 0,
            some [s.aoa.g_aoa_protocol_version % 256, s.aoa.g_aoa_protocol_version / 256 % 256],
            2) ::
          ((identity_strings s.aoa.g_current_device_info).map
              (fun p => (0x40, AOA_CMD_SEND_STRING, p.1, 0, some (c_string_bytes p.2),
                min (strlen p.2) 255))
            ++ [(0x40, AOA_CMD_START_ACCESSORY, 0, 0, none, 0)]) ∧
      (∀ c ∈ (aoa_negotiate_accessory_mode transport st s).2.1, ¬ call_failed c) ∧
      (aoa_negotiate_accessory_mode transport st s).2.2.aoa.g_aoa_state
        = AOA_STATE_ACCESSORY_MODE ∧
      (aoa_negotiate_accessory_mode transport st s).2.2.aoa.g_is_accessory_mode = true) ∧
    ((aoa_negotiate_accessory_mode transport st s).1 ≠ STATUS_OK →
      (aoa_negotiate_accessory_mode transport st s).2.2.aoa.g_aoa_state = AOA_STATE_CONNECTED ∧
      (aoa_negotiate_accessory_mode transport st s).2.2.aoa.g_is_accessory_mode
        = s.aoa.g_is_accessory_mode ∧
      (aoa_negotiate_accessory_mode transport st s).2.1.length ≤ 8 ∧
      (∀ c ∈ (aoa_negotiate_accessory_mode transport st s).2.1.dropLast, ¬ call_failed c) ∧
      ∃ c, (aoa_negotiate_accessory_mode transport st s).2.1.getLast? = some c ∧
        call_failed c ∧
        (c.ret = ESP_OK ∧ c.transferred = 2 →
          c.bRequest = AOA_CMD_GET_PROTOCOL ∧
          (aoa_negotiate_accessory_mode transport st s).1 = STATUS_ERROR_PROTOCOL) ∧
        (¬ (c.ret = ESP_OK ∧ c.transferred = 2) →
          (aoa_negotiate_accessory_mode transport st s).1 = STATUS_ERROR_CONNECTION)) := by
  generalize hN : aoa_negotiate_accessory_mode transport st s = N
  unfold aoa_negotiate_accessory_mode at hN
  rw [if_neg (by simp [hs])] at hN
  simp only at hN
  have hv : (set_aoa_state AOA_STATE_DETECTING s).aoa.g_aoa_protocol_version
      = s.aoa.g_aoa_protocol_version := rfl
  rw [hv] at hN
  generalize transport (USB_REQ_TYPE_VENDOR ||| USB_REQ_TYPE_RECIPIENT_DEVICE ||| 128)
    AOA_CMD_GET_PROTOCOL 0 0
    (some [s.aoa.g_aoa_protocol_version % 256, s.aoa.g_aoa_protocol_version / 256 % 256])
    2 (some st) (set_aoa_state AOA_STATE_DETECTING s) = r at hN
  split at hN
  · rename_i h
    subst hN
    refine ⟨fun h0 => absurd h0 (show ¬ ((-2 : Int) = 0) by decide), fun _ => ⟨rfl, rfl, by simp, by simp, _, rfl, ?_, ?_, ?_⟩⟩
    · rcases h with h | h
      · exact Or.inl h
      · exact Or.inr ⟨rfl, Or.inl h⟩
    · rintro ⟨h1, h2⟩
      rcases h with h | h
      · exact absurd h1 h
      · exact absurd h2 h
    · intro _
      rfl
  · rename_i h
    have h1 : r.1 = ESP_OK := by
      by_contra hc
      exact h (Or.inl hc)
    have h2 : r.2.2.1.getD st = 2 := by
      by_contra hc
      exact h (Or.inr hc)
    split at hN
    · rename_i hlt
      subst hN
      refine ⟨fun h0 => absurd h0 (show ¬ ((-3 : Int) = 0) by decide), fun _ => ⟨rfl, rfl, by simp, by simp, _, rfl, ?_, ?_, ?_⟩⟩
      · exact Or.inr ⟨rfl, Or.inr hlt⟩
      · intro _
        exact ⟨rfl, rfl⟩
      · intro hc
        exact absurd ⟨h1, h2⟩ hc
    · rename_i hge
      obtain ⟨s3, hs3⟩ : ∃ s3, s3 = set_aoa_state AOA_STATE_SENDING_STRINGS
          { r.2.2.2 with aoa := { (set_aoa_state AOA_STATE_DETECTING s).aoa with
              g_aoa_protocol_version := version_of_bytes (r.2.1.getD
                [s.aoa.g_aoa_protocol_version % 256,
                  s.aoa.g_aoa_protocol_version / 256 % 256]) } } := ⟨_, rfl⟩
      rw [← hs3] at hN
      have hd : s3.aoa.g_current_device_info = s.aoa.g_current_device_info := by rw [hs3]; rfl
      have hf : s3.aoa.g_is_accessory_mode = s.aoa.g_is_accessory_mode := by rw [hs3]; rfl
      rw [hd] at hN
      obtain ⟨qa, qok, qerr⟩ := send_strings_trace transport st
        (identity_strings s.aoa.g_current_device_info) s3
      generalize send_strings transport st (identity_strings s.aoa.g_current_device_info) s3 = q
        at hN qa qok qerr
      generalize transport (USB_REQ_TYPE_VENDOR ||| USB_REQ_TYPE_RECIPIENT_DEVICE)
        AOA_CMD_START_ACCESSORY 0 0 none 0 (some (r.2.2.1.getD st))
        (set_aoa_state AOA_STATE_STARTING_ACCESSORY q.2.2) = r2 at hN
      have hc0 := get_protocol_call_ok
        { bmRequestType := USB_REQ_TYPE_VENDOR ||| USB_REQ_TYPE_RECIPIENT_DEVICE ||| 128
          bRequest := AOA_CMD_GET_PROTOCOL
          wValue := 0
          wIndex := 0
          data := some [s.aoa.g_aoa_protocol_version % 256,
            s.aoa.g_aoa_protocol_version / 256 % 256]
          length := 2
          ret := r.1
          transferred := r.2.2.1.getD st
          data_after := r.2.1 } h1 h2 hge
      have hlen : (identity_strings s.aoa.g_current_device_info).length = 6 := rfl
      split at hN
      · rename_i hq
        obtain ⟨e1, e2, e3, d, e4, e5⟩ := qerr hq
        subst hN
        have hflag : q.2.2.aoa.g_is_accessory_mode = s.aoa.g_is_accessory_mode := by
          rw [qa, hf]
        cases hq1 : q.2.1 with
        | nil => simp [hq1] at e4
        | cons x xs =>
          rw [hq1] at e2 e3 e4
          refine ⟨fun h0 => absurd h0 hq, fun _ => ⟨rfl, hflag, ?_, ?_, d, ?_, Or.inl e5, ?_, ?_⟩⟩
          · simp only [List.length_cons] at e2 ⊢
            omega
          · intro e he
            simp only [List.dropLast_cons₂, List.mem_cons] at he
            rcases he with rfl | he
            · exact hc0
            · exact e3 e he
          · simpa using e4
          · rintro ⟨g1, -⟩
            exact absurd g1 e5
          · intro _
            exact e1
      · rename_i hq
        have hq0 : q.1 = STATUS_OK := by
          by_contra hc
          exact hq hc
        obtain ⟨e1, e2⟩ := qok hq0
        have hl : q.2.1.length = 6 := by
          have := congrArg List.length e1
          simpa [hlen] using this
        split at hN
        · rename_i hr2
          subst hN
          have hflag : q.2.2.aoa.g_is_accessory_mode = s.aoa.g_is_accessory_mode := by
            rw [qa, hf]
          refine ⟨fun h0 => absurd h0 (show ¬ ((-2 : Int) = 0) by decide),
            fun _ => ⟨rfl, hflag, ?_, ?_, _, List.getLast?_concat _, Or.inl hr2, ?_, ?_⟩⟩
          · simp only [List.length_append, List.length_cons, List.length_nil, hl]
            omega
          · intro e he
            simp only [List.dropLast_concat, List.mem_cons] at he
            rcases he with rfl | he
            · exact hc0
            · exact e2 e he
          · rintro ⟨g1, -⟩
            exact absurd g1 hr2
          · intro _
            rfl
        · rename_i hr2
          have hr2 : r2.1 = ESP_OK := by
            by_contra hc
            exact hr2 hc
          subst hN
          refine ⟨fun _ => ⟨?_, ?_, rfl, rfl⟩, fun h0 => absurd rfl h0⟩
          · simp only [List.map_append, List.map_cons, List.map_nil, e1, List.cons_append]
            rfl
          · intro e he
            simp only [List.mem_append, List.mem_cons, List.mem_singleton, List.not_mem_nil,
              or_false] at he
            rcases he with (rfl | he) | rfl
            · exact hc0
            · exact e2 e he
            · exact start_accessory_call_ok _ rfl hr2

/-- C12, as stated, fails on the accessory flag: called in `Connected` with the flag set, a
negotiation that fails (over `usb_control_transfer`, which reports 0 bytes for
`GET_PROTOCOL`, with `STATUS_ERROR_CONNECTION`; over a transport that reports version 0,
with `STATUS_ERROR_PROTOCOL`) leaves the state `Connected` with the flag still set, not
unset. -/
theorem failed_negotiation_keeps_set_flag :
    aoa_get_state system_connected_flag_set = AOA_STATE_CONNECTED ∧
    aoa_is_accessory_mode system_connected_flag_set = true ∧
    (aoa_negotiate_accessory_mode (usb_control_transfer (fun x => x)) 0
      system_connected_flag_set).1 = STATUS_ERROR_CONNECTION ∧
    aoa_get_state (aoa_negotiate_accessory_mode (usb_control_transfer (fun x => x)) 0
      system_connected_flag_set).2.2 = AOA_STATE_CONNECTED ∧
    aoa_is_accessory_mode (aoa_negotiate_accessory_mode (usb_control_transfer (fun x => x)) 0
      system_connected_flag_set).2.2 = true ∧
    (aoa_negotiate_accessory_mode transport_version_0 0 system_connected_flag_set).1
      = STATUS_ERROR_PROTOCOL ∧
    aoa_get_state (aoa_negotiate_accessory_mode transport_version_0 0
      system_connected_flag_set).2.2 = AOA_STATE_CONNECTED ∧
    aoa_is_accessory_mode (aoa_negotiate_accessory_mode transport_version_0 0
      system_connected_flag_set).2.2 = true := by
  decide

/-- C12, amended: `aoa_negotiate_accessory_mode` called in a state other than `Connected`
returns `STATUS_ERROR_CONNECTION`, issues no transfer and changes nothing. Called in
`Connected`, it returns a status other than `STATUS_OK` exactly when one of the transfers it issued
failed (the transport did not return `ESP_OK`, or `GET_PROTOCOL` did not leave
`transferred` at 2 or left a version below 1). Then the failed transfer is the last one
issued and none before it failed, the state is `Connected` again, the accessory flag is
as it was before the call (so unset when it was unset), and the status is
`STATUS_ERROR_PROTOCOL` when the failed transfer returned `ESP_OK` with `transferred` at 2
(which is the case of a version below 1, on `GET_PROTOCOL`) and `STATUS_ERROR_CONNECTION`
otherwise. -/
theorem negotiation_failure
    (transport : Nat → Nat → Nat → Nat → Option (List Nat) → Nat → Option Nat → System →
      Int × Option (List Nat) × Option Nat × System)
    (st : Nat) (s : System) :
    (s.aoa.g_aoa_state ≠ AOA_STATE_CONNECTED →
      aoa_negotiate_accessory_mode transport st s = (STATUS_ERROR_CONNECTION, [], s)) ∧
    (s.aoa.g_aoa_state = AOA_STATE_CONNECTED →
      ((aoa_negotiate_accessory_mode transport st s).1 ≠ STATUS_OK ↔
        ∃ c ∈ (aoa_negotiate_accessory_mode transport st s).2.1, call_failed c) ∧
      ((aoa_negotiate_accessory_mode transport st s).1 ≠ STATUS_OK →
        (aoa_negotiate_accessory_mode transport st s).2.2.aoa.g_aoa_state
          = AOA_STATE_CONNECTED ∧
        (aoa_negotiate_accessory_mode transport st s).2.2.aoa.g_is_accessory_mode
          = s.aoa.g_is_accessory_mode ∧
        (s.aoa.g_is_accessory_mode = false →
          (aoa_negotiate_accessory_mode transport st s).2.2.aoa.g_is_accessory_mode = false) ∧
        (∀ c ∈ (aoa_negotiate_accessory_mode transport st s).2.1.dropLast, ¬ call_failed c) ∧
        ∃ c, (aoa_negotiate_accessory_mode transport st s).2.1.getLast? = some c ∧
          call_failed c ∧
          (c.ret = ESP_OK ∧ c.transferred = 2 →
            c.bRequest = AOA_CMD_GET_PROTOCOL ∧
            version_of_bytes (c.data_after.getD (c.data.getD [])) < 1 ∧
            (aoa_negotiate_accessory_mode transport st s).1 = STATUS_ERROR_PROTOCOL) ∧
          (¬ (c.ret = ESP_OK ∧ c.transferred = 2) →
            (aoa_negotiate_accessory_mode transport st s).1 = STATUS_ERROR_CONNECTION))) := by
  constructor
  · intro h
    unfold aoa_negotiate_accessory_mode
    rw [if_pos h]
  · intro hs
    obtain ⟨hok, herr⟩ := negotiation_outcome transport st s hs
    refine ⟨⟨fun h => ?_, fun h hc => ?_⟩, fun h => ?_⟩
    · obtain ⟨-, -, -, -, c, h1, h2, -⟩ := herr h
      exact ⟨c, List.mem_of_getLast?_eq_some h1, h2⟩
    · obtain ⟨c, h1, h2⟩ := h
      exact (hok hc).2.1 c h1 h2
    · obtain ⟨e1, e2, -, e4, c, e5, e6, e7, e8⟩ := herr h
      refine ⟨e1, e2, fun hf => by rw [e2, hf], e4, c, e5, e6, fun g => ?_, e8⟩
      obtain ⟨g1, g2⟩ := e7 g
      refine ⟨g1, ?_, g2⟩
      rcases e6 with e6 | ⟨-, e6 | e6⟩
      · exact absurd g.1 e6
      · exact absurd g.2 e6
      · exact e6

theorem negotiation_failure_witness :
    aoa_negotiate_accessory_mode (usb_control_transfer (fun x => x)) 0 system_after_init
      = (STATUS_ERROR_CONNECTION, [], system_after_init) ∧
    (aoa_negotiate_accessory_mode (usb_control_transfer (fun x => x)) 0
      (set_aoa_state AOA_STATE_CONNECTED system_after_init)).2.2.aoa.g_aoa_state
      = AOA_STATE_CONNECTED ∧
    (aoa_negotiate_accessory_mode (usb_control_transfer (fun x => x)) 0
      (set_aoa_state AOA_STATE_CONNECTED system_after_init)).2.2.aoa.g_is_accessory_mode
      = false :=
  ⟨(negotiation_failure (usb_control_transfer (fun x => x)) 0 system_after_init).1 (by decide),
    ((((negotiation_failure (usb_control_transfer (fun x => x)) 0
      (set_aoa_state AOA_STATE_CONNECTED system_after_init)).2 rfl).2 (by decide)).1),
    ((((negotiation_failure (usb_control_transfer (fun x => x)) 0
      (set_aoa_state AOA_STATE_CONNECTED system_after_init)).2 rfl).2 (by decide)).2.2.1 rfl)⟩

/-! ## Readiness flags -/

/-- Clearing the bits `w` of `bits` leaves none of them set. -/
theorem cleared_and (bits w : Nat) : (bits ^^^ (bits &&& w)) &&& w = 0 := by
  apply Nat.eq_of_testBit_eq
  intro i
  simp only [Nat.testBit_and, Nat.testBit_xor, Nat.zero_testBit]
  cases bits.testBit i <;> cases w.testBit i <;> rfl

/-- Clearing the bits `w` of `bits` leaves every other bit as it was. -/
theorem cleared_other (bits w i : Nat) (h : w.testBit i = false) :
    (bits ^^^ (bits &&& w)).testBit i = bits.testBit i := by
  simp only [Nat.testBit_and, Nat.testBit_xor, h]
  cases bits.testBit i <;> rfl

/-- What `wait_for_connections` does, in terms of the flags of the strategy. -/
theorem wait_for_connections_eq (strategy : connection_strategy_t) (bits : Nat) :
    wait_for_connections strategy bits
      = if bits &&& flags_waited_on strategy = flags_waited_on strategy then
          some (bits ^^^ (bits &&& flags_waited_on strategy))
        else none := by
  cases strategy <;>
    simp only [wait_for_connections, flags_waited_on, xEventGroupWaitBits, if_true, beq_iff_eq] <;>
    split <;> simp

/-- C21, as stated, fails: with the three readiness flags set as `app_main` has them when
it enters its loop, `wait_for_connections` under the strategy the program runs with
(`CONNECTION_STRATEGY_PHONE_FIRST`) returns with the network and radio flags cleared, only
the USB flag being left, and a second wait on the same flags does not return. -/
theorem wait_clears_the_flags_waited_on :
    event_bits_after_init = WIFI_READY_EVENT ||| BT_READY_EVENT ||| AOA_READY_EVENT ∧
    wait_for_connections CONNECTION_STRATEGY_PHONE_FIRST event_bits_after_init
      = some AOA_READY_EVENT ∧
    AOA_READY_EVENT &&& (WIFI_READY_EVENT ||| BT_READY_EVENT) = 0 ∧
    wait_for_connections CONNECTION_STRATEGY_PHONE_FIRST AOA_READY_EVENT = none := by
  decide

/-- C21, amended: `wait_for_connections` returns exactly when every flag selected by the
strategy is set. When it returns, exactly those flags have been cleared and every other
bit of the group is as it was, so a later wait on the same flags does not return until
they have all been set again. -/
theorem wait_consumes_flags (strategy : connection_strategy_t) (bits : Nat) :
    ((wait_for_connections strategy bits).isSome ↔
      bits &&& flags_waited_on strategy = flags_waited_on strategy) ∧
    (∀ after, wait_for_connections strategy bits = some after →
      after &&& flags_waited_on strategy = 0 ∧
      (∀ i, (flags_waited_on strategy).testBit i = false → after.testBit i = bits.testBit i) ∧
      wait_for_connections strategy after = none ∧
      wait_for_connections strategy (xEventGroupSetBits after (flags_waited_on strategy))
        = some after) := by
  rw [wait_for_connections_eq]
  constructor
  · split <;> simp [*]
  · intro after h
    split at h
    · rename_i hset
      have ha : after = bits ^^^ (bits &&& flags_waited_on strategy) := by
        simpa using h.symm
      have hz : after &&& flags_waited_on strategy = 0 := by rw [ha, cleared_and]
      have hne : flags_waited_on strategy ≠ 0 := by cases strategy <;> decide
      refine ⟨hz, fun i hi => by rw [ha, cleared_other _ _ _ hi], ?_, ?_⟩
      · rw [wait_for_connections_eq, hz, if_neg (fun hc => hne hc.symm)]
      · rw [wait_for_connections_eq, xEventGroupSetBits]
        have h1 : (after ||| flags_waited_on strategy) &&& flags_waited_on strategy
            = flags_waited_on strategy := by
          apply Nat.eq_of_testBit_eq
          intro i
          simp only [Nat.testBit_and, Nat.testBit_or]
          cases after.testBit i <;> cases (flags_waited_on strategy).testBit i <;> rfl
        rw [h1, if_pos rfl]
        congr 1
        apply Nat.eq_of_testBit_eq
        intro i
        have hb := congrArg (fun n => n.testBit i) hz
        simp only [Nat.testBit_and, Nat.zero_testBit] at hb
        simp only [Nat.testBit_xor, Nat.testBit_or]
        cases hf : (flags_waited_on strategy).testBit i <;>
          cases hx : after.testBit i <;> simp_all
    · exact absurd h (by simp)

theorem wait_consumes_flags_witness :
    wait_for_connections CONNECTION_STRATEGY_PHONE_FIRST AOA_READY_EVENT = none :=
  ((wait_consumes_flags CONNECTION_STRATEGY_PHONE_FIRST event_bits_after_init).2
    AOA_READY_EVENT (by decide)).2.2.1

/-! ## Command codes and the dispatch of the responder -/

/-- C22, the code at its definitions: `common.h` numbers `GET_PROTOCOL`, `SEND_STRING`,
`START_ACCESSORY` 51, 52, 53 and the responder, built against it, dispatches 51 to the
get-protocol handler (version bytes 2, 0 written, `Connected` to `Negotiating`), 52 to the
send-string handler and 53 to the start-accessory handler. The header
`esp32_wireless_dongle.h` numbers `START_ACCESSORY` 51 and `GET_PROTOCOL` 53: a
`GET_PROTOCOL` numbered by it, sent while the responder is in `SendingStrings`, is handled
as `START_ACCESSORY` (no version written, state `AccessoryMode`). -/
theorem dongle_header_swaps_command_codes :
    (AOA_CMD_GET_PROTOCOL = 51 ∧ AOA_CMD_SEND_STRING = 52 ∧ AOA_CMD_START_ACCESSORY = 53) ∧
    (esp32_wireless_dongle.AOA_CMD_GET_PROTOCOL = 53 ∧
      esp32_wireless_dongle.AOA_CMD_SEND_STRING = 52 ∧
      esp32_wireless_dongle.AOA_CMD_START_ACCESSORY = 51) ∧
    ((aoa_handle_control_request 0xC0 51 0 0 (some [9, 9]) 2
        (system_in_state AOA_STATE_CONNECTED)).2.1 = some [2, 0] ∧
      aoa_get_state (aoa_handle_control_request 0xC0 51 0 0 (some [9, 9]) 2
        (system_in_state AOA_STATE_CONNECTED)).2.2 = AOA_STATE_NEGOTIATING) ∧
    aoa_get_state (aoa_handle_control_request 0x40 52 0 0 (some [65]) 1
      (system_in_state AOA_STATE_NEGOTIATING)).2.2 = AOA_STATE_SENDING_STRINGS ∧
    aoa_get_state (aoa_handle_control_request 0x40 53 0 0 none 0
      (system_in_state AOA_STATE_SENDING_STRINGS)).2.2 = AOA_STATE_ACCESSORY_MODE ∧
    ((aoa_handle_control_request 0xC0 esp32_wireless_dongle.AOA_CMD_GET_PROTOCOL 0 0
        (some [9, 9]) 2 (system_in_state AOA_STATE_SENDING_STRINGS)).2.1 = some [9, 9] ∧
      aoa_get_state (aoa_handle_control_request 0xC0 esp32_wireless_dongle.AOA_CMD_GET_PROTOCOL
        0 0 (some [9, 9]) 2 (system_in_state AOA_STATE_SENDING_STRINGS)).2.2
        = AOA_STATE_ACCESSORY_MODE) := by
  decide

/-- C23, as stated, fails: the vendor request `REGISTER_HID` (54), and likewise
`AUDIO_SUPPORT` (58), gets the error status `STATUS_ERROR_PROTOCOL`, the same as a request
code the responder does not know (200). -/
theorem reserved_request_gets_error_status :
    (aoa_handle_control_request 0x40 AOA_CMD_REGISTER_HID 0 0 none 0
      (system_in_state AOA_STATE_CONNECTED)).1 = STATUS_ERROR_PROTOCOL ∧
    (aoa_handle_control_request 0x40 AOA_CMD_AUDIO_SUPPORT 0 0 none 0
      (system_in_state AOA_STATE_CONNECTED)).1 = STATUS_ERROR_PROTOCOL ∧
    (aoa_handle_control_request 0x40 200 0 0 none 0
      (system_in_state AOA_STATE_CONNECTED)).1 = STATUS_ERROR_PROTOCOL ∧
    STATUS_ERROR_PROTOCOL ≠ STATUS_OK := by
  decide

/-- C23, amended: for every request whose `bRequest` is one of the reserved codes 54 to 58
and for every state, `aoa_handle_control_request` returns `STATUS_ERROR_PROTOCOL`, writes
nothing to the data buffer and leaves the negotiation state and all other state
unchanged. -/
theorem reserved_requests_rejected (s : System) (bm req v i n : Nat) (d : Option (List Nat))
    (hreq : AOA_CMD_REGISTER_HID ≤ req ∧ req ≤ AOA_CMD_AUDIO_SUPPORT) :
    aoa_handle_control_request bm req v i d n s = (STATUS_ERROR_PROTOCOL, d, s) := by
  have h1 : req ≠ AOA_CMD_GET_PROTOCOL := by
    intro h
    rw [h] at hreq
    exact absurd hreq.1 (by decide)
  have h2 : req ≠ AOA_CMD_SEND_STRING := by
    intro h
    rw [h] at hreq
    exact absurd hreq.1 (by decide)
  have h3 : req ≠ AOA_CMD_START_ACCESSORY := by
    intro h
    rw [h] at hreq
    exact absurd hreq.1 (by decide)
  simp [aoa_handle_control_request, h1, h2, h3]

theorem reserved_requests_rejected_witness :
    aoa_handle_control_request 0x40 AOA_CMD_SEND_HID_EVENT 0 0 (some [1, 2]) 2
        (system_in_state AOA_STATE_SENDING_STRINGS)
      = (STATUS_ERROR_PROTOCOL, some [1, 2], system_in_state AOA_STATE_SENDING_STRINGS) :=
  reserved_requests_rejected (system_in_state AOA_STATE_SENDING_STRINGS) 0x40
    AOA_CMD_SEND_HID_EVENT 0 0 2 (some [1, 2]) (by decide)

/-- C24, as stated, fails in the states `Negotiating` and `Connected`: a vendor
`SEND_STRING` whose index 6 is out of range returns success and moves the negotiator to
`SendingStrings`. -/
theorem out_of_range_string_moves_state :
    (aoa_handle_control_request 0x40 AOA_CMD_SEND_STRING 0 6 (some [65]) 1
      (system_in_state AOA_STATE_NEGOTIATING)).1 = STATUS_OK ∧
    aoa_get_state (aoa_handle_control_request 0x40 AOA_CMD_SEND_STRING 0 6 (some [65]) 1
      (system_in_state AOA_STATE_NEGOTIATING)).2.2 = AOA_STATE_SENDING_STRINGS ∧
    aoa_get_state (aoa_handle_control_request 0x40 AOA_CMD_SEND_STRING 0 200 (some [65]) 1
      (system_in_state AOA_STATE_CONNECTED)).2.2 = AOA_STATE_SENDING_STRINGS := by
  decide

/-- C24, amended: for every state and every string index, in range or not, a vendor
`SEND_STRING` request returns success, writes nothing to the buffer and leaves the stored
device identity, the accessory flag and everything outside the negotiator unchanged; the
negotiation state becomes `SendingStrings` when it was `Connected` or `Negotiating` and is
unchanged otherwise. -/
theorem send_string_any_index (s : System) (bm v i n : Nat) (d : Option (List Nat))
    (hbm : bm &&& 0x60 = 0x40) :
    (aoa_handle_control_request bm AOA_CMD_SEND_STRING v i d n s).1 = STATUS_OK ∧
    (aoa_handle_control_request bm AOA_CMD_SEND_STRING v i d n s).2.1 = d ∧
    (aoa_handle_control_request bm AOA_CMD_SEND_STRING v i d n s).2.2
      = { s with aoa := { s.aoa with g_aoa_state :=
            if s.aoa.g_aoa_state = AOA_STATE_CONNECTED ∨
                s.aoa.g_aoa_state = AOA_STATE_NEGOTIATING
            then AOA_STATE_SENDING_STRINGS else s.aoa.g_aoa_state } } ∧
    ((s.aoa.g_aoa_state ≠ AOA_STATE_CONNECTED ∧ s.aoa.g_aoa_state ≠ AOA_STATE_NEGOTIATING) →
      (aoa_handle_control_request bm AOA_CMD_SEND_STRING v i d n s).2.2 = s) := by
  rw [control_send_string s bm v i n d hbm]
  have hs : (aoa_handle_send_string (i % 256) d s).2
      = { s with aoa := { s.aoa with g_aoa_state :=
            if s.aoa.g_aoa_state = AOA_STATE_CONNECTED ∨
                s.aoa.g_aoa_state = AOA_STATE_NEGOTIATING
            then AOA_STATE_SENDING_STRINGS else s.aoa.g_aoa_state } } := by
    rcases s with ⟨⟨st, f, di, ver⟩, g, o, p⟩
    cases st <;> simp [aoa_handle_send_string]
  refine ⟨rfl, rfl, hs, fun h => ?_⟩
  rw [hs, if_neg (by simp [h.1, h.2])]

theorem send_string_any_index_witness :
    (aoa_handle_control_request 0x40 AOA_CMD_SEND_STRING 0 6 (some [65]) 1
      (system_in_state AOA_STATE_DISCONNECTED)).2.2 = system_in_state AOA_STATE_DISCONNECTED :=
  (send_string_any_index (system_in_state AOA_STATE_DISCONNECTED) 0x40 0 6 1 (some [65])
    (by decide)).2.2.2 ⟨by decide, by decide⟩

/-! ## The advertised identity -/

/-- C25, the code at its initial state: before any `usb_set_device_descriptor` call the
identity that `usb_get_connected_device_info` reports has the accessory product ID 0x2D00
with `is_accessory_mode` false, and the constant device descriptor advertises the same
product ID; the flag is not true exactly when the product ID is an accessory ID there.
After every `usb_set_device_descriptor(vid, pid)` the flag is true exactly when `pid` is
0x2D00 or 0x2D01. -/
theorem initial_identity_has_accessory_pid :
    usb_get_connected_device_info (some g_device_info_initial) system_static_init.gadget
      = (ESP_OK, some g_device_info_initial) ∧
    g_device_info_initial.pid = 0x2D00 ∧
    g_device_info_initial.is_accessory_mode = false ∧
    system_static_init.gadget.g_device_info.pid = USB_PID_ANDROID_ACCESSORY ∧
    system_static_init.gadget.g_device_info.is_accessory_mode = false ∧
    g_device_desc.idProduct = USB_PID_ANDROID_ACCESSORY ∧
    (∀ (vid pid : Nat) (g : GadgetGlobals),
      ((usb_set_device_descriptor vid pid g).2.g_device_info.is_accessory_mode = true ↔
        (pid = 0x2D00 ∨ pid = 0x2D01)) ∧
      (usb_set_device_descriptor vid pid g).2.g_device_info.pid = pid) := by
  refine ⟨by decide, by decide, by decide, by decide, by decide, by decide,
    fun vid pid g => ⟨?_, rfl⟩⟩
  simp [usb_set_device_descriptor]

/-! ## The transfer-type field of the data endpoints -/

/-- The control word that configure builds when it is passed `DEPCTL_EPTYPE_BULK` or
`DEPCTL_EPTYPE_CTRL` as `ep_type`: both constants are multiples of 256, so the `uint8_t`
parameter receives 0 and nothing is or-ed into the type field. -/
theorem configure_depctl_shifted_type (DEPCTL_MPS : Nat → Nat) :
    configure_depctl DEPCTL_MPS 64 DEPCTL_EPTYPE_BULK
      = (DEPCTL_MPS 64 % 4294967296 ||| DEPCTL_USBACTEP) &&& not32 DEPCTL_STALL ∧
    configure_depctl DEPCTL_MPS 64 DEPCTL_EPTYPE_CTRL
      = (DEPCTL_MPS 64 % 4294967296 ||| DEPCTL_USBACTEP) &&& not32 DEPCTL_STALL := by
  have h1 : (64 % 65536) &&& 0x7FF = 64 := by decide
  have h2 : (((DEPCTL_EPTYPE_BULK % 256) <<< DEPCTL_EPTYPE_SHIFT) % 4294967296)
      &&& DEPCTL_EPTYPE_MASK = 0 := by decide
  have h3 : (((DEPCTL_EPTYPE_CTRL % 256) <<< DEPCTL_EPTYPE_SHIFT) % 4294967296)
      &&& DEPCTL_EPTYPE_MASK = 0 := by decide
  constructor <;>
    simp only [configure_depctl, h1, h2, h3, Nat.zero_or, Nat.or_zero]

/-- The type mask has bits 18 and 19 only. -/
theorem eptype_mask_bits (i : Nat) :
    DEPCTL_EPTYPE_MASK.testBit i = (decide (i = 18) || decide (i = 19)) := by
  by_cases h : i < 20
  · interval_cases i <;> decide
  · have h1 : DEPCTL_EPTYPE_MASK < 2 ^ i :=
      lt_of_lt_of_le (by decide : DEPCTL_EPTYPE_MASK < 2 ^ 20)
        (Nat.pow_le_pow_right (by decide) (by omega))
    rw [Nat.testBit_lt_two_pow h1]
    have h18 : i ≠ 18 := by omega
    have h19 : i ≠ 19 := by omega
    simp [h18, h19]

/-- A control word built from a packet-size value below bit 18 has the type field 0, with
or without the enable bit. -/
theorem eptype_of_control_word (m e : Nat) (hm : m < 2 ^ 18) (he : e = 0 ∨ e = DEPCTL_EPENA) :
    depctl_eptype (((m % 4294967296 ||| DEPCTL_USBACTEP) &&& not32 DEPCTL_STALL) ||| e) = 0 := by
  have hz : (((m % 4294967296 ||| DEPCTL_USBACTEP) &&& not32 DEPCTL_STALL) ||| e)
      &&& DEPCTL_EPTYPE_MASK = 0 := by
    apply Nat.eq_of_testBit_eq
    intro i
    have hmod : m % 4294967296 = m := Nat.mod_eq_of_lt (lt_trans hm (by decide))
    rw [Nat.testBit_and, eptype_mask_bits, Nat.zero_testBit, hmod]
    by_cases h18 : i = 18
    · subst h18
      have hb : m.testBit 18 = false := Nat.testBit_lt_two_pow hm
      have hu : DEPCTL_USBACTEP.testBit 18 = false := by decide
      have hx : e.testBit 18 = false := by rcases he with rfl | rfl <;> decide
      simp [Nat.testBit_or, Nat.testBit_and, hb, hu, hx]
    · by_cases h19 : i = 19
      · subst h19
        have hb : m.testBit 19 = false :=
          Nat.testBit_lt_two_pow (lt_trans hm (by decide))
        have hu : DEPCTL_USBACTEP.testBit 19 = false := by decide
        have hx : e.testBit 19 = false := by rcases he with rfl | rfl <;> decide
        simp [Nat.testBit_or, Nat.testBit_and, hb, hu, hx]
      · simp [h18, h19]
  rw [depctl_eptype, hz]
  rfl

/-- The packet-size field of such a control word is that of the packet-size value. -/
theorem mps_of_control_word (m e : Nat) (he : e = 0 ∨ e = DEPCTL_EPENA) :
    depctl_mps (((m % 4294967296 ||| DEPCTL_USBACTEP) &&& not32 DEPCTL_STALL) ||| e)
      = depctl_mps m := by
  have hmask : ∀ i, (0x7FF : Nat).testBit i = decide (i < 11) := by
    intro i
    by_cases h : i < 11
    · interval_cases i <;> decide
    · rw [Nat.testBit_lt_two_pow (lt_of_lt_of_le (by decide : (0x7FF : Nat) < 2 ^ 11)
        (Nat.pow_le_pow_right (by decide) (by omega)))]
      simp [h]
  apply Nat.eq_of_testBit_eq
  intro i
  have h32 : (4294967296 : Nat) = 2 ^ 32 := by norm_num
  simp only [depctl_mps, Nat.testBit_and, hmask]
  by_cases h : i < 11
  · have hu : DEPCTL_USBACTEP.testBit i = false := by interval_cases i <;> decide
    have hs : (not32 DEPCTL_STALL).testBit i = true := by interval_cases i <;> decide
    have hx : e.testBit i = false := by
      rcases he with rfl | rfl
      · exact Nat.zero_testBit i
      · interval_cases i <;> decide
    have hmod : (m % 4294967296).testBit i = m.testBit i := by
      rw [h32, Nat.testBit_mod_two_pow]
      have hi : i < 32 := by omega
      simp [hi]
    simp [Nat.testBit_or, Nat.testBit_and, hmod, hu, hs, hx, h]
  · simp [h]

/-- The control registers of endpoint 1 after `usb_otg_configure_endpoints` and after
`handle_enum_done_interrupt` on an initialised controller: the word configure built, with
the enable bit or-ed in. -/
theorem data_endpoint_registers (DEPCTL_MPS : Nat → Nat) (s : System)
    (hm : s.otg.regs_mapped = true) (hi : s.otg.g_usb_initialized = true) :
    (usb_otg_configure_endpoints DEPCTL_MPS s).1 = ESP_OK ∧
    (usb_otg_configure_endpoints DEPCTL_MPS s).2.otg.in_ep_diepctl 1
      = configure_depctl DEPCTL_MPS 64 DEPCTL_EPTYPE_BULK ||| DEPCTL_EPENA ∧
    (usb_otg_configure_endpoints DEPCTL_MPS s).2.otg.out_ep_doepctl 1
      = configure_depctl DEPCTL_MPS 64 DEPCTL_EPTYPE_BULK ||| DEPCTL_EPENA ∧
    (handle_enum_done_interrupt DEPCTL_MPS s.otg).in_ep_diepctl 1
      = configure_depctl DEPCTL_MPS 64 DEPCTL_EPTYPE_BULK ||| DEPCTL_EPENA ∧
    (handle_enum_done_interrupt DEPCTL_MPS s.otg).out_ep_doepctl 1
      = configure_depctl DEPCTL_MPS 64 DEPCTL_EPTYPE_BULK ||| DEPCTL_EPENA := by
  refine ⟨?_, ?_, ?_, ?_, ?_⟩ <;>
    simp [usb_otg_configure_endpoints, handle_enum_done_interrupt,
      esp32_usb_otg_configure_endpoint, esp32_usb_otg_enable_endpoint, hm, hi]

/-- C26, the code on an initialised controller, for every value `DEPCTL_MPS(64)` of the
packet-size macro that stays below bit 18: after `usb_otg_configure_endpoints`, which
returns `ESP_OK`, and after `handle_enum_done_interrupt`, the transfer-type field (bits
19:18) of the IN and OUT control registers of endpoint 1 holds 0, the control encoding,
and not 2, the bulk encoding that `DEPCTL_EPTYPE_BULK` carries in that field; the
packet-size field (bits 10:0) holds that of `DEPCTL_MPS(64)`. The word that
`usb_otg_init_peripheral` has configure build for endpoint 0 has the type field 0 too. -/
theorem data_endpoints_get_control_type (DEPCTL_MPS : Nat → Nat) (s : System)
    (hm : s.otg.regs_mapped = true) (hi : s.otg.g_usb_initialized = true)
    (hmps : DEPCTL_MPS 64 < 2 ^ 18) :
    (usb_otg_configure_endpoints DEPCTL_MPS s).1 = ESP_OK ∧
    depctl_eptype DEPCTL_EPTYPE_BULK = 2 ∧
    (depctl_eptype ((usb_otg_configure_endpoints DEPCTL_MPS s).2.otg.in_ep_diepctl 1) = 0 ∧
      depctl_eptype ((usb_otg_configure_endpoints DEPCTL_MPS s).2.otg.out_ep_doepctl 1) = 0 ∧
      depctl_eptype ((handle_enum_done_interrupt DEPCTL_MPS s.otg).in_ep_diepctl 1) = 0 ∧
      depctl_eptype ((handle_enum_done_interrupt DEPCTL_MPS s.otg).out_ep_doepctl 1) = 0) ∧
    (depctl_mps ((usb_otg_configure_endpoints DEPCTL_MPS s).2.otg.in_ep_diepctl 1)
        = depctl_mps (DEPCTL_MPS 64) ∧
      depctl_mps ((usb_otg_configure_endpoints DEPCTL_MPS s).2.otg.out_ep_doepctl 1)
        = depctl_mps (DEPCTL_MPS 64) ∧
      depctl_mps ((handle_enum_done_interrupt DEPCTL_MPS s.otg).in_ep_diepctl 1)
        = depctl_mps (DEPCTL_MPS 64) ∧
      depctl_mps ((handle_enum_done_interrupt DEPCTL_MPS s.otg).out_ep_doepctl 1)
        = depctl_mps (DEPCTL_MPS 64)) ∧
    depctl_eptype (configure_depctl DEPCTL_MPS 64 DEPCTL_EPTYPE_CTRL) = 0 := by
  obtain ⟨r0, r1, r2, r3, r4⟩ := data_endpoint_registers DEPCTL_MPS s hm hi
  obtain ⟨c1, c2⟩ := configure_depctl_shifted_type DEPCTL_MPS
  have ht := eptype_of_control_word (DEPCTL_MPS 64) DEPCTL_EPENA hmps (Or.inr rfl)
  have hp := mps_of_control_word (DEPCTL_MPS 64) DEPCTL_EPENA (Or.inr rfl)
  have h0 := eptype_of_control_word (DEPCTL_MPS 64) 0 hmps (Or.inl rfl)
  rw [Nat.or_zero] at h0
  rw [r1, r2, r3, r4, c1, c2]
  exact ⟨r0, by decide, ⟨ht, ht, ht, ht⟩, ⟨hp, hp, hp, hp⟩, h0⟩

/-- The failing input of C26: the gadget layer right after initialisation, with the
packet-size macro placing its argument at bit 0. After `usb_otg_configure_endpoints` the
control registers of endpoint 1 hold packet size 64 and transfer type 0. After
`usb_otg_init_peripheral` on the controller as at program start, the register of endpoint
0 that configure wrote has transfer type 0. -/
theorem data_endpoints_get_control_type_witness :
    (depctl_eptype
        ((usb_otg_configure_endpoints (fun x => x) system_after_init).2.otg.in_ep_diepctl 1) = 0 ∧
      depctl_eptype
        ((usb_otg_configure_endpoints (fun x => x) system_after_init).2.otg.out_ep_doepctl 1)
        = 0) ∧
    depctl_mps ((usb_otg_configure_endpoints (fun x => x) system_after_init).2.otg.in_ep_diepctl 1)
      = 64 ∧
    (usb_otg_init_peripheral (fun x => x) 1 6 (fun _ => 0) otg_static_init).1 = ESP_OK ∧
    depctl_eptype
      ((usb_otg_init_peripheral (fun x => x) 1 6 (fun _ => 0)
        otg_static_init).2.core_in_ep_diepctl 0) = 0 :=
  ⟨⟨(data_endpoints_get_control_type (fun x => x) system_after_init rfl rfl
        (by decide)).2.2.1.1,
      (data_endpoints_get_control_type (fun x => x) system_after_init rfl rfl
        (by decide)).2.2.1.2.1⟩,
    (data_endpoints_get_control_type (fun x => x) system_after_init rfl rfl
      (by decide)).2.2.2.1.1,
    by decide, by decide⟩

/-! ## The status of a write that transfers everything -/

/-- C27, the code with the FIFO ready at the first poll, on an initialised controller and
an endpoint 0 to 15, by requested length `L`. Up to 63936 bytes the write puts all `L`
bytes in the FIFO and returns `ESP_OK`. From 63937 to 64000 bytes, the lengths that take
exactly 1000 chunks, it puts all `L` bytes in the FIFO, reports `*transferred = L`, and
returns `ESP_ERR_TIMEOUT`: the last chunk brings the shared counter `timeout` to 0 and the
check after the loop fires although nothing is left to send. Above 64000 bytes it stops
after 64000 and returns `ESP_OK`. -/
theorem write_endpoint_status_by_length (dtxfsts_reads : Nat → Nat) (ep_num length tr : Nat)
    (src : List Nat) (o : OtgGlobals) (hm : o.regs_mapped = true)
    (hi : o.g_usb_initialized = true) (hep : ep_num ≤ 15)
    (hready : dtxfsts_reads 0 &&& 1 ≠ 0) :
    (esp32_usb_otg_write_endpoint dtxfsts_reads ep_num (some src) length (some tr) o).2.2.tx_fifo
        ep_num
      = o.tx_fifo ep_num ++ chunks_words (write_loop 1000 src length).2 ∧
    (length ≤ 63936 →
      (esp32_usb_otg_write_endpoint dtxfsts_reads ep_num (some src) length (some tr) o).1
        = ESP_OK ∧
      (esp32_usb_otg_write_endpoint dtxfsts_reads ep_num (some src) length (some tr) o).2.1
        = some length) ∧
    (63937 ≤ length → length ≤ 64000 →
      (esp32_usb_otg_write_endpoint dtxfsts_reads ep_num (some src) length (some tr) o).1
        = ESP_ERR_TIMEOUT ∧
      (esp32_usb_otg_write_endpoint dtxfsts_reads ep_num (some src) length (some tr) o).2.1
        = some length ∧
      chunks_total (write_loop 1000 src length).2 = length) ∧
    (64000 < length →
      (esp32_usb_otg_write_endpoint dtxfsts_reads ep_num (some src) length (some tr) o).1
        = ESP_OK ∧
      (esp32_usb_otg_write_endpoint dtxfsts_reads ep_num (some src) length (some tr) o).2.1
        = some 64000) := by
  have hs : spin_wait (fun k => dtxfsts_reads k &&& (1 <<< 0) == 0) 1000 0 = (1000, 0 + 1) :=
    spin_wait_ready_first _ 1000 0 (by simpa using hready)
  have hw := write_endpoint_checked dtxfsts_reads ep_num length tr src o hm hi hep
  rw [hs] at hw
  simp only [] at hw
  rw [if_neg (by decide)] at hw
  have htot := write_loop_total 1000 src length
  rw [hw]
  refine ⟨by simp, fun h => ?_, fun h1 h2 => ?_, fun h => ?_⟩
  · have ht := write_loop_timeout_enough 1000 src length (by omega)
    have hne : (write_loop 1000 src length).1 ≠ 0 := by
      rw [ht]
      omega
    simp only [if_neg hne, htot, true_and]
    congr 1
    omega
  · have ht := write_loop_timeout_enough 1000 src length (by omega)
    have hz : (write_loop 1000 src length).1 = 0 := by
      rw [ht]
      omega
    have hl : min length (64 * 1000) = length := by omega
    simp only [if_pos hz, htot, hl, and_self]
  · have ht := write_loop_timeout_short 1000 src length (by omega)
    have hne : (write_loop 1000 src length).1 ≠ 0 := by
      rw [ht]
      decide
    simp only [if_neg hne, htot, true_and]
    congr 1
    omega

theorem write_endpoint_status_by_length_witness :
    (esp32_usb_otg_write_endpoint (fun _ => 1) 1 (some (List.replicate 64000 0xAB)) 64000 (some 0)
      otg_initialised).1 = ESP_ERR_TIMEOUT ∧
    (esp32_usb_otg_write_endpoint (fun _ => 1) 1 (some (List.replicate 64000 0xAB)) 64000 (some 0)
      otg_initialised).2.1 = some 64000 ∧
    chunks_total (write_loop 1000 (List.replicate 64000 0xAB) 64000).2 = 64000 :=
  (write_endpoint_status_by_length (fun _ => 1) 1 64000 0 (List.replicate 64000 0xAB)
    otg_initialised rfl rfl (by decide) (by decide)).2.2.1 (by decide) (by decide)

/-! ## What is reachable after `aoa_init` -/

/-- No operation of the negotiator leaves `Disconnected`. -/
theorem run_operation_disconnected (op : aoa_operation) (s : System)
    (h : s.aoa.g_aoa_state = AOA_STATE_DISCONNECTED) :
    (run_operation op s).aoa.g_aoa_state = AOA_STATE_DISCONNECTED := by
  cases op with
  | control_request bm req v i d n =>
    simp only [run_operation, aoa_handle_control_request]
    split
    · exact h
    · split
      · cases d with
        | none => exact h
        | some buf =>
          simp only []
          split
          · rw [get_protocol_state, if_neg (by simp [h]), h]
          · exact h
      · split
        · simp only []
          rw [send_string_state, if_neg (by simp [h]), h]
        · split
          · rw [start_accessory_elsewhere s (by simp [h])]
            exact h
          · exact h
  | negotiate_accessory_mode transport st =>
    simp only [run_operation, aoa_negotiate_accessory_mode]
    rw [if_pos (by simp [h])]
    exact h
  | start_accessory_mode =>
    simp only [run_operation, aoa_start_accessory_mode, usb_set_device_descriptor]
    split <;> exact h
  | set_device_info d =>
    cases d <;> exact h

theorem run_operations_disconnected (ops : List aoa_operation) (s : System)
    (h : s.aoa.g_aoa_state = AOA_STATE_DISCONNECTED) :
    (run_operations ops s).aoa.g_aoa_state = AOA_STATE_DISCONNECTED := by
  induction ops generalizing s with
  | nil => exact h
  | cons op rest ih => exact ih _ (run_operation_disconnected op s h)

/-- C28: after `aoa_init`, whatever the state before it and for every finite sequence of
calls of `aoa_handle_control_request` (any arguments), `aoa_negotiate_accessory_mode` (any
transport), `aoa_start_accessory_mode` and `aoa_set_device_info`, `aoa_get_state()` is
`Disconnected`, so neither `Connected` nor `AccessoryMode` is reached; and
`aoa_is_accessory_mode()` does become true, by one call of `aoa_start_accessory_mode`. -/
theorem disconnected_is_never_left (ops : List aoa_operation) (s : System) :
    aoa_get_state (run_operations ops (aoa_init s).2) = AOA_STATE_DISCONNECTED ∧
    aoa_get_state (run_operations ops (aoa_init s).2) ≠ AOA_STATE_CONNECTED ∧
    aoa_get_state (run_operations ops (aoa_init s).2) ≠ AOA_STATE_ACCESSORY_MODE ∧
    aoa_is_accessory_mode (aoa_init s).2 = false ∧
    aoa_is_accessory_mode
      (run_operations [aoa_operation.start_accessory_mode] (aoa_init s).2) = true := by
  have h := run_operations_disconnected ops (aoa_init s).2 rfl
  simp only [aoa_get_state, h]
  refine ⟨trivial, by decide, by decide, rfl, ?_⟩
  simp [run_operations, run_operation, aoa_start_accessory_mode, usb_set_device_descriptor,
    aoa_is_accessory_mode]

/-! ## Negotiation over the repository's own transport -/

/-- A vendor request to `usb_control_transfer` is only logged: `ESP_OK`, 0 bytes
transferred, nothing changed. -/
theorem vendor_transfer_ignored (DEPCTL_MPS : Nat → Nat) (bm req v i n : Nat)
    (d : Option (List Nat)) (tr : Option Nat) (s : System) (h : bm &&& 0x60 = 0x40) :
    usb_control_transfer DEPCTL_MPS bm req v i d n tr s
      = (ESP_OK, d, tr.map (fun _ => 0), s) := by
  simp [usb_control_transfer, h, standard_type_eq]

/-- C29: with `usb_control_transfer` as the transport, `aoa_negotiate_accessory_mode` called
in state `Connected` issues the `GET_PROTOCOL` transfer and nothing else: the transfer
returns `ESP_OK` with 0 bytes transferred, so the call returns `STATUS_ERROR_CONNECTION`
with the state `Connected`, the accessory flag, the identity, the gadget layer and the
controller as they were, and no `SEND_STRING` is issued. -/
theorem negotiation_over_own_transport_fails (DEPCTL_MPS : Nat → Nat) (st : Nat) (s : System)
    (hs : s.aoa.g_aoa_state = AOA_STATE_CONNECTED) :
    (aoa_negotiate_accessory_mode (usb_control_transfer DEPCTL_MPS) st s).1
      = STATUS_ERROR_CONNECTION ∧
    (aoa_negotiate_accessory_mode (usb_control_transfer DEPCTL_MPS) st s).2.1
      = [{ bmRequestType := 0xC0
           bRequest := AOA_CMD_GET_PROTOCOL
           wValue := 0
           wIndex := 0
           data := some [s.aoa.g_aoa_protocol_version % 256,
             s.aoa.g_aoa_protocol_version / 256 % 256]
           length := 2
           ret := ESP_OK
           transferred := 0
           data_after := some [s.aoa.g_aoa_protocol_version % 256,
             s.aoa.g_aoa_protocol_version / 256 % 256] }] ∧
    (∀ c ∈ (aoa_negotiate_accessory_mode (usb_control_transfer DEPCTL_MPS) st s).2.1,
      c.bRequest ≠ AOA_CMD_SEND_STRING) ∧
    (aoa_negotiate_accessory_mode (usb_control_transfer DEPCTL_MPS) st s).2.2.aoa.g_aoa_state
      = AOA_STATE_CONNECTED ∧
    (aoa_negotiate_accessory_mode (usb_control_transfer DEPCTL_MPS)
        st s).2.2.aoa.g_is_accessory_mode = s.aoa.g_is_accessory_mode ∧
    (aoa_negotiate_accessory_mode (usb_control_transfer DEPCTL_MPS)
        st s).2.2.aoa.g_current_device_info = s.aoa.g_current_device_info ∧
    (aoa_negotiate_accessory_mode (usb_control_transfer DEPCTL_MPS) st s).2.2.gadget
      = s.gadget ∧
    (aoa_negotiate_accessory_mode (usb_control_transfer DEPCTL_MPS) st s).2.2.otg = s.otg := by
  have hv := vendor_transfer_ignored DEPCTL_MPS
    (USB_REQ_TYPE_VENDOR ||| USB_REQ_TYPE_RECIPIENT_DEVICE ||| 0x80) AOA_CMD_GET_PROTOCOL 0 0 2
    (some [s.aoa.g_aoa_protocol_version % 256, s.aoa.g_aoa_protocol_version / 256 % 256])
    (some st) (set_aoa_state AOA_STATE_DETECTING s) (by decide)
  generalize hN : aoa_negotiate_accessory_mode (usb_control_transfer DEPCTL_MPS) st s = N
  unfold aoa_negotiate_accessory_mode at hN
  rw [if_neg (by simp [hs])] at hN
  simp only at hN
  have hver : (set_aoa_state AOA_STATE_DETECTING s).aoa.g_aoa_protocol_version
      = s.aoa.g_aoa_protocol_version := rfl
  rw [hver, hv] at hN
  rw [if_pos (by simp)] at hN
  subst hN
  refine ⟨rfl, rfl, ?_, rfl, rfl, rfl, rfl, rfl⟩
  intro c hc
  simp only [List.mem_singleton] at hc
  subst hc
  show (51 : Nat) ≠ 52
  decide

theorem negotiation_over_own_transport_fails_witness :
    (aoa_negotiate_accessory_mode (usb_control_transfer (fun x => x)) 7
      (set_aoa_state AOA_STATE_CONNECTED system_after_init)).1 = STATUS_ERROR_CONNECTION ∧
    (aoa_negotiate_accessory_mode (usb_control_transfer (fun x => x)) 7
      (set_aoa_state AOA_STATE_CONNECTED system_after_init)).2.2.aoa.g_aoa_state
      = AOA_STATE_CONNECTED :=
  ⟨(negotiation_over_own_transport_fails (fun x => x) 7
      (set_aoa_state AOA_STATE_CONNECTED system_after_init) rfl).1,
    (negotiation_over_own_transport_fails (fun x => x) 7
      (set_aoa_state AOA_STATE_CONNECTED system_after_init) rfl).2.2.2.1⟩

/-! ## The field that carries the string index -/

/-- C30, the code for the string ids 1 to 5: the one `SEND_STRING` request that
`aoa_send_string(i, s)` issues is a vendor request that carries `i` in `wValue` and 0 in
`wIndex`. `aoa_handle_control_request` handles such a request with the string index it
takes from `wIndex`, which is 0 and not `i`. The two sides use different fields of the
setup packet, and only string 0 is decoded with its own index. -/
theorem sent_string_index_read_from_other_field
    (transport : Nat → Nat → Nat → Nat → Option (List Nat) → Nat → Option Nat → System →
      Int × Option (List Nat) × Option Nat × System)
    (st i : Nat) (str : String) (s : System) (hi : 1 ≤ i ∧ i ≤ 5) :
    (aoa_send_string transport st i (some str) s).2.1.length = 1 ∧
    ∀ c ∈ (aoa_send_string transport st i (some str) s).2.1,
      c.bRequest = AOA_CMD_SEND_STRING ∧
      c.bmRequestType &&& 0x60 = USB_REQ_TYPE_VENDOR ∧
      c.wValue = i ∧
      c.wIndex = 0 ∧
      (∀ r : System,
        aoa_handle_control_request c.bmRequestType c.bRequest c.wValue c.wIndex c.data c.length r
          = (STATUS_OK, c.data,
              (aoa_handle_send_string (responder_string_index c.wValue c.wIndex) c.data r).2)) ∧
      responder_string_index c.wValue c.wIndex = 0 ∧
      responder_string_index c.wValue c.wIndex ≠ i := by
  refine ⟨rfl, ?_⟩
  intro c hc
  have hc1 : c ∈ [({ bmRequestType := USB_REQ_TYPE_VENDOR ||| USB_REQ_TYPE_RECIPIENT_DEVICE
                     bRequest := AOA_CMD_SEND_STRING
                     wValue := i
                     wIndex := 0
                     data := some (c_string_bytes str)
                     length := if strlen str > 255 then 255 else strlen str
                     ret := (transport (USB_REQ_TYPE_VENDOR ||| USB_REQ_TYPE_RECIPIENT_DEVICE)
                       AOA_CMD_SEND_STRING i 0 (some (c_string_bytes str))
                       (if strlen str > 255 then 255 else strlen str) (some st) s).1
                     transferred := (transport
                       (USB_REQ_TYPE_VENDOR ||| USB_REQ_TYPE_RECIPIENT_DEVICE)
                       AOA_CMD_SEND_STRING i 0 (some (c_string_bytes str))
                       (if strlen str > 255 then 255 else strlen str) (some st) s).2.2.1.getD st
                     data_after := (transport
                       (USB_REQ_TYPE_VENDOR ||| USB_REQ_TYPE_RECIPIENT_DEVICE)
                       AOA_CMD_SEND_STRING i 0 (some (c_string_bytes str))
                       (if strlen str > 255 then 255 else strlen str) (some st) s).2.1 } :
                   control_transfer_call)] := hc
  simp only [List.mem_singleton] at hc1
  subst hc1
  have hbm : (USB_REQ_TYPE_VENDOR ||| USB_REQ_TYPE_RECIPIENT_DEVICE) &&& 0x60 = 0x40 := by
    decide
  refine ⟨rfl, hbm, rfl, rfl, fun r => ?_, rfl, ?_⟩
  · exact control_send_string r _ _ _ _ _ hbm
  · show (0 : Nat) % 256 ≠ i
    omega

theorem sent_string_index_read_from_other_field_witness :
    (aoa_send_string transport_version_2 0 3 (some "1.0") system_after_init).2.1.length = 1 ∧
    ∀ c ∈ (aoa_send_string transport_version_2 0 3 (some "1.0") system_after_init).2.1,
      c.wValue = 3 ∧ c.wIndex = 0 ∧ responder_string_index c.wValue c.wIndex = 0 :=
  ⟨(sent_string_index_read_from_other_field transport_version_2 0 3 "1.0" system_after_init
      ⟨by decide, by decide⟩).1,
    fun c hc =>
      ⟨((sent_string_index_read_from_other_field transport_version_2 0 3 "1.0" system_after_init
          ⟨by decide, by decide⟩).2 c hc).2.2.1,
        ((sent_string_index_read_from_other_field transport_version_2 0 3 "1.0" system_after_init
          ⟨by decide, by decide⟩).2 c hc).2.2.2.1,
        ((sent_string_index_read_from_other_field transport_version_2 0 3 "1.0" system_after_init
          ⟨by decide, by decide⟩).2 c hc).2.2.2.2.2.1⟩⟩

end Vibecoding
